import Mathlib

/-!
# Synthesis: resource and index consistency layer

A shallow embedding of the Go packages `internal/domain`, `internal/postgres`
(tenant, notebook, vector and graph repositories) and of the tool handlers of
`internal/mcp` for tenants, notebooks and graph queries, followed by the
properties proved about them.

Conventions of the embedding:
* Go `string` is `String`, `[]T` is `List T` (a nil slice is the empty list),
  `*string` is `Option String`, `int` is `Int`, `time.Time` is a `Nat` instant.
* Go `error` is `Option String` (the message, `none` for `nil`); a function
  returning `(T, error)` returns `Except String T`.
* The database is an explicit `Store` value. Every call to the driver can fail:
  the pending driver failures are the `faults` of the connection, consumed one
  per call.
-/

namespace Synthesis

/-! ## Package `domain` -/

/-- Go `map[string]string`, as an association list. -/
abbrev StringMap := List (String × String)

/-- Go `map[string]interface{}`: every dynamic value is kept as its JSON text. -/
abbrev ConfigMap := List (String × String)

/-- Go `domain.Tenant`. -/
structure Tenant where
  ID : String
  Owner : String
  DisplayName : String
  Description : String
  Labels : StringMap
  Version : String
  LastModified : Nat
  deriving DecidableEq, Repr

/-- Go `domain.Library`. -/
structure Library where
  TenantID : String
  ID : String
  Owner : String
  DisplayName : String
  Description : String
  Labels : StringMap
  deriving DecidableEq, Repr

/-- Go `domain.ContentBlock`. -/
structure ContentBlock where
  UID : String
  ParentUID : Option String
  ContentType : String
  Data : String
  Order : Int
  Types : List String
  deriving DecidableEq, Repr

/-- Go `domain.Notification`. -/
structure Notification where
  URL : String
  deriving DecidableEq, Repr

/-- Go `domain.NotebookData`. -/
structure NotebookData where
  Markdown : String
  deriving DecidableEq, Repr

/-- Go `domain.NotebookContents`. -/
structure NotebookContents where
  Data : NotebookData
  ContentBlocks : List ContentBlock
  deriving DecidableEq, Repr

/-- Go `domain.Notebook`. -/
structure Notebook where
  TenantID : String
  ID : String
  LibraryID : String
  Status : String
  Owner : String
  DisplayName : String
  Description : String
  Contents : NotebookContents
  Notifications : List Notification
  deriving DecidableEq, Repr

/-- Go `domain.ExternalResource`. -/
structure ExternalResource where
  URL : String
  deriving DecidableEq, Repr

/-- Go `domain.Feature`; `TTL` is a `time.Duration` in nanoseconds. -/
structure Feature where
  TenantID : String
  ID : String
  DisplayName : String
  Description : String
  Resources : List ExternalResource
  Notifications : List Notification
  TTL : Int
  Values : StringMap
  deriving DecidableEq, Repr

/-- Go `domain.ToolConfig`. -/
structure ToolConfig where
  TenantID : String
  ID : String
  DisplayName : String
  Description : String
  Config : ConfigMap
  deriving DecidableEq, Repr

/-- Go `domain.Product`. -/
structure Product where
  TenantID : String
  ID : String
  DisplayName : String
  Description : String
  deriving DecidableEq, Repr

/-- Go `domain.Renderer`. -/
structure Renderer where
  Name : String
  Config : ConfigMap
  deriving DecidableEq, Repr

/-- Go `domain.Editor`. -/
structure Editor where
  Name : String
  Config : ConfigMap
  deriving DecidableEq, Repr

/-- Go `domain.Constraint` (the field `Type` is a reserved word here). -/
structure Constraint where
  Type_ : String
  Config : ConfigMap
  deriving DecidableEq, Repr

/-- Go `domain.TypeDef`. -/
structure TypeDef where
  Name : String
  Description : String
  Renderers : List Renderer
  Editors : List Editor
  Constraints : List Constraint
  Labels : StringMap
  deriving DecidableEq, Repr

/-- Method `Tenant.URI` (tenant.go). -/
def Tenant.URI (t : Tenant) : String :=
  "synthesis://tenant/" ++ t.ID

/-- Method `Library.URI` (library.go). -/
def Library.URI (l : Library) : String :=
  "synthesis://tenant/" ++ l.TenantID ++ "/library/" ++ l.ID

/-- Method `Notebook.URI` (notebook.go). -/
def Notebook.URI (n : Notebook) : String :=
  "synthesis://tenant/" ++ n.TenantID ++ "/notebook/" ++ n.ID

/-- Method `Feature.URI` (feature.go). -/
def Feature.URI (f : Feature) : String :=
  "synthesis://tenant/" ++ f.TenantID ++ "/feature/" ++ f.ID

/-- Method `ToolConfig.URI` (tool.go). -/
def ToolConfig.URI (t : ToolConfig) : String :=
  "synthesis://tenant/" ++ t.TenantID ++ "/tool/" ++ t.ID

/-- Method `Product.URI` (product.go). -/
def Product.URI (p : Product) : String :=
  "synthesis://tenant/" ++ p.TenantID ++ "/product/" ++ p.ID

/-- Method `TypeDef.URI` (type.go). -/
def TypeDef.URI (t : TypeDef) : String :=
  "synthesis://type/" ++ t.Name

/-- The seven kinds of addressable entity. -/
inductive Kind
  | tenant | library | notebook | feature | tool | product | typeDef
  deriving DecidableEq, Repr

/-- Any value that has a `URI()` method. -/
inductive Entity
  | tenant (t : Tenant)
  | library (l : Library)
  | notebook (n : Notebook)
  | feature (f : Feature)
  | tool (t : ToolConfig)
  | product (p : Product)
  | typeDef (t : TypeDef)
  deriving DecidableEq, Repr

/-- Dispatch of the `URI()` method on the dynamic type of the entity. -/
def Entity.URI : Entity → String
  | .tenant t => t.URI
  | .library l => l.URI
  | .notebook n => n.URI
  | .feature f => f.URI
  | .tool t => t.URI
  | .product p => p.URI
  | .typeDef t => t.URI

/-- Kind of an entity. -/
def Entity.kind : Entity → Kind
  | .tenant _ => .tenant
  | .library _ => .library
  | .notebook _ => .notebook
  | .feature _ => .feature
  | .tool _ => .tool
  | .product _ => .product
  | .typeDef _ => .typeDef

/-- Compound key of an entity: its identifier segments, outermost first. -/
def Entity.key : Entity → List String
  | .tenant t => [t.ID]
  | .library l => [l.TenantID, l.ID]
  | .notebook n => [n.TenantID, n.ID]
  | .feature f => [f.TenantID, f.ID]
  | .tool t => [t.TenantID, t.ID]
  | .product p => [p.TenantID, p.ID]
  | .typeDef t => [t.Name]

/-- The tenant-id segment of the URI, for the kinds that live under a tenant. -/
def Entity.tenantSegment : Entity → Option String
  | .tenant t => some t.ID
  | .library l => some l.TenantID
  | .notebook n => some n.TenantID
  | .feature f => some f.TenantID
  | .tool t => some t.TenantID
  | .product p => some p.TenantID
  | .typeDef _ => none

/-- The last identifier segment of the URI: entity id or type name. -/
def Entity.idSegment : Entity → String
  | .tenant t => t.ID
  | .library l => l.ID
  | .notebook n => n.ID
  | .feature f => f.ID
  | .tool t => t.ID
  | .product p => p.ID
  | .typeDef t => t.Name

/-- Some required identifier segment is the empty string. -/
def Entity.hasEmptySegment (e : Entity) : Bool :=
  e.key.any (fun s => s == "")

/-- The tenant-id segment, when there is one, contains no `/`. -/
def Entity.tenantSlashFree (e : Entity) : Prop :=
  ∀ t, e.tenantSegment = some t → '/' ∉ t.data

/-! ## Package `postgres`: the database

The table declarations are not part of the sources. The tables and columns are
the ones the statements of the repositories name; what the declarations may add
(cascading deletes, the generated key of `content_block`, the default of
`created_at`) is made explicit below. A table is the list of its rows in
insertion order, and a `SELECT` without `ORDER BY` returns them in that order.
Constraint violations are driver failures like any other. -/

/-- Bytes of a `labels_json` column: the output of `json.Marshal` for a string
map, or any other bytes (which `json.Unmarshal` rejects). -/
inductive JSONBytes
  | marshalled (m : StringMap)
  | malformed (raw : String)
  deriving DecidableEq, Repr

/-- Function `json.Marshal` on a `map[string]string`; it has no failing input. -/
def jsonMarshal (m : StringMap) : Except String JSONBytes :=
  .ok (.marshalled m)

/-- Function `json.Unmarshal` into a `map[string]string`. -/
def jsonUnmarshal : JSONBytes → Except String StringMap
  | .marshalled m => .ok m
  | .malformed raw => .error ("invalid labels: " ++ raw)

/-- Row of table `tenant`. -/
structure TenantRow where
  id : String
  owner : String
  display_name : String
  description : String
  labels_json : JSONBytes
  version : String
  last_modified : Nat
  created_at : Nat
  deriving DecidableEq, Repr

/-- Row of table `notebook`. -/
structure NotebookRow where
  id : String
  tenant_id : String
  library_id : String
  status : String
  owner : String
  display_name : String
  description : String
  created_at : Nat
  deriving DecidableEq, Repr

/-- Row of table `notebook_content`. -/
structure NotebookContentRow where
  notebook_id : String
  markdown : String
  deriving DecidableEq, Repr

/-- Row of table `content_block`; `id` is the key the database generates. -/
structure ContentBlockRow where
  id : Nat
  notebook_id : String
  uid : String
  parent_uid : Option String
  content_type : String
  data : String
  order : Int
  deriving DecidableEq, Repr

/-- Row of table `content_block_type`. -/
structure ContentBlockTypeRow where
  content_block_id : Nat
  type_name : String
  deriving DecidableEq, Repr

/-- Row of table `notebook_notification`. -/
structure NotebookNotificationRow where
  notebook_id : String
  nurl : String
  deriving DecidableEq, Repr

/-- Row of table `resource_index`. -/
structure ResourceIndexRow where
  uri : String
  entity_type : String
  entity_id : String
  tenant_id : String
  deriving DecidableEq, Repr

/-- Go `float32`: a value identified by its bit pattern. The repositories store
vectors and pass them on; they do no arithmetic on the components. -/
structure Float32 where
  bits : Nat
  deriving DecidableEq, Repr

/-- Go `pgvector.Vector`, made by `pgvector.NewVector` from a `[]float32`. -/
abbrev Vector := List Float32

/-- Row of table `notebook_embedding`. -/
structure NotebookEmbeddingRow where
  notebook_id : String
  embedding : Vector
  model : String
  updated_at : Nat
  deriving DecidableEq, Repr

/-- Row of table `feature_embedding`. -/
structure FeatureEmbeddingRow where
  feature_id : String
  embedding : Vector
  model : String
  updated_at : Nat
  deriving DecidableEq, Repr

/-- Contents of the relational store. -/
structure Store where
  tenant : List TenantRow
  notebook : List NotebookRow
  notebook_content : List NotebookContentRow
  content_block : List ContentBlockRow
  content_block_type : List ContentBlockTypeRow
  notebook_notification : List NotebookNotificationRow
  resource_index : List ResourceIndexRow
  notebook_embedding : List NotebookEmbeddingRow
  feature_embedding : List FeatureEmbeddingRow
  deriving DecidableEq, Repr

/-- The store with no rows. -/
def Store.empty : Store :=
  { tenant := [], notebook := [], notebook_content := [], content_block := [],
    content_block_type := [], notebook_notification := [], resource_index := [],
    notebook_embedding := [], feature_embedding := [] }

/-- Either `sql.ErrNoRows` or an error of the driver. -/
inductive DBError
  | ErrNoRows
  | driver (msg : String)
  deriving DecidableEq, Repr

/-- The method `Error()` of a database error. -/
def DBError.Error : DBError → String
  | .ErrNoRows => "sql: no rows in result set"
  | .driver msg => msg

/-- Go `postgres.DB`: the store behind the connection pool, the failures the
driver is going to report (one entry per call, `none` for a call that goes
through; after the last entry every call goes through), the instant that
`created_at` defaults to, and whether the foreign keys of the notebook tables
are declared `ON DELETE CASCADE`. -/
structure DB where
  store : Store
  faults : List (Option String)
  now : Nat
  cascade : Bool
  deriving DecidableEq, Repr

/-- One call to the driver: its failure, if one is pending, and the connection
after the call. -/
def DB.next (db : DB) : Option String × DB :=
  match db.faults with
  | [] => (none, db)
  | f :: rest => (f, { db with faults := rest })

/-- Method `db.ExecContext`: one statement in autocommit mode. The statement maps the
store to the new store and the number of rows affected (`RowsAffected`, which
the driver computes without a further call). -/
def DB.ExecContext (db : DB) (stmt : Store → Store × Nat) : Except String Nat × DB :=
  match db.next with
  | (some err, db) => (.error err, db)
  | (none, db) => (.ok (stmt db.store).2, { db with store := (stmt db.store).1 })

/-- Method `db.QueryRowContext(...).Scan(...)`: the first row of the result. -/
def DB.QueryRowContext {α : Type} (db : DB) (sel : Store → Option α) : Except DBError α × DB :=
  match db.next with
  | (some err, db) => (.error (.driver err), db)
  | (none, db) =>
    match sel db.store with
    | none => (.error .ErrNoRows, db)
    | some row => (.ok row, db)

/-- Method `db.QueryContext` with the loop over `rows.Next()`: all rows of the result. -/
def DB.QueryContext {α : Type} (db : DB) (sel : Store → List α) : Except String (List α) × DB :=
  match db.next with
  | (some err, db) => (.error err, db)
  | (none, db) => (.ok (sel db.store), db)

/-- Go `*sql.Tx`: the store as it was at `BeginTx`, and the connection whose
store is the working copy of the transaction. -/
structure Tx where
  base : Store
  conn : DB
  deriving DecidableEq, Repr

/-- Method `db.BeginTx`. -/
def DB.BeginTx (db : DB) : Except String Tx × DB :=
  match db.next with
  | (some err, db) => (.error err, db)
  | (none, db) => (.ok { base := db.store, conn := db }, db)

/-- Method `tx.ExecContext`: one statement on the working copy. -/
def Tx.ExecContext (tx : Tx) (stmt : Store → Store × Nat) : Except String Nat × Tx :=
  ((tx.conn.ExecContext stmt).1, { tx with conn := (tx.conn.ExecContext stmt).2 })

/-- Method `tx.QueryRowContext(...).Scan(...)` of an `INSERT ... RETURNING`: the
statement changes the working copy and returns one row. -/
def Tx.QueryRowContext {α : Type} (tx : Tx) (stmt : Store → Store × α) : Except String α × Tx :=
  match tx.conn.next with
  | (some err, conn) => (.error err, { tx with conn := conn })
  | (none, conn) =>
    (.ok (stmt conn.store).2, { tx with conn := { conn with store := (stmt conn.store).1 } })

/-- Method `tx.Rollback` on an open transaction: the store is the one of `BeginTx`. -/
def Tx.Rollback (tx : Tx) : DB :=
  { tx.conn with store := tx.base }

/-- Method `tx.Commit`: the working copy becomes the store, or the commit fails and
the transaction is rolled back. -/
def Tx.Commit (tx : Tx) : Option String × DB :=
  match tx.conn.next with
  | (some err, conn) => (some err, { conn with store := tx.base })
  | (none, conn) => (none, conn)

/-! ### Statements -/

/-- Statement `INSERT INTO tenant (id, owner, display_name, description,
labels_json, version, last_modified) VALUES (...)`. -/
def insertTenant (now : Nat) (id owner display_name description : String)
    (labels_json : JSONBytes) (version : String) (last_modified : Nat) (s : Store) :
    Store × Nat :=
  let row : TenantRow :=
    { id := id, owner := owner, display_name := display_name, description := description,
      labels_json := labels_json, version := version, last_modified := last_modified,
      created_at := now }
  ({ s with tenant := s.tenant ++ [row] }, 1)

/-- Statement `UPDATE tenant SET owner = $2, display_name = $3, description = $4,
labels_json = $5, version = $6 WHERE id = $1`. -/
def updateTenant (id owner display_name description : String) (labels_json : JSONBytes)
    (version : String) (s : Store) : Store × Nat :=
  let set (row : TenantRow) : TenantRow :=
    if row.id = id then
      { row with
        owner := owner, display_name := display_name, description := description,
        labels_json := labels_json, version := version }
    else row
  ({ s with tenant := s.tenant.map set }, (s.tenant.filter (fun row => row.id = id)).length)

/-- Removal of the notebooks selected by `p`; with cascading foreign keys also
of their content, content blocks, block types and notifications. -/
def Store.removeNotebooks (s : Store) (cascade : Bool) (p : NotebookRow → Bool) : Store :=
  let ids := (s.notebook.filter p).map (fun row => row.id)
  let blockIDs := (s.content_block.filter (fun b => ids.contains b.notebook_id)).map
    (fun b => b.id)
  if cascade then
    { s with
      notebook := s.notebook.filter (fun row => !p row),
      notebook_content := s.notebook_content.filter (fun c => !ids.contains c.notebook_id),
      content_block := s.content_block.filter (fun b => !ids.contains b.notebook_id),
      content_block_type :=
        s.content_block_type.filter (fun t => !blockIDs.contains t.content_block_id),
      notebook_notification :=
        s.notebook_notification.filter (fun n => !ids.contains n.notebook_id) }
  else
    { s with notebook := s.notebook.filter (fun row => !p row) }

/-- Statement `DELETE FROM tenant WHERE id = $1`; with cascading foreign keys
the notebooks of a deleted tenant go with it. -/
def deleteTenant (cascade : Bool) (id : String) (s : Store) : Store × Nat :=
  let s' :=
    if cascade ∧ s.tenant.any (fun row => row.id = id) then
      s.removeNotebooks true (fun row => row.tenant_id = id)
    else s
  ({ s' with tenant := s.tenant.filter (fun row => !(row.id = id)) },
   (s.tenant.filter (fun row => row.id = id)).length)

/-- Statement `DELETE FROM resource_index WHERE entity_type = 'tenant' AND
entity_id = $1`. -/
def deleteTenantResourceIndex (id : String) (s : Store) : Store × Nat :=
  let hit (row : ResourceIndexRow) : Bool := row.entity_type = "tenant" ∧ row.entity_id = id
  ({ s with resource_index := s.resource_index.filter (fun row => !hit row) },
   (s.resource_index.filter hit).length)

/-- Statement `INSERT INTO resource_index (uri, entity_type, entity_id, tenant_id)
VALUES (...) ON CONFLICT (uri) DO UPDATE SET entity_type = EXCLUDED.entity_type,
entity_id = EXCLUDED.entity_id, tenant_id = EXCLUDED.tenant_id`. -/
def upsertResourceIndex (uri entity_type entity_id tenant_id : String) (s : Store) :
    Store × Nat :=
  let set (row : ResourceIndexRow) : ResourceIndexRow :=
    if row.uri = uri then
      { row with entity_type := entity_type, entity_id := entity_id, tenant_id := tenant_id }
    else row
  let new : ResourceIndexRow :=
    { uri := uri, entity_type := entity_type, entity_id := entity_id, tenant_id := tenant_id }
  if s.resource_index.any (fun row => row.uri = uri) then
    ({ s with resource_index := s.resource_index.map set }, 1)
  else
    ({ s with resource_index := s.resource_index ++ [new] }, 1)

/-- Query `SELECT id, owner, display_name, description, labels_json, version,
last_modified FROM tenant WHERE id = $1`. -/
def selectTenant (id : String) (s : Store) : Option TenantRow :=
  s.tenant.find? (fun row => row.id = id)

/-- Statement `INSERT INTO notebook (id, tenant_id, library_id, status, owner,
display_name, description) VALUES (...)`. -/
def insertNotebook (now : Nat) (id tenant_id library_id status owner display_name
    description : String) (s : Store) : Store × Nat :=
  let row : NotebookRow :=
    { id := id, tenant_id := tenant_id, library_id := library_id, status := status,
      owner := owner, display_name := display_name, description := description,
      created_at := now }
  ({ s with notebook := s.notebook ++ [row] }, 1)

/-- Statement `INSERT INTO notebook_content (notebook_id, markdown) VALUES (...)`. -/
def insertNotebookContent (notebook_id markdown : String) (s : Store) : Store × Nat :=
  ({ s with notebook_content := s.notebook_content ++
      [{ notebook_id := notebook_id, markdown := markdown }] }, 1)

/-- Default of `content_block.id`: a key that no content block carries and no
block type refers to. -/
def Store.nextContentBlockID (s : Store) : Nat :=
  ((s.content_block.map (fun b => b.id)) ++
    (s.content_block_type.map (fun t => t.content_block_id))).foldr max 0 + 1

/-- Statement `INSERT INTO content_block (notebook_id, uid, parent_uid,
content_type, data, "order") VALUES (...) RETURNING id`. -/
def insertContentBlock (notebook_id uid : String) (parent_uid : Option String)
    (content_type data : String) (order : Int) (s : Store) : Store × Nat :=
  let row : ContentBlockRow :=
    { id := s.nextContentBlockID, notebook_id := notebook_id, uid := uid,
      parent_uid := parent_uid, content_type := content_type, data := data, order := order }
  ({ s with content_block := s.content_block ++ [row] }, row.id)

/-- Statement `INSERT INTO content_block_type (content_block_id, type_name)
VALUES (...)`. -/
def insertContentBlockType (content_block_id : Nat) (type_name : String) (s : Store) :
    Store × Nat :=
  ({ s with content_block_type := s.content_block_type ++
      [{ content_block_id := content_block_id, type_name := type_name }] }, 1)

/-- Statement `INSERT INTO notebook_notification (notebook_id, nurl) VALUES (...)`. -/
def insertNotebookNotification (notebook_id nurl : String) (s : Store) : Store × Nat :=
  ({ s with notebook_notification := s.notebook_notification ++
      [{ notebook_id := notebook_id, nurl := nurl }] }, 1)

/-- Statement `UPDATE notebook SET status = $2, owner = $3, display_name = $4,
description = $5 WHERE id = $1`. -/
def updateNotebook (id status owner display_name description : String) (s : Store) :
    Store × Nat :=
  let set (row : NotebookRow) : NotebookRow :=
    if row.id = id then
      { row with
        status := status, owner := owner, display_name := display_name,
        description := description }
    else row
  ({ s with notebook := s.notebook.map set },
   (s.notebook.filter (fun row => row.id = id)).length)

/-- Statement `UPDATE notebook_content SET markdown = $2 WHERE notebook_id = $1`. -/
def updateNotebookContent (notebook_id markdown : String) (s : Store) : Store × Nat :=
  let set (row : NotebookContentRow) : NotebookContentRow :=
    if row.notebook_id = notebook_id then { row with markdown := markdown } else row
  ({ s with notebook_content := s.notebook_content.map set },
   (s.notebook_content.filter (fun row => row.notebook_id = notebook_id)).length)

/-- Statement `DELETE FROM notebook WHERE id = $1`. -/
def deleteNotebook (cascade : Bool) (id : String) (s : Store) : Store × Nat :=
  (s.removeNotebooks cascade (fun row => row.id = id),
   (s.notebook.filter (fun row => row.id = id)).length)

/-- Query `SELECT id, tenant_id, library_id, status, owner, display_name,
description FROM notebook WHERE id = $1`. -/
def selectNotebook (id : String) (s : Store) : Option NotebookRow :=
  s.notebook.find? (fun row => row.id = id)

/-- Query `SELECT markdown FROM notebook_content WHERE notebook_id = $1`. -/
def selectNotebookContent (id : String) (s : Store) : Option String :=
  (s.notebook_content.find? (fun row => row.notebook_id = id)).map (fun row => row.markdown)

/-- Query `SELECT id, uid, parent_uid, content_type, data, "order" FROM
content_block WHERE notebook_id = $1 ORDER BY "order"`. -/
def selectContentBlocks (notebookID : String) (s : Store) : List ContentBlockRow :=
  (s.content_block.filter (fun row => row.notebook_id = notebookID)).insertionSort
    (fun a b => a.order ≤ b.order)

/-- Query `SELECT type_name FROM content_block_type WHERE content_block_id = $1`. -/
def selectContentBlockTypes (blockID : Nat) (s : Store) : List String :=
  (s.content_block_type.filter (fun row => row.content_block_id = blockID)).map
    (fun row => row.type_name)

/-- Query `SELECT nurl FROM notebook_notification WHERE notebook_id = $1`. -/
def selectNotebookNotifications (notebookID : String) (s : Store) : List String :=
  (s.notebook_notification.filter (fun row => row.notebook_id = notebookID)).map
    (fun row => row.nurl)

/-! ### `tenant_repo.go` -/

/-- Method `TenantRepository.updateResourceIndex`. -/
def TenantRepository.updateResourceIndex (db : DB) (tenant : Tenant) : Option String × DB :=
  match db.ExecContext (upsertResourceIndex tenant.URI "tenant" tenant.ID tenant.ID) with
  | (.error err, db) => (some err, db)
  | (.ok _, db) => (none, db)

/-- Method `TenantRepository.Create`. -/
def TenantRepository.Create (db : DB) (tenant : Tenant) : Option String × DB :=
  match jsonMarshal tenant.Labels with
  | .error err => (some ("failed to marshal labels: " ++ err), db)
  | .ok labelsJSON =>
    match db.ExecContext (insertTenant db.now tenant.ID tenant.Owner tenant.DisplayName
        tenant.Description labelsJSON tenant.Version tenant.LastModified) with
    | (.error err, db) => (some ("failed to create tenant: " ++ err), db)
    | (.ok _, db) =>
      -- Update resource index
      match TenantRepository.updateResourceIndex db tenant with
      | (some err, db) => (some ("failed to update resource index: " ++ err), db)
      | (none, db) => (none, db)

/-- Method `TenantRepository.Get`. -/
def TenantRepository.Get (db : DB) (id : String) : Except String Tenant :=
  match db.QueryRowContext (selectTenant id) with
  | (.error .ErrNoRows, _) => .error ("tenant not found: " ++ id)
  | (.error (.driver err), _) => .error ("failed to get tenant: " ++ err)
  | (.ok row, _) =>
    match jsonUnmarshal row.labels_json with
    | .error err => .error ("failed to unmarshal labels: " ++ err)
    | .ok labels =>
      .ok { ID := row.id, Owner := row.owner, DisplayName := row.display_name,
            Description := row.description, Labels := labels, Version := row.version,
            LastModified := row.last_modified }

/-- Method `TenantRepository.Update`. -/
def TenantRepository.Update (db : DB) (tenant : Tenant) : Option String × DB :=
  match jsonMarshal tenant.Labels with
  | .error err => (some ("failed to marshal labels: " ++ err), db)
  | .ok labelsJSON =>
    match db.ExecContext (updateTenant tenant.ID tenant.Owner tenant.DisplayName
        tenant.Description labelsJSON tenant.Version) with
    | (.error err, db) => (some ("failed to update tenant: " ++ err), db)
    | (.ok rows, db) =>
      if rows = 0 then
        (some ("tenant not found: " ++ tenant.ID), db)
      else
        -- Update resource index
        match TenantRepository.updateResourceIndex db tenant with
        | (some err, db) => (some ("failed to update resource index: " ++ err), db)
        | (none, db) => (none, db)

/-- Method `TenantRepository.Delete`. -/
def TenantRepository.Delete (db : DB) (id : String) : Option String × DB :=
  match db.ExecContext (deleteTenant db.cascade id) with
  | (.error err, db) => (some ("failed to delete tenant: " ++ err), db)
  | (.ok rows, db) =>
    if rows = 0 then
      (some ("tenant not found: " ++ id), db)
    else
      -- Delete from resource index
      match db.ExecContext (deleteTenantResourceIndex id) with
      | (.error err, db) => (some ("failed to delete from resource index: " ++ err), db)
      | (.ok _, db) => (none, db)

/-! ### `notebook_repo.go` -/

/-- Loop `for _, typeName := range block.Types` of `createContentBlock`. -/
def NotebookRepository.createContentBlock_types (tx : Tx) (blockID : Nat) :
    List String → Option String × Tx
  | [] => (none, tx)
  | typeName :: rest =>
    match tx.ExecContext (insertContentBlockType blockID typeName) with
    | (.error err, tx) => (some err, tx)
    | (.ok _, tx) => NotebookRepository.createContentBlock_types tx blockID rest

/-- Method `NotebookRepository.createContentBlock`. -/
def NotebookRepository.createContentBlock (tx : Tx) (notebookID : String)
    (block : ContentBlock) : Option String × Tx :=
  match tx.QueryRowContext (insertContentBlock notebookID block.UID block.ParentUID
      block.ContentType block.Data block.Order) with
  | (.error err, tx) => (some err, tx)
  | (.ok blockID, tx) =>
    -- Insert block types
    NotebookRepository.createContentBlock_types tx blockID block.Types

/-- Method `NotebookRepository.updateResourceIndex`. -/
def NotebookRepository.updateResourceIndex (tx : Tx) (notebook : Notebook) :
    Option String × Tx :=
  match tx.ExecContext
      (upsertResourceIndex notebook.URI "notebook" notebook.ID notebook.TenantID) with
  | (.error err, tx) => (some err, tx)
  | (.ok _, tx) => (none, tx)

/-- Loop `for _, block := range notebook.Contents.ContentBlocks` of `Create`. -/
def NotebookRepository.Create_blocks (tx : Tx) (notebookID : String) :
    List ContentBlock → Option String × Tx
  | [] => (none, tx)
  | block :: rest =>
    match NotebookRepository.createContentBlock tx notebookID block with
    | (some err, tx) => (some ("failed to create content block: " ++ err), tx)
    | (none, tx) => NotebookRepository.Create_blocks tx notebookID rest

/-- Loop `for _, notif := range notebook.Notifications` of `Create`. -/
def NotebookRepository.Create_notifications (tx : Tx) (notebookID : String) :
    List Notification → Option String × Tx
  | [] => (none, tx)
  | notif :: rest =>
    match tx.ExecContext (insertNotebookNotification notebookID notif.URL) with
    | (.error err, tx) => (some ("failed to create notification: " ++ err), tx)
    | (.ok _, tx) => NotebookRepository.Create_notifications tx notebookID rest

/-- Method `NotebookRepository.Create`. Every return before `tx.Commit` runs the
deferred `tx.Rollback`. -/
def NotebookRepository.Create (db : DB) (notebook : Notebook) : Option String × DB :=
  match db.BeginTx with
  | (.error err, db) => (some ("failed to begin transaction: " ++ err), db)
  | (.ok tx, _) =>
    -- Insert notebook
    match tx.ExecContext (insertNotebook tx.conn.now notebook.ID notebook.TenantID
        notebook.LibraryID notebook.Status notebook.Owner notebook.DisplayName
        notebook.Description) with
    | (.error err, tx) => (some ("failed to create notebook: " ++ err), tx.Rollback)
    | (.ok _, tx) =>
      -- Insert notebook content
      match tx.ExecContext
          (insertNotebookContent notebook.ID notebook.Contents.Data.Markdown) with
      | (.error err, tx) => (some ("failed to create notebook content: " ++ err), tx.Rollback)
      | (.ok _, tx) =>
        -- Insert content blocks
        match NotebookRepository.Create_blocks tx notebook.ID
            notebook.Contents.ContentBlocks with
        | (some err, tx) => (some err, tx.Rollback)
        | (none, tx) =>
          -- Insert notifications
          match NotebookRepository.Create_notifications tx notebook.ID
              notebook.Notifications with
          | (some err, tx) => (some err, tx.Rollback)
          | (none, tx) =>
            -- Update resource index
            match NotebookRepository.updateResourceIndex tx notebook with
            | (some err, tx) =>
              (some ("failed to update resource index: " ++ err), tx.Rollback)
            | (none, tx) => tx.Commit

/-- Loop `for rows.Next()` of `getContentBlocks`: one query for the types of
each block; `blocks` is the slice built so far. -/
def NotebookRepository.getContentBlocks_rows (db : DB) (blocks : List ContentBlock) :
    List ContentBlockRow → Except String (List ContentBlock) × DB
  | [] => (.ok blocks, db)
  | row :: rest =>
    -- Get types for this block
    match db.QueryContext (selectContentBlockTypes row.id) with
    | (.error err, db) => (.error err, db)
    | (.ok types, db) =>
      NotebookRepository.getContentBlocks_rows db
        (blocks ++ [{ UID := row.uid, ParentUID := row.parent_uid,
                      ContentType := row.content_type, Data := row.data,
                      Order := row.order, Types := types }]) rest

/-- Method `NotebookRepository.getContentBlocks`. -/
def NotebookRepository.getContentBlocks (db : DB) (notebookID : String) :
    Except String (List ContentBlock) × DB :=
  match db.QueryContext (selectContentBlocks notebookID) with
  | (.error err, db) => (.error err, db)
  | (.ok rows, db) => NotebookRepository.getContentBlocks_rows db [] rows

/-- Method `NotebookRepository.getNotifications`. -/
def NotebookRepository.getNotifications (db : DB) (notebookID : String) :
    Except String (List Notification) × DB :=
  match db.QueryContext (selectNotebookNotifications notebookID) with
  | (.error err, db) => (.error err, db)
  | (.ok rows, db) => (.ok (rows.map (fun nurl => { URL := nurl })), db)

/-- Method `NotebookRepository.Get`. -/
def NotebookRepository.Get (db : DB) (id : String) : Except String Notebook :=
  match db.QueryRowContext (selectNotebook id) with
  | (.error .ErrNoRows, _) => .error ("notebook not found: " ++ id)
  | (.error (.driver err), _) => .error ("failed to get notebook: " ++ err)
  | (.ok row, db) =>
    -- Get content
    match db.QueryRowContext (selectNotebookContent id) with
    | (.error (.driver err), _) => .error ("failed to get notebook content: " ++ err)
    | (content, db) =>
      -- Get content blocks
      match NotebookRepository.getContentBlocks db id with
      | (.error err, _) => .error ("failed to get content blocks: " ++ err)
      | (.ok blocks, db) =>
        -- Get notifications
        match NotebookRepository.getNotifications db id with
        | (.error err, _) => .error ("failed to get notifications: " ++ err)
        | (.ok notifs, _) =>
          .ok { TenantID := row.tenant_id, ID := row.id, LibraryID := row.library_id,
                Status := row.status, Owner := row.owner, DisplayName := row.display_name,
                Description := row.description,
                Contents :=
                  { Data := { Markdown := match content with
                                          | .ok markdown => markdown
                                          | .error _ => "" },
                    ContentBlocks := blocks },
                Notifications := notifs }

/-- Method `NotebookRepository.Update`. -/
def NotebookRepository.Update (db : DB) (notebook : Notebook) : Option String × DB :=
  match db.BeginTx with
  | (.error err, db) => (some ("failed to begin transaction: " ++ err), db)
  | (.ok tx, _) =>
    match tx.ExecContext (updateNotebook notebook.ID notebook.Status notebook.Owner
        notebook.DisplayName notebook.Description) with
    | (.error err, tx) => (some ("failed to update notebook: " ++ err), tx.Rollback)
    | (.ok rows, tx) =>
      if rows = 0 then
        (some ("notebook not found: " ++ notebook.ID), tx.Rollback)
      else
        -- Update content
        match tx.ExecContext
            (updateNotebookContent notebook.ID notebook.Contents.Data.Markdown) with
        | (.error err, tx) =>
          (some ("failed to update notebook content: " ++ err), tx.Rollback)
        | (.ok _, tx) => tx.Commit

/-- Method `NotebookRepository.Delete`. -/
def NotebookRepository.Delete (db : DB) (id : String) : Option String × DB :=
  match db.ExecContext (deleteNotebook db.cascade id) with
  | (.error err, db) => (some ("failed to delete notebook: " ++ err), db)
  | (.ok rows, db) =>
    if rows = 0 then
      (some ("notebook not found: " ++ id), db)
    else
      (none, db)

/-- Stores that the repositories can produce, starting from the empty store. -/
inductive Reachable : Store → Prop
  | empty : Reachable Store.empty
  | tenantCreate (db : DB) (t : Tenant) :
      Reachable db.store → Reachable (TenantRepository.Create db t).2.store
  | tenantUpdate (db : DB) (t : Tenant) :
      Reachable db.store → Reachable (TenantRepository.Update db t).2.store
  | tenantDelete (db : DB) (id : String) :
      Reachable db.store → Reachable (TenantRepository.Delete db id).2.store
  | notebookCreate (db : DB) (n : Notebook) :
      Reachable db.store → Reachable (NotebookRepository.Create db n).2.store
  | notebookUpdate (db : DB) (n : Notebook) :
      Reachable db.store → Reachable (NotebookRepository.Update db n).2.store
  | notebookDelete (db : DB) (id : String) :
      Reachable db.store → Reachable (NotebookRepository.Delete db id).2.store

/-! ### What the notebook statements amount to -/

/-- Store after the statements of a successful `createContentBlock`: the block
row with its generated key, then one row per type tag. -/
def Store.addBlock (notebookID : String) (s : Store) (block : ContentBlock) : Store :=
  { s with
    content_block := s.content_block ++
      [{ id := s.nextContentBlockID, notebook_id := notebookID, uid := block.UID,
         parent_uid := block.ParentUID, content_type := block.ContentType,
         data := block.Data, order := block.Order }],
    content_block_type := s.content_block_type ++
      block.Types.map (fun typeName =>
        { content_block_id := s.nextContentBlockID, type_name := typeName }) }

/-- Store after the statements of a successful `NotebookRepository.Create`,
before the commit. -/
def Store.created (now : Nat) (n : Notebook) (s : Store) : Store :=
  let s1 := (insertNotebook now n.ID n.TenantID n.LibraryID n.Status n.Owner n.DisplayName
    n.Description s).1
  let s2 := (insertNotebookContent n.ID n.Contents.Data.Markdown s1).1
  let s3 := n.Contents.ContentBlocks.foldl (Store.addBlock n.ID) s2
  let s4 : Store :=
    { s3 with
      notebook_notification := s3.notebook_notification ++
        n.Notifications.map (fun notif => { notebook_id := n.ID, nurl := notif.URL }) }
  (upsertResourceIndex n.URI "notebook" n.ID n.TenantID s4).1

/-- Content block that `getContentBlocks` builds from a row and its type tags. -/
def ContentBlockRow.toBlock (s : Store) (row : ContentBlockRow) : ContentBlock :=
  { UID := row.uid, ParentUID := row.parent_uid, ContentType := row.content_type,
    Data := row.data, Order := row.order, Types := selectContentBlockTypes row.id s }

/-- Content blocks of a notebook in table order, each with its type tags. -/
def Store.scanBlocks (s : Store) (notebookID : String) : List ContentBlock :=
  (s.content_block.filter (fun row => row.notebook_id = notebookID)).map
    (ContentBlockRow.toBlock s)

/-- No row of the notebook tables refers to the notebook id. -/
def Store.freshNotebookID (s : Store) (id : String) : Prop :=
  (∀ row ∈ s.notebook, row.id ≠ id) ∧
  (∀ row ∈ s.notebook_content, row.notebook_id ≠ id) ∧
  (∀ row ∈ s.content_block, row.notebook_id ≠ id) ∧
  (∀ row ∈ s.notebook_notification, row.notebook_id ≠ id)

/-- What `NotebookRepository.Get` assembles from a store whose queries all go
through. -/
def Store.getNotebook (s : Store) (id : String) : Except String Notebook :=
  match selectNotebook id s with
  | none => .error ("notebook not found: " ++ id)
  | some row =>
    .ok { TenantID := row.tenant_id, ID := row.id, LibraryID := row.library_id,
          Status := row.status, Owner := row.owner, DisplayName := row.display_name,
          Description := row.description,
          Contents :=
            { Data := { Markdown := (selectNotebookContent id s).getD "" },
              ContentBlocks := (selectContentBlocks id s).map (ContentBlockRow.toBlock s) },
          Notifications :=
            (selectNotebookNotifications id s).map (fun nurl => { URL := nurl }) }

/-- Every `labels_json` of table `tenant` is the output of `json.Marshal`. -/
def Store.labelsValid (s : Store) : Prop :=
  ∀ row ∈ s.tenant, ∃ m, row.labels_json = .marshalled m

/-! ### Listing (`tenant_repo.go`, `notebook_repo.go`) -/

/-- Query `SELECT id, owner, display_name, description, labels_json, version,
last_modified FROM tenant ORDER BY created_at DESC`. -/
def selectTenants (s : Store) : List TenantRow :=
  s.tenant.insertionSort (fun a b => b.created_at ≤ a.created_at)

/-- Loop `for rows.Next()` of `TenantRepository.List`; `tenants` is the slice
built so far. -/
def TenantRepository.List_rows (tenants : List Tenant) :
    List TenantRow → Except String (List Tenant)
  | [] => .ok tenants
  | row :: rest =>
    match jsonUnmarshal row.labels_json with
    | .error err => .error ("failed to unmarshal labels: " ++ err)
    | .ok labels =>
      TenantRepository.List_rows
        (tenants ++ [{ ID := row.id, Owner := row.owner, DisplayName := row.display_name,
                       Description := row.description, Labels := labels,
                       Version := row.version, LastModified := row.last_modified }]) rest

/-- Method `TenantRepository.List`. -/
def TenantRepository.List (db : DB) : Except String (List Tenant) :=
  match db.QueryContext selectTenants with
  | (.error err, _) => .error ("failed to list tenants: " ++ err)
  | (.ok rows, _) => TenantRepository.List_rows [] rows

/-- Query `SELECT id, tenant_id, library_id, status, owner, display_name,
description FROM notebook WHERE library_id = $1 ORDER BY created_at DESC`. -/
def selectNotebooksByLibrary (libraryID : String) (s : Store) : List NotebookRow :=
  (s.notebook.filter (fun row => row.library_id = libraryID)).insertionSort
    (fun a b => b.created_at ≤ a.created_at)

/-- Notebook that `ListByLibrary` scans from a row: the columns of table
`notebook`, no content and no notifications. -/
def NotebookRow.toNotebook (row : NotebookRow) : Notebook :=
  { TenantID := row.tenant_id, ID := row.id, LibraryID := row.library_id,
    Status := row.status, Owner := row.owner, DisplayName := row.display_name,
    Description := row.description,
    Contents := { Data := { Markdown := "" }, ContentBlocks := [] },
    Notifications := [] }

/-- Method `NotebookRepository.ListByLibrary`. -/
def NotebookRepository.ListByLibrary (db : DB) (libraryID : String) :
    Except String (List Notebook) :=
  match db.QueryContext (selectNotebooksByLibrary libraryID) with
  | (.error err, _) => .error ("failed to list notebooks: " ++ err)
  | (.ok rows, _) => .ok (rows.map NotebookRow.toNotebook)

/-- Tenant that `Get` and `List` scan from a row whose labels decode. -/
def TenantRow.toTenant (row : TenantRow) : Tenant :=
  { ID := row.id, Owner := row.owner, DisplayName := row.display_name,
    Description := row.description,
    Labels := match row.labels_json with
              | .marshalled m => m
              | .malformed _ => [],
    Version := row.version, LastModified := row.last_modified }

/-! ### `vector_repo.go` -/

/-- Go `postgres.SearchResult`; `Score` stands for `float64`. -/
structure SearchResult (Score : Type) where
  ID : String
  Similarity : Score
  deriving DecidableEq, Repr

/-- What the database computes on vectors, none of it in the sources: the
operator `<=>` of pgvector (cosine distance) and the expression `1 - x` on its
result. The type `Score` stands for `double precision` with the order that
`ORDER BY` uses. -/
structure VectorOps (Score : Type) where
  distance : Vector → Vector → Score
  oneMinus : Score → Score

/-- Method `db.QueryContext` for a query that the database can reject on its
own account. -/
def DB.QueryContextChecked {α : Type} (db : DB) (sel : Store → Except String (List α)) :
    Except String (List α) × DB :=
  match db.next with
  | (some err, db) => (.error err, db)
  | (none, db) => (sel db.store, db)

/-- Statement `INSERT INTO notebook_embedding (notebook_id, embedding, model)
VALUES ($1, $2, $3) ON CONFLICT (notebook_id) DO UPDATE SET embedding =
EXCLUDED.embedding, model = EXCLUDED.model, updated_at = CURRENT_TIMESTAMP`.
The column `updated_at` of an inserted row takes the current instant. -/
def upsertNotebookEmbedding (now : Nat) (notebook_id : String) (embedding : Vector)
    (model : String) (s : Store) : Store × Nat :=
  let set (row : NotebookEmbeddingRow) : NotebookEmbeddingRow :=
    if row.notebook_id = notebook_id then
      { row with embedding := embedding, model := model, updated_at := now }
    else row
  let new : NotebookEmbeddingRow :=
    { notebook_id := notebook_id, embedding := embedding, model := model, updated_at := now }
  if s.notebook_embedding.any (fun row => row.notebook_id = notebook_id) then
    ({ s with notebook_embedding := s.notebook_embedding.map set }, 1)
  else
    ({ s with notebook_embedding := s.notebook_embedding ++ [new] }, 1)

/-- Statement `INSERT INTO feature_embedding (feature_id, embedding, model)
VALUES ($1, $2, $3) ON CONFLICT (feature_id) DO UPDATE SET embedding =
EXCLUDED.embedding, model = EXCLUDED.model, updated_at = CURRENT_TIMESTAMP`. -/
def upsertFeatureEmbedding (now : Nat) (feature_id : String) (embedding : Vector)
    (model : String) (s : Store) : Store × Nat :=
  let set (row : FeatureEmbeddingRow) : FeatureEmbeddingRow :=
    if row.feature_id = feature_id then
      { row with embedding := embedding, model := model, updated_at := now }
    else row
  let new : FeatureEmbeddingRow :=
    { feature_id := feature_id, embedding := embedding, model := model, updated_at := now }
  if s.feature_embedding.any (fun row => row.feature_id = feature_id) then
    ({ s with feature_embedding := s.feature_embedding.map set }, 1)
  else
    ({ s with feature_embedding := s.feature_embedding ++ [new] }, 1)

/-- Statement `DELETE FROM notebook_embedding WHERE notebook_id = $1`. -/
def deleteNotebookEmbedding (notebook_id : String) (s : Store) : Store × Nat :=
  ({ s with notebook_embedding :=
      s.notebook_embedding.filter (fun row => !(row.notebook_id = notebook_id)) },
   (s.notebook_embedding.filter (fun row => row.notebook_id = notebook_id)).length)

/-- Statement `DELETE FROM feature_embedding WHERE feature_id = $1`. -/
def deleteFeatureEmbedding (feature_id : String) (s : Store) : Store × Nat :=
  ({ s with feature_embedding :=
      s.feature_embedding.filter (fun row => !(row.feature_id = feature_id)) },
   (s.feature_embedding.filter (fun row => row.feature_id = feature_id)).length)

/-- Query `SELECT notebook_id, 1 - (embedding <=> $1) as similarity FROM
notebook_embedding ORDER BY embedding <=> $1 LIMIT $2`. The database rejects a
negative `LIMIT`. -/
def searchNotebookEmbeddings {Score : Type} [LinearOrder Score] (ops : VectorOps Score)
    (query : Vector) (limit : Int) (s : Store) : Except String (List (SearchResult Score)) :=
  if limit < 0 then
    .error "pq: LIMIT must not be negative"
  else
    .ok (((s.notebook_embedding.insertionSort
        (fun a b => ops.distance a.embedding query ≤ ops.distance b.embedding query)).take
          limit.toNat).map
        (fun row => { ID := row.notebook_id,
                      Similarity := ops.oneMinus (ops.distance row.embedding query) }))

/-- Query `SELECT feature_id, 1 - (embedding <=> $1) as similarity FROM
feature_embedding ORDER BY embedding <=> $1 LIMIT $2`. -/
def searchFeatureEmbeddings {Score : Type} [LinearOrder Score] (ops : VectorOps Score)
    (query : Vector) (limit : Int) (s : Store) : Except String (List (SearchResult Score)) :=
  if limit < 0 then
    .error "pq: LIMIT must not be negative"
  else
    .ok (((s.feature_embedding.insertionSort
        (fun a b => ops.distance a.embedding query ≤ ops.distance b.embedding query)).take
          limit.toNat).map
        (fun row => { ID := row.feature_id,
                      Similarity := ops.oneMinus (ops.distance row.embedding query) }))

/-- Method `VectorRepository.UpsertNotebookEmbedding`. -/
def VectorRepository.UpsertNotebookEmbedding (db : DB) (notebookID : String)
    (embedding : List Float32) (model : String) : Option String × DB :=
  match db.ExecContext (upsertNotebookEmbedding db.now notebookID embedding model) with
  | (.error err, db) => (some ("failed to upsert notebook embedding: " ++ err), db)
  | (.ok _, db) => (none, db)

/-- Method `VectorRepository.UpsertFeatureEmbedding`. -/
def VectorRepository.UpsertFeatureEmbedding (db : DB) (featureID : String)
    (embedding : List Float32) (model : String) : Option String × DB :=
  match db.ExecContext (upsertFeatureEmbedding db.now featureID embedding model) with
  | (.error err, db) => (some ("failed to upsert feature embedding: " ++ err), db)
  | (.ok _, db) => (none, db)

/-- Method `VectorRepository.SearchNotebooks`. -/
def VectorRepository.SearchNotebooks {Score : Type} [LinearOrder Score]
    (ops : VectorOps Score) (db : DB) (queryEmbedding : List Float32) (limit : Int) :
    Except String (List (SearchResult Score)) :=
  match db.QueryContextChecked (searchNotebookEmbeddings ops queryEmbedding limit) with
  | (.error err, _) => .error ("failed to search notebooks: " ++ err)
  | (.ok results, _) => .ok results

/-- Method `VectorRepository.SearchFeatures`. -/
def VectorRepository.SearchFeatures {Score : Type} [LinearOrder Score]
    (ops : VectorOps Score) (db : DB) (queryEmbedding : List Float32) (limit : Int) :
    Except String (List (SearchResult Score)) :=
  match db.QueryContextChecked (searchFeatureEmbeddings ops queryEmbedding limit) with
  | (.error err, _) => .error ("failed to search features: " ++ err)
  | (.ok results, _) => .ok results

/-- Method `VectorRepository.DeleteNotebookEmbedding`. -/
def VectorRepository.DeleteNotebookEmbedding (db : DB) (notebookID : String) :
    Option String × DB :=
  match db.ExecContext (deleteNotebookEmbedding notebookID) with
  | (.error err, db) => (some ("failed to delete notebook embedding: " ++ err), db)
  | (.ok _, db) => (none, db)

/-- Method `VectorRepository.DeleteFeatureEmbedding`. -/
def VectorRepository.DeleteFeatureEmbedding (db : DB) (featureID : String) :
    Option String × DB :=
  match db.ExecContext (deleteFeatureEmbedding featureID) with
  | (.error err, db) => (some ("failed to delete feature embedding: " ++ err), db)
  | (.ok _, db) => (none, db)

/-- Table `resource_index` has at most one row per URI, as `ON CONFLICT (uri)`
requires. -/
def Store.indexKeyed (s : Store) : Prop :=
  (s.resource_index.map (fun row => row.uri)).Nodup

/-- Table `notebook_embedding` has at most one row per notebook id, as
`ON CONFLICT (notebook_id)` requires. -/
def Store.notebookEmbeddingKeyed (s : Store) : Prop :=
  (s.notebook_embedding.map (fun row => row.notebook_id)).Nodup

/-- Table `feature_embedding` has at most one row per feature id, as
`ON CONFLICT (feature_id)` requires. -/
def Store.featureEmbeddingKeyed (s : Store) : Prop :=
  (s.feature_embedding.map (fun row => row.feature_id)).Nodup

/-! ## Package `mcp` -/

/-- Go `*mcp.CallToolResult`, made by `mcp.NewToolResultError(text)` or by
`mcp.NewToolResultText(text)`. The text of the latter is `json.Marshal` of a
map; it is kept as the fields of the map, in the order of the encoding (sorted
by key), a value that is not a string as its JSON text. -/
inductive CallToolResult
  | error (text : String)
  | text (fields : StringMap)
  deriving DecidableEq, Repr

/-- The struct `args` of `handleCreateTenant`. -/
structure CreateTenantArgs where
  TenantID : String
  Owner : String
  DisplayName : String
  Description : String
  Labels : StringMap
  deriving DecidableEq, Repr

/-- The struct `args` of `handleCreateNotebook`. -/
structure CreateNotebookArgs where
  TenantID : String
  LibraryID : String
  NotebookID : String
  DisplayName : String
  Description : String
  InitialMarkdown : String
  deriving DecidableEq, Repr

/-- Method `Server.handleCreateTenant`. The repositories of the server share the
connection `db`; `clock` is `time.Now()`; `args` is the outcome of decoding
`request.Params.Arguments` into the struct (`json.Marshal`, `json.Unmarshal`). -/
def Server.handleCreateTenant (db : DB) (clock : Nat) (args : Except String CreateTenantArgs) :
    CallToolResult × DB :=
  match args with
  | .error err => (.error ("failed to parse arguments: " ++ err), db)
  | .ok args =>
    -- Validate required fields
    if args.TenantID = "" ∨ args.Owner = "" ∨ args.DisplayName = "" then
      (.error "tenantId, owner, and display_name are required", db)
    else
      -- Create tenant
      let tenant : Tenant :=
        { ID := args.TenantID, Owner := args.Owner, DisplayName := args.DisplayName,
          Description := args.Description, Labels := args.Labels, Version := "1",
          LastModified := clock }
      match TenantRepository.Create db tenant with
      | (some err, db) => (.error ("failed to create tenant: " ++ err), db)
      | (none, db) =>
        -- Return success response
        (.text [("message", "Tenant created successfully"), ("tenantId", tenant.ID),
                ("tenantUri", tenant.URI)], db)

/-- Method `Server.handleCreateNotebook`. -/
def Server.handleCreateNotebook (db : DB) (args : Except String CreateNotebookArgs) :
    CallToolResult × DB :=
  match args with
  | .error err => (.error ("failed to parse arguments: " ++ err), db)
  | .ok args =>
    -- Create notebook
    let notebook : Notebook :=
      { TenantID := args.TenantID, ID := args.NotebookID, LibraryID := args.LibraryID,
        Status := "draft", Owner := "system", DisplayName := args.DisplayName,
        Description := args.Description,
        Contents := { Data := { Markdown := args.InitialMarkdown }, ContentBlocks := [] },
        Notifications := [] }
    match NotebookRepository.Create db notebook with
    | (some err, db) => (.error ("failed to create notebook: " ++ err), db)
    | (none, db) =>
      -- Return success response
      (.text [("message", "Notebook created successfully"), ("notebookId", notebook.ID),
              ("notebookUri", notebook.URI)], db)

/-- Table after `INSERT ... ON CONFLICT (key) DO UPDATE` of the row `new`, where
`p` selects the rows with the key of `new`: those rows become `new`, or `new`
is appended when there is none. -/
def upsertRows {α : Type} (p : α → Bool) (new : α) (l : List α) : List α :=
  if l.any p then l.map (fun a => if p a then new else a) else l ++ [new]

/-! ### Search within a tenant (`vector_repo.go`) -/

/-- Query `SELECT ne.notebook_id, 1 - (ne.embedding <=> $1) as similarity FROM
notebook_embedding ne JOIN notebook n ON ne.notebook_id = n.id WHERE
n.tenant_id = $2 ORDER BY ne.embedding <=> $1 LIMIT $3`. The join has one row
for every pair of an embedding row and a notebook row with the same id. -/
def searchNotebookEmbeddingsByTenant {Score : Type} [LinearOrder Score] (ops : VectorOps Score)
    (query : Vector) (tenant_id : String) (limit : Int) (s : Store) :
    Except String (List (SearchResult Score)) :=
  let joined : List NotebookEmbeddingRow :=
    s.notebook_embedding.flatMap (fun ne =>
      (s.notebook.filter (fun n => ne.notebook_id = n.id ∧ n.tenant_id = tenant_id)).map
        (fun _ => ne))
  if limit < 0 then
    .error "pq: LIMIT must not be negative"
  else
    .ok (((joined.insertionSort
        (fun a b => ops.distance a.embedding query ≤ ops.distance b.embedding query)).take
          limit.toNat).map
        (fun row => { ID := row.notebook_id,
                      Similarity := ops.oneMinus (ops.distance row.embedding query) }))

/-- Method `VectorRepository.SearchNotebooksByTenant`. -/
def VectorRepository.SearchNotebooksByTenant {Score : Type} [LinearOrder Score]
    (ops : VectorOps Score) (db : DB) (tenantID : String) (queryEmbedding : List Float32)
    (limit : Int) : Except String (List (SearchResult Score)) :=
  match db.QueryContextChecked
      (searchNotebookEmbeddingsByTenant ops queryEmbedding tenantID limit) with
  | (.error err, _) => .error ("failed to search notebooks by tenant: " ++ err)
  | (.ok results, _) => .ok results

/-- Table `notebook` has at most one row per id (`id` is its key). -/
def Store.notebookKeyed (s : Store) : Prop :=
  (s.notebook.map (fun row => row.id)).Nodup

/-! ### The tool `append_content_block` (`tools_notebook.go`) -/

/-- Go `mcp.CallToolRequest`: the map `Params.Arguments`, every value kept as
its JSON text. -/
abbrev CallToolRequest := ConfigMap

/-- Method `Server.handleAppendContentBlock`. It does not read the request and
calls no repository. -/
def Server.handleAppendContentBlock (db : DB) (_request : CallToolRequest) :
    CallToolResult × DB :=
  -- Placeholder implementation
  (.text [("message", "Append content block not yet implemented")], db)

/-! ### `graph_repo.go`

Apache AGE, which keeps the graph `synthesis_graph` in the same database, is not
part of the sources. The graph is kept next to the relational store, which the
statements of the graph repository do not touch. Of Cypher the model reads the
two statement forms that the repository sends, laid out as the repository lays
them out; any other text is answered with a syntax error. -/

/-- Go `postgres.GraphNode` (the field `Type` is a reserved word here); the map
of properties keeps every value as its JSON text. -/
structure GraphNode where
  ID : String
  Type_ : String
  Properties : ConfigMap
  deriving DecidableEq, Repr

/-- Go `postgres.GraphEdge`. -/
structure GraphEdge where
  FromID : String
  ToID : String
  Type_ : String
  Properties : ConfigMap
  deriving DecidableEq, Repr

/-- Go `postgres.GraphQueryResult`. -/
structure GraphQueryResult where
  Nodes : List GraphNode
  Edges : List GraphEdge
  deriving DecidableEq, Repr

/-- The graph `synthesis_graph`: a node has the label `Type_` and the property
`id` with value `ID`; an edge has the label `Type_` and names its end nodes by
their `id`. -/
structure Graph where
  nodes : List GraphNode
  edges : List GraphEdge
  deriving DecidableEq, Repr

/-- Go `postgres.DB` as the graph repository uses it: the connection and the
graph behind it. -/
structure GraphDB where
  conn : DB
  graph : Graph
  deriving DecidableEq, Repr

/-- The statements of the graph repository, once read. -/
inductive CypherStatement
  | merge (fromType fromID toType toID relType : String)
  | delete (fromID relType toID : String)
  deriving DecidableEq, Repr

/-- The single quote, which opens and closes a string literal of Cypher. -/
def quoteChar : Char := Char.ofNat 39

/-- The backslash, which escapes the next character of a string literal. -/
def escapeChar : Char := Char.ofNat 92

/-- Reading of a fixed text: the rest of the input after it. -/
def expectText : List Char → List Char → Option (List Char)
  | [], input => some input
  | _ :: _, [] => none
  | c :: cs, d :: input => if c = d then expectText cs input else none

/-- Character of a label or relationship type: a letter, a digit or `_`. -/
def isLabelChar (c : Char) : Bool :=
  c.isAlphanum || c = '_'

/-- Reading of a label: the longest run of label characters, and the rest. -/
def readLabel : List Char → List Char × List Char
  | [] => ([], [])
  | c :: input =>
    if isLabelChar c then (c :: (readLabel input).1, (readLabel input).2)
    else ([], c :: input)

/-- Reading of a string literal after its opening quote: the characters up to the
closing quote, and the rest after that quote. A backslash takes the next
character into the literal; `escaped` tells that the last character was one. -/
def readLiteral (escaped : Bool) : List Char → Option (List Char × List Char)
  | [] => none
  | c :: input =>
    if escaped then
      (readLiteral false input).map (fun r => (c :: r.1, r.2))
    else if c = quoteChar then
      some ([], input)
    else if c = escapeChar then
      readLiteral true input
    else
      (readLiteral false input).map (fun r => (c :: r.1, r.2))

/-- Text of the statement of `CreateRelationship`:
`fmt.Sprintf` of the template with `fromType, fromID, toType, toID, relType`. -/
def createRelationshipQuery (fromType fromID toType toID relType : String) : String :=
  "\n\t\tSELECT * FROM cypher(\x27synthesis_graph\x27, $$\n\t\t\tMATCH (a:" ++ fromType ++
    " \x7bid: \x27" ++ fromID ++ "\x27\x7d)\n\t\t\tMATCH (b:" ++ toType ++
    " \x7bid: \x27" ++ toID ++ "\x27\x7d)\n\t\t\tMERGE (a)-[:" ++ relType ++
    "]->(b)\n\t\t$$) as (result agtype);\n\t"

/-- Text of the statement of `DeleteRelationship`:
`fmt.Sprintf` of the template with `fromID, relType, toID`. -/
def deleteRelationshipQuery (fromID relType toID : String) : String :=
  "\n\t\tSELECT * FROM cypher(\x27synthesis_graph\x27, $$\n\t\t\tMATCH (a \x7bid: \x27" ++
    fromID ++ "\x27\x7d)-[r:" ++ relType ++ "]->(b \x7bid: \x27" ++ toID ++
    "\x27\x7d)\n\t\t\tDELETE r\n\t\t$$) as (result agtype);\n\t"

/-- Reading of a statement of the form `MATCH (a:L {id: 'i'}) MATCH (b:M {id:
'j'}) MERGE (a)-[:R]->(b)` inside `SELECT * FROM cypher('synthesis_graph', $$
... $$) as (result agtype);`. -/
def parseMerge (input : List Char) : Option CypherStatement :=
  (expectText
    "\n\t\tSELECT * FROM cypher(\x27synthesis_graph\x27, $$\n\t\t\tMATCH (a:".data input).bind
  fun r1 =>
  (expectText " \x7bid: \x27".data (readLabel r1).2).bind fun r2 =>
  (readLiteral false r2).bind fun fromID =>
  (expectText "\x7d)\n\t\t\tMATCH (b:".data fromID.2).bind fun r3 =>
  (expectText " \x7bid: \x27".data (readLabel r3).2).bind fun r4 =>
  (readLiteral false r4).bind fun toID =>
  (expectText "\x7d)\n\t\t\tMERGE (a)-[:".data toID.2).bind fun r5 =>
  (expectText "]->(b)\n\t\t$$) as (result agtype);\n\t".data (readLabel r5).2).bind fun r6 =>
  if (readLabel r1).1 ≠ [] ∧ (readLabel r3).1 ≠ [] ∧ (readLabel r5).1 ≠ [] ∧ r6 = [] then
    some (.merge (String.mk (readLabel r1).1) (String.mk fromID.1) (String.mk (readLabel r3).1)
      (String.mk toID.1) (String.mk (readLabel r5).1))
  else none

/-- Reading of a statement of the form `MATCH (a {id: 'i'})-[r:R]->(b {id: 'j'})
DELETE r` inside `SELECT * FROM cypher('synthesis_graph', $$ ... $$) as (result
agtype);`. -/
def parseDelete (input : List Char) : Option CypherStatement :=
  (expectText
    "\n\t\tSELECT * FROM cypher(\x27synthesis_graph\x27, $$\n\t\t\tMATCH (a \x7bid: \x27".data
    input).bind fun r1 =>
  (readLiteral false r1).bind fun fromID =>
  (expectText "\x7d)-[r:".data fromID.2).bind fun r2 =>
  (expectText "]->(b \x7bid: \x27".data (readLabel r2).2).bind fun r3 =>
  (readLiteral false r3).bind fun toID =>
  (expectText "\x7d)\n\t\t\tDELETE r\n\t\t$$) as (result agtype);\n\t".data toID.2).bind
  fun r4 =>
  if (readLabel r2).1 ≠ [] ∧ r4 = [] then
    some (.delete (String.mk fromID.1) (String.mk (readLabel r2).1) (String.mk toID.1))
  else none

/-- Reading of a statement text. -/
def parseCypher (input : List Char) : Option CypherStatement :=
  match parseMerge input with
  | some statement => some statement
  | none => parseDelete input

/-- What a statement does to the graph. `MATCH` binds `a` and `b` to the nodes
with the label and the `id`; when there is none, no row reaches the next
clause and nothing happens. `MERGE (a)-[:R]->(b)` creates an edge of type `R`
from `a` to `b`, without properties, unless there is one. `DELETE r` removes
the edges of type `R` from `a` to `b`. -/
def CypherStatement.run : CypherStatement → Graph → Graph
  | .merge fromType fromID toType toID relType, g =>
    if g.nodes.any (fun a => a.Type_ = fromType ∧ a.ID = fromID) ∧
        g.nodes.any (fun b => b.Type_ = toType ∧ b.ID = toID) then
      if g.edges.any (fun e => e.FromID = fromID ∧ e.ToID = toID ∧ e.Type_ = relType) then g
      else
        { g with edges := g.edges ++
            [{ FromID := fromID, ToID := toID, Type_ := relType, Properties := [] }] }
    else g
  | .delete fromID relType toID, g =>
    if g.nodes.any (fun a => a.ID = fromID) ∧ g.nodes.any (fun b => b.ID = toID) then
      let kept := g.edges.filter
        (fun e => !(e.FromID = fromID ∧ e.ToID = toID ∧ e.Type_ = relType))
      { g with edges := kept }
    else g

/-- What the database does with a statement text: a statement of the two forms
is run on the graph; `LOAD 'age'` and `SET search_path = ag_catalog, "$user",
public` prepare the session and change nothing. -/
def executeGraph (query : String) (g : Graph) : Except String Graph :=
  match parseCypher query.data with
  | some statement => .ok (statement.run g)
  | none =>
    if query = "LOAD \x27age\x27" ∨
        query = "SET search_path = ag_catalog, \"$user\", public" then
      .ok g
    else .error ("pq: syntax error in " ++ query)

/-- Method `db.ExecContext` with a statement text; the result of the statement
is not used by any caller. -/
def GraphDB.ExecContext (db : GraphDB) (query : String) : Option String × GraphDB :=
  match db.conn.next with
  | (some err, conn) => (some err, { db with conn := conn })
  | (none, conn) =>
    match executeGraph query db.graph with
    | .error err => (some err, { db with conn := conn })
    | .ok g => (none, { conn := conn, graph := g })

/-- Method `GraphRepository.FindNotebooksForProduct`. -/
def GraphRepository.FindNotebooksForProduct (db : GraphDB) (_productID : String)
    (_maxHops : Int) : Except String (List String) × GraphDB :=
  -- Set the search path
  match db.ExecContext "LOAD \x27age\x27" with
  | (some err, db) => (.error ("failed to load age: " ++ err), db)
  | (none, db) =>
    match db.ExecContext "SET search_path = ag_catalog, \"$user\", public" with
    | (some err, db) => (.error ("failed to set search path: " ++ err), db)
    | (none, db) =>
      -- This is a placeholder - in production, you'd use the age driver
      -- For now, return empty results
      (.ok [], db)

/-- Method `GraphRepository.CreateRelationship`. -/
def GraphRepository.CreateRelationship (db : GraphDB)
    (fromType fromID relType toType toID : String) : Option String × GraphDB :=
  -- Set the search path
  match db.ExecContext "LOAD \x27age\x27" with
  | (some err, db) => (some ("failed to load age: " ++ err), db)
  | (none, db) =>
    match db.ExecContext "SET search_path = ag_catalog, \"$user\", public" with
    | (some err, db) => (some ("failed to set search path: " ++ err), db)
    | (none, db) =>
      -- Build the Cypher query
      let cypherQuery := createRelationshipQuery fromType fromID toType toID relType
      match db.ExecContext cypherQuery with
      | (some err, db) => (some ("failed to create relationship: " ++ err), db)
      | (none, db) => (none, db)

/-- Method `GraphRepository.DeleteRelationship`. -/
def GraphRepository.DeleteRelationship (db : GraphDB) (fromID relType toID : String) :
    Option String × GraphDB :=
  -- Set the search path
  match db.ExecContext "LOAD \x27age\x27" with
  | (some err, db) => (some ("failed to load age: " ++ err), db)
  | (none, db) =>
    match db.ExecContext "SET search_path = ag_catalog, \"$user\", public" with
    | (some err, db) => (some ("failed to set search path: " ++ err), db)
    | (none, db) =>
      -- Build the Cypher query
      let cypherQuery := deleteRelationshipQuery fromID relType toID
      match db.ExecContext cypherQuery with
      | (some err, db) => (some ("failed to delete relationship: " ++ err), db)
      | (none, db) => (none, db)

/-- Method `GraphRepository.GetNeighbors`. -/
def GraphRepository.GetNeighbors (db : GraphDB) (_nodeID : String) (_distance : Int) :
    Except String (List GraphNode) × GraphDB :=
  -- Set the search path
  match db.ExecContext "LOAD \x27age\x27" with
  | (some err, db) => (.error ("failed to load age: " ++ err), db)
  | (none, db) =>
    match db.ExecContext "SET search_path = ag_catalog, \"$user\", public" with
    | (some err, db) => (.error ("failed to set search path: " ++ err), db)
    | (none, db) =>
      -- This is a placeholder implementation
      (.ok [], db)

/-! ### The tool `graph_query_resources` (`tools_search.go`) -/

/-- The struct `args` of `handleGraphQueryResources`. -/
structure GraphQueryArgs where
  Query : String
  ResourceID : String
  MaxHops : Int
  deriving DecidableEq, Repr

/-- The struct `args` of `handleGraphQueryResources` after the step `Set default
max hops`. -/
def Server.handleGraphQueryResources_args (args : GraphQueryArgs) : GraphQueryArgs :=
  -- Set default max hops
  if args.MaxHops = 0 then { args with MaxHops := 2 } else args

/-- Method `Server.handleGraphQueryResources`; `args` is the outcome of decoding
`request.Params.Arguments` into the struct. The field `results` of the answer
is the empty JSON array. -/
def Server.handleGraphQueryResources (db : GraphDB) (args : Except String GraphQueryArgs) :
    CallToolResult × GraphDB :=
  match args with
  | .error err => (.error ("failed to parse arguments: " ++ err), db)
  | .ok args =>
    let args := Server.handleGraphQueryResources_args args
    -- TODO: Execute graph query using Apache AGE
    -- For now, return a placeholder response
    (.text [("message", "Graph queries use Apache AGE integration"),
            ("resource_id", args.ResourceID), ("results", "[]")], db)

/-! ### Traversal as specified -/

/-- Ids in the order of their first occurrence, each once. -/
def firstOccurrences : List String → List String
  | [] => []
  | id :: rest => id :: (firstOccurrences rest).filter (fun other => !(other = id))

/-- The traversal as the specification words it: the ids of all nodes reachable
from `startID` within `maxHops` directed hops, each once; for `maxHops` 0 the
start node if it exists, else nothing. -/
def traverseRelationshipsSpec (g : Graph) (startID : String) : Nat → List String
  | 0 => if g.nodes.any (fun node => node.ID = startID) then [startID] else []
  | maxHops + 1 =>
    firstOccurrences
      (traverseRelationshipsSpec g startID maxHops ++
        (traverseRelationshipsSpec g startID maxHops).flatMap (fun id =>
          (g.edges.filter (fun e => e.FromID = id)).map (fun e => e.ToID)))

/-- Identifier that can stand as a label or relationship type in a statement:
not empty, letters, digits and `_` only. -/
def plainLabel (s : String) : Prop :=
  s.data ≠ [] ∧ ∀ c ∈ s.data, isLabelChar c = true

/-- Identifier that can stand between the quotes of a string literal: neither a
quote nor a backslash in it. -/
def plainLiteral (s : String) : Prop :=
  ∀ c ∈ s.data, c ≠ quoteChar ∧ c ≠ escapeChar

/-! ### Nodes and edges by key -/

/-- Whether the graph has a node with the label and the `id`. -/
def Graph.hasNode (g : Graph) (type id : String) : Bool :=
  g.nodes.any (fun a => a.Type_ = type ∧ a.ID = id)

/-- The edges with the key (from id, to id, relationship type). -/
def Graph.edgesBetween (g : Graph) (fromID toID relType : String) : List GraphEdge :=
  g.edges.filter (fun e => e.FromID = fromID ∧ e.ToID = toID ∧ e.Type_ = relType)

/-! ### Sample data -/

/-- A connection to the empty store on which every call goes through. -/
def sampleDB : DB :=
  { store := Store.empty, faults := [], now := 0, cascade := false }

/-- A root block with `order` 0 and two type tags. -/
def sampleBlock0 : ContentBlock :=
  { UID := "u0", ParentUID := none, ContentType := "text/markdown", Data := "intro", Order := 0,
    Types := ["note", "draft"] }

/-- A root block with `order` 1 and one type tag. -/
def sampleBlock1 : ContentBlock :=
  { UID := "u1", ParentUID := none, ContentType := "text/markdown", Data := "para", Order := 1,
    Types := ["note"] }

/-- Notebook `n1` of library `l1` of tenant `t1` with the given content blocks. -/
def sampleNotebook (blocks : List ContentBlock) : Notebook :=
  { TenantID := "t1", ID := "n1", LibraryID := "l1", Status := "draft", Owner := "system",
    DisplayName := "First", Description := "",
    Contents := { Data := { Markdown := "# Hello" }, ContentBlocks := blocks },
    Notifications := [{ URL := "http://hook/a" }, { URL := "http://hook/b" }] }

/-- Connection to the store that `Create` of notebook `n1` with one block leaves,
with or without cascading foreign keys. -/
def sampleNotebookDB (cascade : Bool) : DB :=
  { (NotebookRepository.Create sampleDB (sampleNotebook [sampleBlock0])).2 with
    cascade := cascade }

/-- Tenant `t1` with the given owner and version. -/
def sampleTenant (owner version : String) : Tenant :=
  { ID := "t1", Owner := owner, DisplayName := "Acme", Description := "", Labels := [],
    Version := version, LastModified := 5 }

/-- Connection to the store that `create_tenant` for tenant `t1` leaves. -/
def sampleTenantDB : DB :=
  (Server.handleCreateTenant sampleDB 9 (.ok ⟨"t1", "a@example.com", "Acme", "", []⟩)).2

/-- Connection to the store with tenant `t1` created at instant 0 and tenant `t2`
created at instant 3. -/
def sampleTwoTenantsDB : DB :=
  (TenantRepository.Create { sampleTenantDB with now := 3 }
    { sampleTenant "b" "1" with ID := "t2" }).2

/-- Connection to the store in which notebooks and features `b` and then `a` got
the same embedding. -/
def sampleTieDB : DB :=
  (VectorRepository.UpsertFeatureEmbedding
    (VectorRepository.UpsertFeatureEmbedding
      (VectorRepository.UpsertNotebookEmbedding
        (VectorRepository.UpsertNotebookEmbedding sampleDB "b" [⟨7⟩] "m").2
        "a" [⟨7⟩] "m").2
      "b" [⟨7⟩] "m").2
    "a" [⟨7⟩] "m").2

/-- A stand-in for the vector arithmetic of the database, with integer scores: the
distance of two vectors is the number of positions in which they differ. -/
def sampleOps : VectorOps Int :=
  { distance := fun a b =>
      (((a.zip b).filter (fun ab => !(ab.1 = ab.2))).length : Int) +
        ((a.length : Int) - (b.length : Int)).natAbs,
    oneMinus := fun d => 1 - d }

/-- Connection to the store with the embeddings `[1, 2]` of notebook `far`, `[5, 6]`
of notebook `near` and `[5, 2]` of notebook `mid`. -/
def sampleSearchDB : DB :=
  (VectorRepository.UpsertNotebookEmbedding
    (VectorRepository.UpsertNotebookEmbedding
      (VectorRepository.UpsertNotebookEmbedding sampleDB "far" [⟨1⟩, ⟨2⟩] "m").2
      "near" [⟨5⟩, ⟨6⟩] "m").2
    "mid" [⟨5⟩, ⟨2⟩] "m").2

/-- Connection to the store with the row of notebook `n1` and its block, and no
row of `notebook_content`. -/
def sampleNoContentDB : DB :=
  { sampleNotebookDB false with
    store := { (sampleNotebookDB false).store with notebook_content := [] } }

/-- An argument for `Update` of notebook `n1` that names another tenant and
library and carries another block and no notifications. -/
def sampleNotebookUpdate : Notebook :=
  { TenantID := "t2", ID := "n1", LibraryID := "l2", Status := "published", Owner := "bob",
    DisplayName := "Second", Description := "new",
    Contents := { Data := { Markdown := "# Bye" }, ContentBlocks := [sampleBlock1] },
    Notifications := [] }

/-- Notebook `n2` of library `l1` of tenant `t2`, without blocks. -/
def sampleNotebookT2 : Notebook :=
  { sampleNotebook [] with TenantID := "t2", ID := "n2" }

/-- Connection to the store with notebook `n1` of tenant `t1` and notebook `n2` of
tenant `t2`, each with an embedding, that of `n2` being the query `[5, 6]`. -/
def sampleScopedDB : DB :=
  (VectorRepository.UpsertNotebookEmbedding
    (VectorRepository.UpsertNotebookEmbedding
      (NotebookRepository.Create (NotebookRepository.Create sampleDB (sampleNotebook [])).2
        sampleNotebookT2).2
      "n1" [⟨1⟩, ⟨2⟩] "m").2
    "n2" [⟨5⟩, ⟨6⟩] "m").2

/-- A root block with uid `u1` and, like `sampleBlock0`, `order` 0. -/
def sampleBlockSameOrder : ContentBlock :=
  { sampleBlock1 with Order := 0 }

/-- Arguments of `append_content_block` for a paragraph of notebook `n1`, with no
parent. -/
def sampleAppendRequest : CallToolRequest :=
  [("notebookId", "\"n1\""), ("content_type", "\"text/markdown\""), ("data", "\"para\"")]

/-- A graph with no node and no edge, on a connection whose calls go through. -/
def sampleEmptyGraphDB : GraphDB :=
  { conn := sampleDB, graph := { nodes := [], edges := [] } }

/-- The graph with the two paths `s -> a -> b -> x` and `s -> c -> d -> x`, and no
shorter path from `s` to `x`. -/
def sampleChain : Graph :=
  { nodes := [⟨"s", "Product", []⟩, ⟨"a", "Notebook", []⟩, ⟨"b", "Notebook", []⟩,
              ⟨"c", "Notebook", []⟩, ⟨"d", "Notebook", []⟩, ⟨"x", "Notebook", []⟩],
    edges := [⟨"s", "a", "USES", []⟩, ⟨"a", "b", "USES", []⟩, ⟨"b", "x", "USES", []⟩,
              ⟨"s", "c", "USES", []⟩, ⟨"c", "d", "USES", []⟩, ⟨"d", "x", "USES", []⟩] }

/-- Connection to the database with the graph `sampleChain`. -/
def sampleChainDB : GraphDB :=
  { conn := sampleDB, graph := sampleChain }

/-- Connection to the database whose graph has product `p1` and notebook `n1` and
no edge. -/
def sampleTwoNodesDB : GraphDB :=
  { conn := sampleDB,
    graph := { nodes := [⟨"p1", "Product", []⟩, ⟨"n1", "Notebook", []⟩], edges := [] } }

/-- Connection to the database whose graph has product `p1`, notebook `n1` and an
edge between them that carries a property. -/
def sampleEdgeDB : GraphDB :=
  { conn := sampleDB,
    graph := { nodes := [⟨"p1", "Product", []⟩, ⟨"n1", "Notebook", []⟩],
               edges := [⟨"p1", "n1", "USES", [("since", "2024")]⟩] } }

/-! ## Properties -/

/-! ### Identity and URI scheme -/

/-- C1: `URI()` returns exactly the fixed format with the identifier segments
copied verbatim, for each of the seven entity types. -/
theorem uri_format :
    (∀ t : Tenant, t.URI = "synthesis://tenant/" ++ t.ID) ∧
    (∀ l : Library, l.URI = "synthesis://tenant/" ++ l.TenantID ++ "/library/" ++ l.ID) ∧
    (∀ n : Notebook, n.URI = "synthesis://tenant/" ++ n.TenantID ++ "/notebook/" ++ n.ID) ∧
    (∀ f : Feature, f.URI = "synthesis://tenant/" ++ f.TenantID ++ "/feature/" ++ f.ID) ∧
    (∀ t : ToolConfig, t.URI = "synthesis://tenant/" ++ t.TenantID ++ "/tool/" ++ t.ID) ∧
    (∀ p : Product, p.URI = "synthesis://tenant/" ++ p.TenantID ++ "/product/" ++ p.ID) ∧
    (∀ t : TypeDef, t.URI = "synthesis://type/" ++ t.Name) :=
  ⟨fun _ => rfl, fun _ => rfl, fun _ => rfl, fun _ => rfl, fun _ => rfl, fun _ => rfl,
    fun _ => rfl⟩

/-- Characters of a URI under `synthesis://tenant/`: the text after that prefix. -/
theorem uri_data (e : Entity) :
    e.URI.data = "synthesis://t".data ++
      (match e with
        | .tenant t => "enant/".data ++ (t.ID.data ++ [])
        | .library l => "enant/".data ++ (l.TenantID.data ++ '/' :: ("library/".data ++ l.ID.data))
        | .notebook n => "enant/".data ++ (n.TenantID.data ++ '/' :: ("notebook/".data ++ n.ID.data))
        | .feature f => "enant/".data ++ (f.TenantID.data ++ '/' :: ("feature/".data ++ f.ID.data))
        | .tool t => "enant/".data ++ (t.TenantID.data ++ '/' :: ("tool/".data ++ t.ID.data))
        | .product p => "enant/".data ++ (p.TenantID.data ++ '/' :: ("product/".data ++ p.ID.data))
        | .typeDef t => "ype/".data ++ t.Name.data) := by
  cases e <;>
    simp [Entity.URI, Tenant.URI, Library.URI, Notebook.URI, Feature.URI, ToolConfig.URI,
      Product.URI, TypeDef.URI, String.data_append]

/-- Two texts that start with a slash-free segment and continue with `/` agree
only if the segments and the continuations agree. -/
theorem split_at_slash : ∀ (a b r r' : List Char), '/' ∉ a → '/' ∉ b →
    a ++ '/' :: r = b ++ '/' :: r' → a = b ∧ r = r'
  | [], [], r, r', _, _, h => by simpa using h
  | [], y :: b, r, r', _, hb, h => by
      simp at h
      exact absurd (by rw [← h.1]; simp) hb
  | x :: a, [], r, r', ha, _, h => by
      simp at h
      exact absurd (by rw [h.1]; simp) ha
  | x :: a, y :: b, r, r', ha, hb, h => by
      simp at h
      have ih := split_at_slash a b r r' (fun m => ha (List.mem_cons_of_mem _ m))
        (fun m => hb (List.mem_cons_of_mem _ m)) h.2
      exact ⟨by rw [h.1, ih.1], ih.2⟩

/-- A slash-free segment that ends the text is never a segment followed by `/`. -/
theorem no_slash_after : ∀ (a b r : List Char), '/' ∉ a → a ≠ b ++ '/' :: r := by
  intro a b r ha h
  exact ha (by rw [h]; simp)

/-- Slash-free segments followed by nothing or by `/` and more text: equal texts
have equal segments and equal continuations. -/
theorem split_segment (a b r r' : List Char) (ha : '/' ∉ a) (hb : '/' ∉ b)
    (hr : r = [] ∨ ∃ t, r = '/' :: t) (hr' : r' = [] ∨ ∃ t, r' = '/' :: t)
    (h : a ++ r = b ++ r') : a = b ∧ r = r' := by
  rcases hr with rfl | ⟨t, rfl⟩ <;> rcases hr' with rfl | ⟨t', rfl⟩
  · simpa using h
  · exact absurd (by simpa using h) (no_slash_after a b t' ha)
  · exact absurd (by simpa using h.symm) (no_slash_after b a t hb)
  · have hs := split_at_slash a b t t' ha hb h
    exact ⟨hs.1, by rw [hs.2]⟩

/-- Equal URIs of entities with slash-free tenant ids come from the same kind and key. -/
theorem uri_eq_same_entity (e₁ e₂ : Entity) (h₁ : e₁.tenantSlashFree)
    (h₂ : e₂.tenantSlashFree) (h : e₁.URI = e₂.URI) :
    e₁.kind = e₂.kind ∧ e₁.key = e₂.key := by
  have hd := congrArg String.data h
  rw [uri_data, uri_data] at hd
  have hd := List.append_cancel_left hd
  cases e₁ <;> cases e₂ <;> simp only [] at hd <;>
    first
    | (exfalso; revert hd; simp; done)
    | (have hd := List.append_cancel_left hd
       have hs := split_segment _ _ _ _ (h₁ _ rfl) (h₂ _ rfl) (by simp) (by simp) hd
       revert hs
       simp [Entity.kind, Entity.key, String.ext_iff])
    | (have hd := List.append_cancel_left hd
       simp [Entity.kind, Entity.key, String.ext_iff, hd])

/-- C2, as stated, fails: a tenant whose id is `a/library/b` and the library `b`
of tenant `a` are of different kinds and have the same URI; so have two
libraries with different compound keys. -/
theorem uri_not_injective :
    ¬ (∀ e₁ e₂ : Entity, (e₁.kind ≠ e₂.kind ∨ e₁.key ≠ e₂.key) → e₁.URI ≠ e₂.URI) ∧
    (Entity.tenant ⟨"a/library/b", "", "", "", [], "", 0⟩).URI =
      (Entity.library ⟨"a", "b", "", "", "", []⟩).URI ∧
    (Entity.library ⟨"a/library/b", "c", "", "", "", []⟩).URI =
      (Entity.library ⟨"a", "b/library/c", "", "", "", []⟩).URI := by
  refine ⟨fun h => ?_, by decide, by decide⟩
  exact h (Entity.tenant ⟨"a/library/b", "", "", "", [], "", 0⟩)
    (Entity.library ⟨"a", "b", "", "", "", []⟩) (Or.inl (by decide)) (by decide)

/-- C2, amended: among entities whose tenant-id segment contains no `/`, two
entities that differ in kind or in compound key have different URIs. -/
theorem uri_injective_of_tenant_slash_free (e₁ e₂ : Entity) (h₁ : e₁.tenantSlashFree)
    (h₂ : e₂.tenantSlashFree) (hne : e₁.kind ≠ e₂.kind ∨ e₁.key ≠ e₂.key) :
    e₁.URI ≠ e₂.URI := by
  intro h
  have hs := uri_eq_same_entity e₁ e₂ h₁ h₂ h
  rcases hne with hk | hk
  · exact hk hs.1
  · exact hk hs.2

/-- Witness for C2, amended: the notebooks `n1` and `n/2` of tenant `t1`. -/
theorem uri_injective_of_tenant_slash_free_witness :
    (Entity.notebook ⟨"t1", "n1", "l1", "draft", "", "", "", ⟨⟨""⟩, []⟩, []⟩).URI ≠
      (Entity.notebook ⟨"t1", "n/2", "l1", "draft", "", "", "", ⟨⟨""⟩, []⟩, []⟩).URI :=
  uri_injective_of_tenant_slash_free
    (Entity.notebook ⟨"t1", "n1", "l1", "draft", "", "", "", ⟨⟨""⟩, []⟩, []⟩)
    (Entity.notebook ⟨"t1", "n/2", "l1", "draft", "", "", "", ⟨⟨""⟩, []⟩, []⟩)
    (by intro t ht; cases ht; decide) (by intro t ht; cases ht; decide)
    (Or.inr (by decide))

/-- C3, as stated, fails: a tenant whose id is the empty string has an empty
required segment, and `URI()` returns the string `synthesis://tenant/` for it;
the function has no way to report a failure. -/
theorem uri_of_empty_id :
    (Entity.tenant ⟨"", "o", "d", "", [], "1", 0⟩).hasEmptySegment = true ∧
    (Entity.tenant ⟨"", "o", "d", "", [], "1", 0⟩).URI = "synthesis://tenant/" ∧
    ¬ (∀ e : Entity, e.hasEmptySegment = true → ¬ ∃ u : String, e.URI = u) := by
  refine ⟨by decide, by decide, fun h => ?_⟩
  exact h (Entity.tenant ⟨"", "o", "d", "", [], "1", 0⟩) (by decide) ⟨_, rfl⟩

/-- C3, amended: `URI()` never fails. For every entity, whatever its segments,
it returns a string that starts with `synthesis://t` and whose length is the
length of the fixed text of its kind plus the lengths of the segments; when the
entity id or type name is empty the returned URI ends with `/`. -/
theorem uri_total (e : Entity) :
    "synthesis://t".data <+: e.URI.data ∧
    e.URI.length = (match e.kind with
        | .tenant => 19 | .library => 28 | .notebook => 29 | .feature => 28
        | .tool => 25 | .product => 28 | .typeDef => 17) +
      (e.key.map String.length).sum ∧
    (e.idSegment = "" → e.URI.data.getLast? = some '/') := by
  refine ⟨⟨_, (uri_data e).symm⟩, ?_, ?_⟩
  · have h19 : "synthesis://tenant/".length = 19 := by decide
    have h17 : "synthesis://type/".length = 17 := by decide
    have hl : "/library/".length = 9 := by decide
    have hn : "/notebook/".length = 10 := by decide
    have hf : "/feature/".length = 9 := by decide
    have ht : "/tool/".length = 6 := by decide
    have hp : "/product/".length = 9 := by decide
    cases e <;>
      simp only [Entity.URI, Tenant.URI, Library.URI, Notebook.URI, Feature.URI, ToolConfig.URI,
        Product.URI, TypeDef.URI, Entity.kind, Entity.key, String.length_append, List.map,
        List.sum_cons, List.sum_nil, h19, h17, hl, hn, hf, ht, hp] <;>
      omega
  · intro h
    rw [List.getLast?_eq_some_iff]
    cases e <;> simp only [Entity.idSegment] at h <;>
      simp only [Entity.URI, Tenant.URI, Library.URI, Notebook.URI, Feature.URI,
        ToolConfig.URI, Product.URI, TypeDef.URI, h, String.data_append]
    case tenant t => exact ⟨"synthesis://tenant".data, by simp⟩
    case library l => exact ⟨"synthesis://tenant/".data ++ l.TenantID.data ++ "/library".data, by simp⟩
    case notebook n => exact ⟨"synthesis://tenant/".data ++ n.TenantID.data ++ "/notebook".data, by simp⟩
    case feature f => exact ⟨"synthesis://tenant/".data ++ f.TenantID.data ++ "/feature".data, by simp⟩
    case tool t => exact ⟨"synthesis://tenant/".data ++ t.TenantID.data ++ "/tool".data, by simp⟩
    case product p => exact ⟨"synthesis://tenant/".data ++ p.TenantID.data ++ "/product".data, by simp⟩
    case typeDef t => exact ⟨"synthesis://type".data, by simp⟩

/-- Witness for C3, amended: the notebook with an empty id under tenant `t1`. -/
theorem uri_total_witness :
    (Entity.notebook ⟨"t1", "", "l1", "draft", "", "", "", ⟨⟨""⟩, []⟩, []⟩).URI.data.getLast? =
      some '/' :=
  (uri_total (Entity.notebook ⟨"t1", "", "l1", "draft", "", "", "", ⟨⟨""⟩, []⟩, []⟩)).2.2 rfl

/-! ### Driver and transactions -/

/-- Second component of a pair known by an equation. -/
theorem snd_of_eq {α β : Type} {p : α × β} {a : α} {b : β} (h : p = (a, b)) : p.2 = b := by
  rw [h]

/-- First component of a pair known by an equation. -/
theorem fst_of_eq {α β : Type} {p : α × β} {a : α} {b : β} (h : p = (a, b)) : p.1 = a := by
  rw [h]


/-- A call to the driver leaves the store, the clock and the cascade flag alone. -/
theorem DB.next_frame (db : DB) :
    db.next.2.store = db.store ∧ db.next.2.now = db.now ∧ db.next.2.cascade = db.cascade := by
  unfold DB.next
  cases db.faults <;> simp

/-- A failed statement in autocommit mode leaves the store unchanged. -/
theorem DB.ExecContext_error {db db' : DB} {stmt : Store → Store × Nat} {err : String}
    (h : db.ExecContext stmt = (.error err, db')) : db'.store = db.store := by
  unfold DB.ExecContext at h
  split at h
  · rw [← (Prod.mk.inj h).2]
    rename_i heq
    rw [← (Prod.mk.inj heq).2]
    exact (DB.next_frame db).1
  · cases (Prod.mk.inj h).1

/-- A statement that went through in autocommit mode has been applied to the store. -/
theorem DB.ExecContext_ok {db db' : DB} {stmt : Store → Store × Nat} {rows : Nat}
    (h : db.ExecContext stmt = (.ok rows, db')) :
    db'.store = (stmt db.store).1 ∧ rows = (stmt db.store).2 ∧ db'.now = db.now ∧
      db'.cascade = db.cascade := by
  unfold DB.ExecContext at h
  split at h
  · cases (Prod.mk.inj h).1
  · rename_i heq
    have h1 := (Prod.mk.inj h).1
    have h2 := (Prod.mk.inj h).2
    have hf := DB.next_frame db
    rw [heq] at hf
    simp only at hf
    injection h1 with h1
    subst h2
    simp [hf.1, hf.2.1, hf.2.2, ← h1]

/-- Beginning a transaction does not change the store. -/
theorem DB.BeginTx_store (db : DB) : db.BeginTx.2.store = db.store := by
  unfold DB.BeginTx
  split <;> rename_i heq <;> rw [← (Prod.mk.inj heq).2] <;> exact (DB.next_frame db).1

/-- The transaction that `BeginTx` opens starts from the store of the connection. -/
theorem DB.BeginTx_ok {db db' : DB} {tx : Tx} (h : db.BeginTx = (.ok tx, db')) :
    tx.base = db.store ∧ tx.conn.store = db.store ∧ tx.conn.now = db.now ∧
      tx.conn.cascade = db.cascade := by
  unfold DB.BeginTx at h
  split at h
  · cases (Prod.mk.inj h).1
  · rename_i heq
    have h1 := (Prod.mk.inj h).1
    injection h1 with h1
    have hf := DB.next_frame db
    rw [heq] at hf
    simp only at hf
    subst h1
    simp [hf.1, hf.2.1, hf.2.2]

/-- Statements of a transaction keep the snapshot taken at `BeginTx`. -/
theorem Tx.ExecContext_base (tx : Tx) (stmt : Store → Store × Nat) :
    (tx.ExecContext stmt).2.base = tx.base := rfl

/-- An `INSERT ... RETURNING` of a transaction keeps the snapshot. -/
theorem Tx.QueryRowContext_base {α : Type} (tx : Tx) (stmt : Store → Store × α) :
    (tx.QueryRowContext stmt).2.base = tx.base := by
  unfold Tx.QueryRowContext
  split <;> rfl

/-- A rollback restores the snapshot. -/
theorem Tx.Rollback_store (tx : Tx) : tx.Rollback.store = tx.base := rfl

/-- A failed commit restores the snapshot. -/
theorem Tx.Commit_error {tx : Tx} {err : String} (h : tx.Commit.1 = some err) :
    tx.Commit.2.store = tx.base := by
  unfold Tx.Commit at h ⊢
  split
  · rfl
  · rename_i heq
    rw [heq] at h
    cases h

/-! ### Notebook creation keeps the snapshot -/

/-- The loop over the block types keeps the snapshot. -/
theorem NotebookRepository.createContentBlock_types_base (blockID : Nat) :
    ∀ (types : List String) (tx : Tx),
      (NotebookRepository.createContentBlock_types tx blockID types).2.base = tx.base
  | [], tx => rfl
  | typeName :: rest, tx => by
      unfold NotebookRepository.createContentBlock_types
      split
      · rename_i heq
        rw [← (Prod.mk.inj heq).2]
      · rename_i heq
        rw [NotebookRepository.createContentBlock_types_base blockID rest, ← (Prod.mk.inj heq).2]

/-- Creating one content block keeps the snapshot. -/
theorem NotebookRepository.createContentBlock_base (tx : Tx) (notebookID : String)
    (block : ContentBlock) :
    (NotebookRepository.createContentBlock tx notebookID block).2.base = tx.base := by
  unfold NotebookRepository.createContentBlock
  split
  · rename_i heq
    rw [← (Prod.mk.inj heq).2]
    exact Tx.QueryRowContext_base _ _
  · rename_i heq
    rw [NotebookRepository.createContentBlock_types_base, ← (Prod.mk.inj heq).2]
    exact Tx.QueryRowContext_base _ _

/-- The loop over the content blocks keeps the snapshot. -/
theorem NotebookRepository.Create_blocks_base (notebookID : String) :
    ∀ (blocks : List ContentBlock) (tx : Tx),
      (NotebookRepository.Create_blocks tx notebookID blocks).2.base = tx.base
  | [], tx => rfl
  | block :: rest, tx => by
      unfold NotebookRepository.Create_blocks
      split
      · rename_i heq
        rw [← (Prod.mk.inj heq).2]
        exact NotebookRepository.createContentBlock_base _ _ _
      · rename_i heq
        rw [NotebookRepository.Create_blocks_base notebookID rest, ← (Prod.mk.inj heq).2]
        exact NotebookRepository.createContentBlock_base _ _ _

/-- The loop over the notifications keeps the snapshot. -/
theorem NotebookRepository.Create_notifications_base (notebookID : String) :
    ∀ (notifs : List Notification) (tx : Tx),
      (NotebookRepository.Create_notifications tx notebookID notifs).2.base = tx.base
  | [], tx => rfl
  | notif :: rest, tx => by
      unfold NotebookRepository.Create_notifications
      split
      · rename_i heq
        rw [← (Prod.mk.inj heq).2]
      · rename_i heq
        rw [NotebookRepository.Create_notifications_base notebookID rest,
          ← (Prod.mk.inj heq).2]

/-- The upsert of the resource index in a transaction keeps the snapshot. -/
theorem NotebookRepository.updateResourceIndex_base (tx : Tx) (notebook : Notebook) :
    (NotebookRepository.updateResourceIndex tx notebook).2.base = tx.base := by
  unfold NotebookRepository.updateResourceIndex
  split <;> rename_i heq <;> rw [← (Prod.mk.inj heq).2]

/-- A failed `Create` of a notebook ends in a rollback: the store is unchanged. -/
theorem NotebookRepository.Create_error (db : DB) (notebook : Notebook) (err : String)
    (h : (NotebookRepository.Create db notebook).1 = some err) :
    (NotebookRepository.Create db notebook).2.store = db.store := by
  revert h
  unfold NotebookRepository.Create
  split
  · rename_i heq
    intro _
    rw [← (Prod.mk.inj heq).2]
    exact DB.BeginTx_store db
  · rename_i tx0 _ heq
    have hb0 : tx0.base = db.store := (DB.BeginTx_ok heq).1
    split
    · rename_i h1
      intro _
      rw [Tx.Rollback_store, ← snd_of_eq h1, Tx.ExecContext_base, hb0]
    · rename_i _ tx1 h1
      have hb1 : tx1.base = db.store := by
        rw [← snd_of_eq h1, Tx.ExecContext_base, hb0]
      split
      · rename_i h2
        intro _
        rw [Tx.Rollback_store, ← snd_of_eq h2, Tx.ExecContext_base, hb1]
      · rename_i _ tx2 h2
        have hb2 : tx2.base = db.store := by
          rw [← snd_of_eq h2, Tx.ExecContext_base, hb1]
        split
        · rename_i h3
          intro _
          rw [Tx.Rollback_store, ← snd_of_eq h3,
            NotebookRepository.Create_blocks_base, hb2]
        · rename_i tx3 h3
          have hb3 : tx3.base = db.store := by
            rw [← snd_of_eq h3, NotebookRepository.Create_blocks_base, hb2]
          split
          · rename_i h4
            intro _
            rw [Tx.Rollback_store, ← snd_of_eq h4,
              NotebookRepository.Create_notifications_base, hb3]
          · rename_i tx4 h4
            have hb4 : tx4.base = db.store := by
              rw [← snd_of_eq h4, NotebookRepository.Create_notifications_base, hb3]
            split
            · rename_i h5
              intro _
              rw [Tx.Rollback_store, ← snd_of_eq h5,
                NotebookRepository.updateResourceIndex_base, hb4]
            · rename_i tx5 h5
              have hb5 : tx5.base = db.store := by
                rw [← snd_of_eq h5, NotebookRepository.updateResourceIndex_base, hb4]
              intro hc
              rw [Tx.Commit_error hc, hb5]

/-- C4: `NotebookRepository.Create` is atomic. Whenever it returns an error
(from `BeginTx`, the notebook insert, the content insert, a content-block or
block-type insert, a notification insert, the resource-index upsert or the
commit), the store after the call is the store before the call: no row of the
call is visible. -/
theorem notebook_create_atomic (db : DB) (notebook : Notebook) (err : String)
    (h : (NotebookRepository.Create db notebook).1 = some err) :
    (NotebookRepository.Create db notebook).2.store = db.store :=
  NotebookRepository.Create_error db notebook err h

/-- Witness for C4: the resource-index upsert of a notebook with one typed block
and one notification fails; the store is the one before the call. -/
theorem notebook_create_atomic_witness :
    (NotebookRepository.Create
        { store := Store.empty, faults := [none, none, none, none, none, none, some "timeout"],
          now := 0, cascade := false }
        ⟨"t1", "n1", "l1", "draft", "system", "N", "",
          ⟨⟨"# Hello"⟩, [⟨"u1", none, "text/markdown", "para", 0, ["note"]⟩]⟩,
          [⟨"http://hook"⟩]⟩).2.store = Store.empty :=
  notebook_create_atomic
    { store := Store.empty, faults := [none, none, none, none, none, none, some "timeout"],
      now := 0, cascade := false }
    ⟨"t1", "n1", "l1", "draft", "system", "N", "",
      ⟨⟨"# Hello"⟩, [⟨"u1", none, "text/markdown", "para", 0, ["note"]⟩]⟩, [⟨"http://hook"⟩]⟩
    "failed to update resource index: timeout" (by decide)

/-- C5 fails on the code: `TenantRepository.Create` runs the tenant insert and
the resource-index upsert as two autocommit statements. When the upsert fails,
`Create` returns an error and the tenant row stays in the store without a
resource-index row. -/
theorem tenant_create_not_atomic :
    (TenantRepository.Create
        { store := Store.empty, faults := [none, some "connection reset"], now := 7,
          cascade := false }
        ⟨"t1", "a@example.com", "Acme", "", [], "1", 5⟩).1 =
      some "failed to update resource index: connection reset" ∧
    (TenantRepository.Create
        { store := Store.empty, faults := [none, some "connection reset"], now := 7,
          cascade := false }
        ⟨"t1", "a@example.com", "Acme", "", [], "1", 5⟩).2.store =
      { Store.empty with
        tenant := [⟨"t1", "a@example.com", "Acme", "", .marshalled [], "1", 5, 7⟩] } ∧
    (TenantRepository.Create
        { store := Store.empty, faults := [none, some "connection reset"], now := 7,
          cascade := false }
        ⟨"t1", "a@example.com", "Acme", "", [], "1", 5⟩).2.store ≠ Store.empty := by
  decide

/-! ### Reads on a connection without pending failures -/

/-- A call to the driver goes through when no failure is pending. -/
theorem DB.next_of_no_faults {db : DB} (h : db.faults = []) : db.next = (none, db) := by
  unfold DB.next
  rw [h]

/-- A single-row query that goes through returns the first selected row. -/
theorem DB.QueryRowContext_of_no_faults {α : Type} {db : DB} (h : db.faults = [])
    (sel : Store → Option α) :
    db.QueryRowContext sel =
      (match sel db.store with
        | none => .error .ErrNoRows
        | some row => .ok row, db) := by
  unfold DB.QueryRowContext
  rw [DB.next_of_no_faults h]
  simp only []
  cases sel db.store <;> rfl

/-- A query that goes through returns the selected rows. -/
theorem DB.QueryContext_of_no_faults {α : Type} {db : DB} (h : db.faults = [])
    (sel : Store → List α) : db.QueryContext sel = (.ok (sel db.store), db) := by
  unfold DB.QueryContext
  rw [DB.next_of_no_faults h]

/-- The loop over the block rows, when every query goes through. -/
theorem NotebookRepository.getContentBlocks_rows_ok {db : DB} (h : db.faults = []) :
    ∀ (rows : List ContentBlockRow) (blocks : List ContentBlock),
      NotebookRepository.getContentBlocks_rows db blocks rows =
        (.ok (blocks ++ rows.map (ContentBlockRow.toBlock db.store)), db)
  | [], blocks => by simp [NotebookRepository.getContentBlocks_rows]
  | row :: rest, blocks => by
      unfold NotebookRepository.getContentBlocks_rows
      rw [DB.QueryContext_of_no_faults h]
      simp only []
      rw [NotebookRepository.getContentBlocks_rows_ok h rest]
      simp [ContentBlockRow.toBlock]

/-- Method `getContentBlocks` when every query goes through. -/
theorem NotebookRepository.getContentBlocks_ok {db : DB} (h : db.faults = []) (id : String) :
    NotebookRepository.getContentBlocks db id =
      (.ok ((selectContentBlocks id db.store).map (ContentBlockRow.toBlock db.store)), db) := by
  unfold NotebookRepository.getContentBlocks
  rw [DB.QueryContext_of_no_faults h]
  simp only []
  rw [NotebookRepository.getContentBlocks_rows_ok h]
  simp

/-- Method `getNotifications` when the query goes through. -/
theorem NotebookRepository.getNotifications_ok {db : DB} (h : db.faults = []) (id : String) :
    NotebookRepository.getNotifications db id =
      (.ok ((selectNotebookNotifications id db.store).map (fun nurl => { URL := nurl })),
        db) := by
  unfold NotebookRepository.getNotifications
  rw [DB.QueryContext_of_no_faults h]

/-- Method `Get` on a connection without pending failures reads the store. -/
theorem NotebookRepository.Get_of_no_faults {db : DB} (h : db.faults = []) (id : String) :
    NotebookRepository.Get db id = db.store.getNotebook id := by
  unfold NotebookRepository.Get Store.getNotebook
  rw [DB.QueryRowContext_of_no_faults h]
  cases hrow : selectNotebook id db.store with
  | none => rfl
  | some row =>
    simp only []
    rw [DB.QueryRowContext_of_no_faults h]
    cases hc : selectNotebookContent id db.store <;>
      simp only [NotebookRepository.getContentBlocks_ok h,
        NotebookRepository.getNotifications_ok h] <;> rfl

/-! ### The store after a successful `Create` of a notebook -/

/-- A statement of a transaction that went through has been applied to the
working copy. -/
theorem Tx.tx_ExecContext_ok {tx tx' : Tx} {stmt : Store → Store × Nat} {rows : Nat}
    (h : tx.ExecContext stmt = (.ok rows, tx')) :
    tx'.conn.store = (stmt tx.conn.store).1 ∧ rows = (stmt tx.conn.store).2 ∧
      tx'.conn.now = tx.conn.now := by
  have h1 : (tx.conn.ExecContext stmt).1 = .ok rows := (Prod.mk.inj h).1
  have h2 : ({ tx with conn := (tx.conn.ExecContext stmt).2 } : Tx) = tx' := (Prod.mk.inj h).2
  have h3 := @DB.ExecContext_ok tx.conn (tx.conn.ExecContext stmt).2 stmt rows
    (Prod.ext h1 rfl)
  rw [← h2]
  exact ⟨h3.1, h3.2.1, h3.2.2.1⟩

/-- An `INSERT ... RETURNING` that went through has been applied to the working
copy and returns the row of the statement. -/
theorem Tx.QueryRowContext_ok {α : Type} {tx tx' : Tx} {stmt : Store → Store × α} {a : α}
    (h : tx.QueryRowContext stmt = (.ok a, tx')) :
    tx'.conn.store = (stmt tx.conn.store).1 ∧ a = (stmt tx.conn.store).2 ∧
      tx'.conn.now = tx.conn.now := by
  unfold Tx.QueryRowContext at h
  split at h
  · cases (Prod.mk.inj h).1
  · rename_i heq
    have hf := DB.next_frame tx.conn
    rw [heq] at hf
    simp only at hf
    have h1 := (Prod.mk.inj h).1
    injection h1 with h1
    rw [← (Prod.mk.inj h).2, ← h1]
    simp [hf.1, hf.2.1]

/-- A commit that went through makes the working copy the store. -/
theorem Tx.Commit_ok {tx : Tx} {db' : DB} (h : tx.Commit = (none, db')) :
    db'.store = tx.conn.store := by
  unfold Tx.Commit at h
  split at h
  · cases (Prod.mk.inj h).1
  · rename_i heq
    rw [← (Prod.mk.inj h).2, ← snd_of_eq heq]
    exact (DB.next_frame tx.conn).1

/-- The type-tag loop, when it succeeds, appends one row per tag. -/
theorem NotebookRepository.createContentBlock_types_ok (blockID : Nat) :
    ∀ (types : List String) (tx tx' : Tx),
      NotebookRepository.createContentBlock_types tx blockID types = (none, tx') →
      tx'.conn.store =
          { tx.conn.store with
            content_block_type := tx.conn.store.content_block_type ++
              types.map (fun typeName =>
                { content_block_id := blockID, type_name := typeName }) } ∧
        tx'.conn.now = tx.conn.now
  | [], tx, tx', h => by
      unfold NotebookRepository.createContentBlock_types at h
      rw [← (Prod.mk.inj h).2]
      simp
  | typeName :: rest, tx, tx', h => by
      unfold NotebookRepository.createContentBlock_types at h
      split at h
      · cases (Prod.mk.inj h).1
      · rename_i _ tx1 heq
        have h1 := Tx.tx_ExecContext_ok heq
        have h2 := NotebookRepository.createContentBlock_types_ok blockID rest tx1 tx' h
        rw [h2.1, h2.2, h1.1, h1.2.2]
        simp [insertContentBlockType]

/-- Method `createContentBlock`, when it succeeds, adds the block to the working
copy. -/
theorem NotebookRepository.createContentBlock_ok {tx tx' : Tx} {notebookID : String}
    {block : ContentBlock}
    (h : NotebookRepository.createContentBlock tx notebookID block = (none, tx')) :
    tx'.conn.store = Store.addBlock notebookID tx.conn.store block ∧
      tx'.conn.now = tx.conn.now := by
  unfold NotebookRepository.createContentBlock at h
  split at h
  · cases (Prod.mk.inj h).1
  · rename_i blockID tx1 heq
    have h1 := Tx.QueryRowContext_ok heq
    have h2 := NotebookRepository.createContentBlock_types_ok blockID block.Types tx1 tx' h
    rw [h2.1, h2.2, h1.1, h1.2.2, h1.2.1]
    simp [insertContentBlock, Store.addBlock]

/-- The block loop of `Create`, when it succeeds, adds the blocks in turn. -/
theorem NotebookRepository.Create_blocks_ok (notebookID : String) :
    ∀ (blocks : List ContentBlock) (tx tx' : Tx),
      NotebookRepository.Create_blocks tx notebookID blocks = (none, tx') →
      tx'.conn.store = blocks.foldl (Store.addBlock notebookID) tx.conn.store ∧
        tx'.conn.now = tx.conn.now
  | [], tx, tx', h => by
      unfold NotebookRepository.Create_blocks at h
      rw [← (Prod.mk.inj h).2]
      simp
  | block :: rest, tx, tx', h => by
      unfold NotebookRepository.Create_blocks at h
      split at h
      · cases (Prod.mk.inj h).1
      · rename_i tx1 heq
        have h1 := NotebookRepository.createContentBlock_ok heq
        have h2 := NotebookRepository.Create_blocks_ok notebookID rest tx1 tx' h
        rw [h2.1, h2.2, h1.1, h1.2]
        simp

/-- The notification loop of `Create`, when it succeeds, appends one row per
notification. -/
theorem NotebookRepository.Create_notifications_ok (notebookID : String) :
    ∀ (notifs : List Notification) (tx tx' : Tx),
      NotebookRepository.Create_notifications tx notebookID notifs = (none, tx') →
      tx'.conn.store =
        { tx.conn.store with
          notebook_notification := tx.conn.store.notebook_notification ++
            notifs.map (fun notif => { notebook_id := notebookID, nurl := notif.URL }) }
  | [], tx, tx', h => by
      unfold NotebookRepository.Create_notifications at h
      rw [← (Prod.mk.inj h).2]
      simp
  | notif :: rest, tx, tx', h => by
      unfold NotebookRepository.Create_notifications at h
      split at h
      · cases (Prod.mk.inj h).1
      · rename_i _ tx1 heq
        have h1 := Tx.tx_ExecContext_ok heq
        have h2 := NotebookRepository.Create_notifications_ok notebookID rest tx1 tx' h
        rw [h2, h1.1]
        simp [insertNotebookNotification]

/-- A successful `Create` leaves the store with the rows of all its statements. -/
theorem NotebookRepository.Create_ok {db db' : DB} {n : Notebook}
    (h : NotebookRepository.Create db n = (none, db')) :
    db'.store = Store.created db.now n db.store := by
  unfold NotebookRepository.Create at h
  split at h
  · cases (Prod.mk.inj h).1
  · rename_i tx0 _ h0
    have e0 := DB.BeginTx_ok h0
    split at h
    · cases (Prod.mk.inj h).1
    · rename_i _ tx1 h1
      have e1 := Tx.tx_ExecContext_ok h1
      split at h
      · cases (Prod.mk.inj h).1
      · rename_i _ tx2 h2
        have e2 := Tx.tx_ExecContext_ok h2
        split at h
        · cases (Prod.mk.inj h).1
        · rename_i tx3 h3
          have e3 := NotebookRepository.Create_blocks_ok _ _ _ _ h3
          split at h
          · cases (Prod.mk.inj h).1
          · rename_i tx4 h4
            have e4 := NotebookRepository.Create_notifications_ok _ _ _ _ h4
            split at h
            · cases (Prod.mk.inj h).1
            · rename_i tx5 h5
              unfold NotebookRepository.updateResourceIndex at h5
              split at h5
              · cases (Prod.mk.inj h5).1
              · rename_i _ tx5' h5'
                have e5 := Tx.tx_ExecContext_ok h5'
                have e6 := Tx.Commit_ok h
                rw [e6, ← (Prod.mk.inj h5).2, e5.1, e4, e3.1, e2.1, e1.1, e0.2.1, e0.2.2.1]
                rfl

/-! ### Reading back what `Create` wrote -/

/-- Every element of a list of keys is at most their maximum. -/
theorem le_foldr_max : ∀ (l : List Nat) (x : Nat), x ∈ l → x ≤ l.foldr max 0
  | [], _, h => by cases h
  | y :: l, x, h => by
      rcases List.mem_cons.1 h with rfl | h
      · exact Nat.le_max_left _ _
      · exact Nat.le_trans (le_foldr_max l x h) (Nat.le_max_right _ _)

/-- The generated key is larger than the key of every content block. -/
theorem Store.nextContentBlockID_gt_block (s : Store) (row : ContentBlockRow)
    (h : row ∈ s.content_block) : row.id < s.nextContentBlockID := by
  unfold Store.nextContentBlockID
  exact Nat.lt_succ_of_le (le_foldr_max _ _
    (List.mem_append_left _ (List.mem_map_of_mem (fun b => b.id) h)))

/-- The generated key is larger than every key a block type refers to. -/
theorem Store.nextContentBlockID_gt_type (s : Store) (t : ContentBlockTypeRow)
    (h : t ∈ s.content_block_type) : t.content_block_id < s.nextContentBlockID := by
  unfold Store.nextContentBlockID
  exact Nat.lt_succ_of_le (le_foldr_max _ _
    (List.mem_append_right _ (List.mem_map_of_mem (fun t => t.content_block_id) h)))

/-- The type tags read for a block that was in the store before another block
was added are the tags it had. -/
theorem selectContentBlockTypes_addBlock_old (s : Store) (notebookID : String)
    (block : ContentBlock) (row : ContentBlockRow) (h : row ∈ s.content_block) :
    selectContentBlockTypes row.id (Store.addBlock notebookID s block) =
      selectContentBlockTypes row.id s := by
  have hlt := s.nextContentBlockID_gt_block row h
  have hnil : (block.Types.map (fun typeName =>
      ({ content_block_id := s.nextContentBlockID, type_name := typeName } :
        ContentBlockTypeRow))).filter (fun r => r.content_block_id = row.id) = [] := by
    rw [List.filter_eq_nil_iff]
    intro r hr
    obtain ⟨t, _, rfl⟩ := List.mem_map.1 hr
    simp only [decide_eq_true_eq]
    omega
  simp only [selectContentBlockTypes, Store.addBlock, List.filter_append, hnil,
    List.append_nil]

/-- The type tags read for the block just added are the tags supplied. -/
theorem selectContentBlockTypes_addBlock_new (s : Store) (notebookID : String)
    (block : ContentBlock) :
    selectContentBlockTypes s.nextContentBlockID (Store.addBlock notebookID s block) =
      block.Types := by
  have hnil : s.content_block_type.filter
      (fun r => r.content_block_id = s.nextContentBlockID) = [] := by
    rw [List.filter_eq_nil_iff]
    intro r hr
    have := s.nextContentBlockID_gt_type r hr
    simp only [decide_eq_true_eq]
    omega
  have hall : (block.Types.map (fun typeName =>
      ({ content_block_id := s.nextContentBlockID, type_name := typeName } :
        ContentBlockTypeRow))).filter (fun r => r.content_block_id = s.nextContentBlockID) =
      block.Types.map (fun typeName =>
        { content_block_id := s.nextContentBlockID, type_name := typeName }) := by
    rw [List.filter_eq_self]
    intro r hr
    obtain ⟨t, _, rfl⟩ := List.mem_map.1 hr
    simp
  simp only [selectContentBlockTypes, Store.addBlock, List.filter_append, hnil, hall,
    List.nil_append, List.map_map]
  exact (List.map_congr_left (fun _ _ => rfl)).trans (List.map_id _)

/-- Adding a block to a notebook appends it to the blocks read for the notebook. -/
theorem Store.scanBlocks_addBlock (s : Store) (notebookID : String) (block : ContentBlock) :
    (Store.addBlock notebookID s block).scanBlocks notebookID =
      s.scanBlocks notebookID ++ [block] := by
  have hold : (s.content_block.filter (fun row => row.notebook_id = notebookID)).map
      (ContentBlockRow.toBlock (Store.addBlock notebookID s block)) =
      (s.content_block.filter (fun row => row.notebook_id = notebookID)).map
        (ContentBlockRow.toBlock s) := by
    apply List.map_congr_left
    intro row hrow
    have hmem : row ∈ s.content_block := (List.mem_filter.1 hrow).1
    simp only [ContentBlockRow.toBlock,
      selectContentBlockTypes_addBlock_old s notebookID block row hmem]
  have hnew := selectContentBlockTypes_addBlock_new s notebookID block
  unfold Store.scanBlocks
  have hcb : (Store.addBlock notebookID s block).content_block = s.content_block ++
      [{ id := s.nextContentBlockID, notebook_id := notebookID, uid := block.UID,
         parent_uid := block.ParentUID, content_type := block.ContentType,
         data := block.Data, order := block.Order }] := rfl
  rw [hcb, List.filter_append, List.map_append, hold]
  simp [ContentBlockRow.toBlock, hnew]

/-- Adding blocks one after the other appends them in that order. -/
theorem Store.scanBlocks_foldl (notebookID : String) :
    ∀ (blocks : List ContentBlock) (s : Store),
      (blocks.foldl (Store.addBlock notebookID) s).scanBlocks notebookID =
        s.scanBlocks notebookID ++ blocks
  | [], s => by simp
  | block :: rest, s => by
      rw [List.foldl_cons, Store.scanBlocks_foldl notebookID rest, Store.scanBlocks_addBlock]
      simp

/-- Adding blocks changes the two block tables only. -/
theorem Store.foldl_addBlock_frame (notebookID : String) :
    ∀ (blocks : List ContentBlock) (s : Store),
      (blocks.foldl (Store.addBlock notebookID) s).tenant = s.tenant ∧
      (blocks.foldl (Store.addBlock notebookID) s).notebook = s.notebook ∧
      (blocks.foldl (Store.addBlock notebookID) s).notebook_content = s.notebook_content ∧
      (blocks.foldl (Store.addBlock notebookID) s).notebook_notification =
        s.notebook_notification ∧
      (blocks.foldl (Store.addBlock notebookID) s).resource_index = s.resource_index
  | [], s => by simp
  | block :: rest, s => by
      rw [List.foldl_cons]
      have ih := Store.foldl_addBlock_frame notebookID rest (Store.addBlock notebookID s block)
      simpa [Store.addBlock] using ih

/-- The upsert of the resource index changes the resource index only. -/
theorem upsertResourceIndex_frame (uri entity_type entity_id tenant_id : String) (s : Store) :
    (upsertResourceIndex uri entity_type entity_id tenant_id s).1.tenant = s.tenant ∧
    (upsertResourceIndex uri entity_type entity_id tenant_id s).1.notebook = s.notebook ∧
    (upsertResourceIndex uri entity_type entity_id tenant_id s).1.notebook_content =
      s.notebook_content ∧
    (upsertResourceIndex uri entity_type entity_id tenant_id s).1.content_block =
      s.content_block ∧
    (upsertResourceIndex uri entity_type entity_id tenant_id s).1.content_block_type =
      s.content_block_type ∧
    (upsertResourceIndex uri entity_type entity_id tenant_id s).1.notebook_notification =
      s.notebook_notification := by
  unfold upsertResourceIndex
  split <;> simp

/-- The blocks read back depend on the two block tables only. -/
theorem Store.readBlocks_congr {s t : Store} (id : String)
    (h1 : s.content_block = t.content_block)
    (h2 : s.content_block_type = t.content_block_type) :
    (selectContentBlocks id s).map (ContentBlockRow.toBlock s) =
      (selectContentBlocks id t).map (ContentBlockRow.toBlock t) := by
  have hf : ContentBlockRow.toBlock s = ContentBlockRow.toBlock t := by
    funext row
    simp [ContentBlockRow.toBlock, selectContentBlockTypes, h2]
  simp [selectContentBlocks, h1, hf]

/-- Blocks that lie in the table in increasing `order` are read back in table
order. -/
theorem Store.readBlocks_of_sorted (s : Store) (id : String)
    (h : (s.scanBlocks id).Pairwise (fun a b => a.Order < b.Order)) :
    (selectContentBlocks id s).map (ContentBlockRow.toBlock s) = s.scanBlocks id := by
  unfold selectContentBlocks
  rw [List.Sorted.insertionSort_eq]
  · rfl
  · unfold Store.scanBlocks at h
    rw [List.pairwise_map] at h
    exact h.imp (fun hab => Int.le_of_lt hab)

/-- Reading back a notebook from the store that a successful `Create` leaves,
when no row referred to its id before and its blocks come in increasing `order`. -/
theorem Store.getNotebook_created (now : Nat) (n : Notebook) (s : Store)
    (hfresh : s.freshNotebookID n.ID)
    (hord : n.Contents.ContentBlocks.Pairwise (fun a b => a.Order < b.Order)) :
    (Store.created now n s).getNotebook n.ID = .ok n := by
  obtain ⟨hnb, hct, hcb, hnn⟩ := hfresh
  -- the store before the block loop
  let s2 : Store := (insertNotebookContent n.ID n.Contents.Data.Markdown
    (insertNotebook now n.ID n.TenantID n.LibraryID n.Status n.Owner n.DisplayName
      n.Description s).1).1
  let s3 : Store := n.Contents.ContentBlocks.foldl (Store.addBlock n.ID) s2
  let s4 : Store :=
    { s3 with
      notebook_notification := s3.notebook_notification ++
        n.Notifications.map (fun notif => { notebook_id := n.ID, nurl := notif.URL }) }
  have hS : Store.created now n s =
      (upsertResourceIndex n.URI "notebook" n.ID n.TenantID s4).1 := rfl
  have hup := upsertResourceIndex_frame n.URI "notebook" n.ID n.TenantID s4
  have hfr := Store.foldl_addBlock_frame n.ID n.Contents.ContentBlocks s2
  -- the notebook row
  have hrow : selectNotebook n.ID (Store.created now n s) =
      some { id := n.ID, tenant_id := n.TenantID, library_id := n.LibraryID,
             status := n.Status, owner := n.Owner, display_name := n.DisplayName,
             description := n.Description, created_at := now } := by
    have h0 : s.notebook.find? (fun row => row.id = n.ID) = none := by
      rw [List.find?_eq_none]
      intro row hr
      simpa using hnb row hr
    unfold selectNotebook
    rw [hS, hup.2.1]
    show s3.notebook.find? _ = _
    rw [hfr.2.1]
    show (s.notebook ++ [_]).find? _ = _
    rw [List.find?_append, h0]
    simp
  -- the markdown
  have hmd : selectNotebookContent n.ID (Store.created now n s) =
      some n.Contents.Data.Markdown := by
    have h0 : s.notebook_content.find? (fun row => row.notebook_id = n.ID) = none := by
      rw [List.find?_eq_none]
      intro row hr
      simpa using hct row hr
    unfold selectNotebookContent
    rw [hS, hup.2.2.1]
    show (s3.notebook_content.find? _).map _ = _
    rw [hfr.2.2.1]
    show ((s.notebook_content ++ [_]).find? _).map _ = _
    rw [List.find?_append, h0]
    simp
  -- the content blocks
  have hscan : s3.scanBlocks n.ID = n.Contents.ContentBlocks := by
    have h0 : s2.scanBlocks n.ID = [] := by
      unfold Store.scanBlocks
      have : s2.content_block.filter (fun row => row.notebook_id = n.ID) = [] := by
        rw [List.filter_eq_nil_iff]
        intro row hr
        simpa using hcb row hr
      rw [this]
      rfl
    show (n.Contents.ContentBlocks.foldl (Store.addBlock n.ID) s2).scanBlocks n.ID = _
    rw [Store.scanBlocks_foldl, h0, List.nil_append]
  have hblocks : (selectContentBlocks n.ID (Store.created now n s)).map
      (ContentBlockRow.toBlock (Store.created now n s)) = n.Contents.ContentBlocks := by
    rw [@Store.readBlocks_congr _ s3 n.ID (by rw [hS, hup.2.2.2.1])
      (by rw [hS, hup.2.2.2.2.1]), Store.readBlocks_of_sorted s3 n.ID (by rw [hscan]; exact hord),
      hscan]
  -- the notifications
  have hnotif : (selectNotebookNotifications n.ID (Store.created now n s)).map
      (fun nurl => ({ URL := nurl } : Notification)) = n.Notifications := by
    have h0 : s.notebook_notification.filter (fun row => row.notebook_id = n.ID) = [] := by
      rw [List.filter_eq_nil_iff]
      intro row hr
      simpa using hnn row hr
    have hnnS : (Store.created now n s).notebook_notification = s.notebook_notification ++
        n.Notifications.map (fun notif => { notebook_id := n.ID, nurl := notif.URL }) := by
      rw [hS, hup.2.2.2.2.2]
      show s3.notebook_notification ++ _ = _
      rw [hfr.2.2.2.1]
      rfl
    unfold selectNotebookNotifications
    rw [hnnS, List.filter_append, h0, List.nil_append, List.filter_eq_self.2]
    · rw [List.map_map, List.map_map]
      exact (List.map_congr_left (fun _ _ => rfl)).trans (List.map_id _)
    · intro row hr
      obtain ⟨t, _, rfl⟩ := List.mem_map.1 hr
      simp
  unfold Store.getNotebook
  rw [hrow]
  simp only [hmd, hblocks, hnotif, Option.getD_some]

/-- C6, as stated, fails: a notebook that supplies the block with `order` 1
before the block with `order` 0 is created in the empty store, and `Get`
returns the two blocks in the other order (`ORDER BY "order"`). -/
theorem notebook_roundtrip_sorts_blocks :
    Store.empty.freshNotebookID "n1" ∧
    (NotebookRepository.Create sampleDB (sampleNotebook [sampleBlock1, sampleBlock0])).1 =
      none ∧
    NotebookRepository.Get
        (NotebookRepository.Create sampleDB (sampleNotebook [sampleBlock1, sampleBlock0])).2
        "n1" = .ok (sampleNotebook [sampleBlock0, sampleBlock1]) ∧
    sampleNotebook [sampleBlock0, sampleBlock1] ≠ sampleNotebook [sampleBlock1, sampleBlock0] := by
  refine ⟨?_, by decide, by rfl, by decide⟩
  simp [Store.freshNotebookID, Store.empty]

/-- C6, amended: when no row of the notebook tables refers to the id of `n` and
`n` supplies its content blocks in strictly increasing `order`, then after a
successful `Create(n)` the method `Get(n.ID)`, on a connection whose queries go
through, returns a notebook equal to `n` in every field, content blocks with
their type tags and notifications in the order supplied. -/
theorem notebook_create_get_roundtrip (db db' : DB) (n : Notebook)
    (hfresh : db.store.freshNotebookID n.ID)
    (hord : n.Contents.ContentBlocks.Pairwise (fun a b => a.Order < b.Order))
    (h : NotebookRepository.Create db n = (none, db')) :
    NotebookRepository.Get { db' with faults := [] } n.ID = .ok n := by
  rw [NotebookRepository.Get_of_no_faults rfl]
  show db'.store.getNotebook n.ID = .ok n
  rw [NotebookRepository.Create_ok h]
  exact Store.getNotebook_created db.now n db.store hfresh hord

/-- Witness for C6, amended: notebook `n1` with the blocks of `order` 0 and 1. -/
theorem notebook_create_get_roundtrip_witness :
    NotebookRepository.Get
        { (NotebookRepository.Create sampleDB
            (sampleNotebook [sampleBlock0, sampleBlock1])).2 with faults := [] }
        (sampleNotebook [sampleBlock0, sampleBlock1]).ID =
      .ok (sampleNotebook [sampleBlock0, sampleBlock1]) :=
  notebook_create_get_roundtrip sampleDB
    (NotebookRepository.Create sampleDB (sampleNotebook [sampleBlock0, sampleBlock1])).2
    (sampleNotebook [sampleBlock0, sampleBlock1])
    (by simp [Store.freshNotebookID, sampleDB, Store.empty])
    (by simp [sampleNotebook, sampleBlock0, sampleBlock1])
    (Prod.ext (by decide) rfl)

/-! ### Deleting a notebook -/

/-- The statement that deletes notebooks leaves the resource index alone. -/
theorem Store.removeNotebooks_resource_index (s : Store) (cascade : Bool)
    (p : NotebookRow → Bool) :
    (s.removeNotebooks cascade p).resource_index = s.resource_index := by
  unfold Store.removeNotebooks
  cases cascade <;> rfl

/-- Method `NotebookRepository.Delete` never changes the resource index. -/
theorem NotebookRepository.Delete_resource_index (db : DB) (id : String) :
    (NotebookRepository.Delete db id).2.store.resource_index = db.store.resource_index := by
  unfold NotebookRepository.Delete
  split
  · rename_i heq
    rw [DB.ExecContext_error heq]
  · rename_i heq
    have h := (DB.ExecContext_ok heq).1
    split <;>
      simp only [h, deleteNotebook, Store.removeNotebooks_resource_index]

/-- C7 fails on the code: `NotebookRepository.Delete` only deletes from table
`notebook`. For the store that holds notebook `n1` of tenant `t1` and its
resource-index row, `Delete("n1")` succeeds and `Get("n1")` fails with
not-found, but the resource index still holds the row for the URI of the
notebook; the same happens when the foreign keys of the notebook tables
cascade. -/
theorem notebook_delete_keeps_index_row :
    (NotebookRepository.Delete (sampleNotebookDB false) "n1").1 = none ∧
    NotebookRepository.Get (NotebookRepository.Delete (sampleNotebookDB false) "n1").2 "n1" =
      .error "notebook not found: n1" ∧
    (NotebookRepository.Delete (sampleNotebookDB false) "n1").2.store.resource_index =
      [{ uri := (sampleNotebook [sampleBlock0]).URI, entity_type := "notebook",
         entity_id := "n1", tenant_id := "t1" }] ∧
    (NotebookRepository.Delete (sampleNotebookDB true) "n1").1 = none ∧
    NotebookRepository.Get (NotebookRepository.Delete (sampleNotebookDB true) "n1").2 "n1" =
      .error "notebook not found: n1" ∧
    (NotebookRepository.Delete (sampleNotebookDB true) "n1").2.store.resource_index =
      [{ uri := (sampleNotebook [sampleBlock0]).URI, entity_type := "notebook",
         entity_id := "n1", tenant_id := "t1" }] :=
  ⟨by decide, by rfl, by decide, by decide, by rfl, by decide⟩

/-! ### Tenant repository -/

/-- Method `TenantRepository.updateResourceIndex`, when it succeeds, has applied
the upsert. -/
theorem TenantRepository.updateResourceIndex_ok {db db' : DB} {tenant : Tenant}
    (h : TenantRepository.updateResourceIndex db tenant = (none, db')) :
    db'.store = (upsertResourceIndex tenant.URI "tenant" tenant.ID tenant.ID db.store).1 := by
  unfold TenantRepository.updateResourceIndex at h
  split at h
  · cases (Prod.mk.inj h).1
  · rename_i heq
    rw [← (Prod.mk.inj h).2]
    exact (DB.ExecContext_ok heq).1

/-- A successful `Delete` of a tenant found at least one row, and has applied
both of its statements. -/
theorem TenantRepository.Delete_ok {db db' : DB} {id : String}
    (h : TenantRepository.Delete db id = (none, db')) :
    db'.store =
        (deleteTenantResourceIndex id (deleteTenant db.cascade id db.store).1).1 ∧
      (db.store.tenant.filter (fun row => row.id = id)).length ≠ 0 := by
  unfold TenantRepository.Delete at h
  split at h
  · cases (Prod.mk.inj h).1
  · rename_i rows db1 h1
    have e1 := DB.ExecContext_ok h1
    split at h
    · cases (Prod.mk.inj h).1
    · rename_i hrows
      split at h
      · cases (Prod.mk.inj h).1
      · rename_i h2
        have e2 := DB.ExecContext_ok h2
        rw [← (Prod.mk.inj h).2, e2.1, e1.1]
        refine ⟨rfl, ?_⟩
        rw [e1.2.1] at hrows
        exact hrows

/-- A successful `Update` of a tenant found at least one row, and has applied
both of its statements. -/
theorem TenantRepository.Update_ok {db db' : DB} {tenant : Tenant}
    (h : TenantRepository.Update db tenant = (none, db')) :
    db'.store =
        (upsertResourceIndex tenant.URI "tenant" tenant.ID tenant.ID
          (updateTenant tenant.ID tenant.Owner tenant.DisplayName tenant.Description
            (.marshalled tenant.Labels) tenant.Version db.store).1).1 ∧
      (db.store.tenant.filter (fun row => row.id = tenant.ID)).length ≠ 0 := by
  unfold TenantRepository.Update at h
  simp only [jsonMarshal] at h
  split at h
  · cases (Prod.mk.inj h).1
  · rename_i rows db1 h1
    have e1 := DB.ExecContext_ok h1
    split at h
    · cases (Prod.mk.inj h).1
    · rename_i hrows
      split at h
      · cases (Prod.mk.inj h).1
      · rename_i h2
        have e2 := TenantRepository.updateResourceIndex_ok h2
        rw [← (Prod.mk.inj h).2, e2, e1.1]
        refine ⟨rfl, ?_⟩
        rw [e1.2.1] at hrows
        exact hrows

/-- Method `TenantRepository.Get` on a store without a row for the id returns an
error whatever the driver does, and the not-found error when the query goes
through. -/
theorem TenantRepository.Get_absent (db : DB) (id : String)
    (h : selectTenant id db.store = none) :
    (∃ err, TenantRepository.Get db id = .error err) ∧
      (db.faults = [] → TenantRepository.Get db id = .error ("tenant not found: " ++ id)) := by
  constructor
  · unfold TenantRepository.Get DB.QueryRowContext
    have hf := (DB.next_frame db).1
    rcases hn : db.next with ⟨_ | err, db1⟩
    · rw [hn] at hf
      simp only at hf ⊢
      rw [hf, h]
      exact ⟨_, rfl⟩
    · exact ⟨_, rfl⟩
  · intro hf
    unfold TenantRepository.Get
    rw [DB.QueryRowContext_of_no_faults hf, h]

/-- C8: after a `TenantRepository.Delete(i)` that returns without error on a
store containing tenant `i`, `Get(i)` returns no tenant: it fails, with the
error `tenant not found: i` when its query goes through; and the resource
index has no row with entity type `tenant` and entity id `i`. -/
theorem tenant_delete_then_get (db db' : DB) (id : String)
    (_hex : ∃ row ∈ db.store.tenant, row.id = id)
    (h : TenantRepository.Delete db id = (none, db')) :
    (∀ faults, ∃ err, TenantRepository.Get { db' with faults := faults } id = .error err) ∧
    TenantRepository.Get { db' with faults := [] } id = .error ("tenant not found: " ++ id) ∧
    (∀ row ∈ db'.store.resource_index, ¬ (row.entity_type = "tenant" ∧ row.entity_id = id)) := by
  have hs := (TenantRepository.Delete_ok h).1
  have htab : db'.store.tenant = db.store.tenant.filter (fun row => !(row.id = id)) := by
    rw [hs]
    simp only [deleteTenantResourceIndex, deleteTenant]
  have hsel : selectTenant id db'.store = none := by
    unfold selectTenant
    rw [htab, List.find?_eq_none]
    intro row hrow
    have := (List.mem_filter.1 hrow).2
    simpa using this
  refine ⟨fun faults => (TenantRepository.Get_absent { db' with faults := faults } id hsel).1,
    (TenantRepository.Get_absent { db' with faults := [] } id hsel).2 rfl, ?_⟩
  intro row hrow
  rw [hs] at hrow
  simp only [deleteTenantResourceIndex] at hrow
  have := (List.mem_filter.1 hrow).2
  intro hc
  simp [hc.1, hc.2] at this

/-- Witness for C8: tenant `t1` is created in the empty store and deleted. -/
theorem tenant_delete_then_get_witness :
    TenantRepository.Get
        { (TenantRepository.Delete (TenantRepository.Create sampleDB (sampleTenant "a" "1")).2
            "t1").2 with faults := [] } "t1" = .error ("tenant not found: " ++ "t1") :=
  (tenant_delete_then_get (TenantRepository.Create sampleDB (sampleTenant "a" "1")).2
    (TenantRepository.Delete (TenantRepository.Create sampleDB (sampleTenant "a" "1")).2 "t1").2
    "t1" ⟨⟨"t1", "a", "Acme", "", .marshalled [], "1", 5, 0⟩, by decide, rfl⟩
    (Prod.ext (by decide) rfl)).2.1

/-- C9, as stated, fails: `Update` stores the version of its argument. Updating
tenant `t1`, stored with version `2`, with an argument of version `2` succeeds
and leaves the version unchanged; with an argument of version `1` it succeeds
and lowers the stored version. -/
theorem tenant_update_keeps_or_lowers_version :
    (TenantRepository.Create sampleDB (sampleTenant "a" "2")).2.store.tenant.map
        (fun row => (row.id, row.version)) = [("t1", "2")] ∧
    (TenantRepository.Update (TenantRepository.Create sampleDB (sampleTenant "a" "2")).2
        (sampleTenant "b" "2")).1 = none ∧
    (TenantRepository.Update (TenantRepository.Create sampleDB (sampleTenant "a" "2")).2
        (sampleTenant "b" "2")).2.store.tenant.map
        (fun row => (row.id, row.owner, row.version)) = [("t1", "b", "2")] ∧
    (TenantRepository.Update (TenantRepository.Create sampleDB (sampleTenant "a" "2")).2
        (sampleTenant "b" "1")).1 = none ∧
    (TenantRepository.Update (TenantRepository.Create sampleDB (sampleTenant "a" "2")).2
        (sampleTenant "b" "1")).2.store.tenant.map
        (fun row => (row.id, row.owner, row.version)) = [("t1", "b", "1")] ∧
    "1".data < "2".data := by
  decide

/-- C9, amended: after a successful `TenantRepository.Update` with argument `t`
the store has a tenant row with the id of `t`, and the version of every such
row is `t.Version`, whatever version was stored before. -/
theorem tenant_update_stores_argument_version (db db' : DB) (t : Tenant)
    (h : TenantRepository.Update db t = (none, db')) :
    (∃ row ∈ db'.store.tenant, row.id = t.ID) ∧
    (∀ row ∈ db'.store.tenant, row.id = t.ID → row.version = t.Version) := by
  obtain ⟨hs, hrows⟩ := TenantRepository.Update_ok h
  have htab : db'.store.tenant = db.store.tenant.map (fun row =>
      if row.id = t.ID then
        { row with
          owner := t.Owner, display_name := t.DisplayName, description := t.Description,
          labels_json := .marshalled t.Labels, version := t.Version }
      else row) := by
    rw [hs, (upsertResourceIndex_frame _ _ _ _ _).1]
    rfl
  constructor
  · obtain ⟨r0, hr0⟩ := List.exists_mem_of_length_pos (Nat.pos_of_ne_zero hrows)
    have hmem := (List.mem_filter.1 hr0).1
    have hid : r0.id = t.ID := by simpa using (List.mem_filter.1 hr0).2
    rw [htab]
    exact ⟨_, List.mem_map_of_mem _ hmem, by simp [hid]⟩
  · intro row hrow hid
    rw [htab] at hrow
    obtain ⟨r0, _, rfl⟩ := List.mem_map.1 hrow
    by_cases h0 : r0.id = t.ID
    · simp [h0]
    · simp [h0] at hid

/-- Witness for C9, amended: tenant `t1`, stored with version `2`, is updated
with an argument of version `7`. -/
theorem tenant_update_stores_argument_version_witness :
    (∃ row ∈ (TenantRepository.Update
        (TenantRepository.Create sampleDB (sampleTenant "a" "2")).2
        (sampleTenant "b" "7")).2.store.tenant, row.id = (sampleTenant "b" "7").ID) ∧
    (∀ row ∈ (TenantRepository.Update
        (TenantRepository.Create sampleDB (sampleTenant "a" "2")).2
        (sampleTenant "b" "7")).2.store.tenant,
      row.id = (sampleTenant "b" "7").ID → row.version = (sampleTenant "b" "7").Version) :=
  tenant_update_stores_argument_version
    (TenantRepository.Create sampleDB (sampleTenant "a" "2")).2
    (TenantRepository.Update (TenantRepository.Create sampleDB (sampleTenant "a" "2")).2
      (sampleTenant "b" "7")).2
    (sampleTenant "b" "7") (Prod.ext (by decide) rfl)

/-! ### Stores the repositories can produce -/

/-- A statement in autocommit mode either fails and changes nothing or is
applied. -/
theorem DB.ExecContext_store_cases (db : DB) (stmt : Store → Store × Nat) :
    (db.ExecContext stmt).2.store = db.store ∨
      (db.ExecContext stmt).2.store = (stmt db.store).1 := by
  rcases h : db.ExecContext stmt with ⟨_ | rows, db'⟩
  · exact Or.inl (DB.ExecContext_error h)
  · exact Or.inr (DB.ExecContext_ok h).1

/-- The tenant-side resource-index upsert, failed or not, leaves table `tenant`
alone. -/
theorem TenantRepository.updateResourceIndex_tenant (db : DB) (tenant : Tenant) :
    (TenantRepository.updateResourceIndex db tenant).2.store.tenant = db.store.tenant := by
  unfold TenantRepository.updateResourceIndex
  split
  · rename_i heq
    rw [DB.ExecContext_error heq]
  · rename_i heq
    rw [(DB.ExecContext_ok heq).1, (upsertResourceIndex_frame _ _ _ _ _).1]

/-- Method `TenantRepository.Create` keeps the labels of table `tenant` decodable. -/
theorem TenantRepository.Create_labelsValid (db : DB) (tenant : Tenant)
    (h : db.store.labelsValid) : (TenantRepository.Create db tenant).2.store.labelsValid := by
  have hins : ∀ db1 : DB, db1.store = db.store ∨ db1.store =
      (insertTenant db.now tenant.ID tenant.Owner tenant.DisplayName tenant.Description
        (.marshalled tenant.Labels) tenant.Version tenant.LastModified db.store).1 →
      db1.store.labelsValid := by
    intro db1 hc row hrow
    rcases hc with hc | hc
    · rw [hc] at hrow
      exact h row hrow
    · rw [hc] at hrow
      simp only [insertTenant] at hrow
      rcases List.mem_append.1 hrow with hrow | hrow
      · exact h row hrow
      · rw [List.mem_singleton.1 hrow]
        exact ⟨_, rfl⟩
  unfold TenantRepository.Create
  simp only [jsonMarshal]
  split
  · rename_i heq
    exact hins _ (Or.inl (DB.ExecContext_error heq))
  · rename_i db1 heq
    have h1 := hins db1 (Or.inr (DB.ExecContext_ok heq).1)
    have h2 := TenantRepository.updateResourceIndex_tenant db1 tenant
    split <;> rename_i h3 <;> intro row hrow <;> rw [← snd_of_eq h3, h2] at hrow <;>
      exact h1 row hrow

/-- Method `TenantRepository.Update` keeps the labels of table `tenant` decodable. -/
theorem TenantRepository.Update_labelsValid (db : DB) (tenant : Tenant)
    (h : db.store.labelsValid) : (TenantRepository.Update db tenant).2.store.labelsValid := by
  have hupd : ∀ db1 : DB, db1.store = db.store ∨ db1.store =
      (updateTenant tenant.ID tenant.Owner tenant.DisplayName tenant.Description
        (.marshalled tenant.Labels) tenant.Version db.store).1 →
      db1.store.labelsValid := by
    intro db1 hc row hrow
    rcases hc with hc | hc
    · rw [hc] at hrow
      exact h row hrow
    · rw [hc] at hrow
      simp only [updateTenant] at hrow
      obtain ⟨r0, hr0, rfl⟩ := List.mem_map.1 hrow
      by_cases h0 : r0.id = tenant.ID
      · simp [h0]
      · simp only [h0, if_false]
        exact h r0 hr0
  unfold TenantRepository.Update
  simp only [jsonMarshal]
  split
  · rename_i heq
    exact hupd _ (Or.inl (DB.ExecContext_error heq))
  · rename_i db1 heq
    have h1 := hupd db1 (Or.inr (DB.ExecContext_ok heq).1)
    have h2 := TenantRepository.updateResourceIndex_tenant db1 tenant
    split
    · exact h1
    · split <;> rename_i h3 <;> intro row hrow <;> rw [← snd_of_eq h3, h2] at hrow <;>
        exact h1 row hrow

/-- Deleting tenants removes rows of table `tenant` and adds none. -/
theorem deleteTenant_tenant (cascade : Bool) (id : String) (s : Store) :
    (deleteTenant cascade id s).1.tenant = s.tenant.filter (fun row => !(row.id = id)) := rfl

/-- Method `TenantRepository.Delete` keeps the labels of table `tenant` decodable. -/
theorem TenantRepository.Delete_labelsValid (db : DB) (id : String)
    (h : db.store.labelsValid) : (TenantRepository.Delete db id).2.store.labelsValid := by
  have hdel : ∀ db1 : DB, db1.store.tenant = db.store.tenant ∨
      db1.store.tenant = db.store.tenant.filter (fun row => !(row.id = id)) →
      db1.store.labelsValid := by
    intro db1 hc row hrow
    rcases hc with hc | hc
    · rw [hc] at hrow
      exact h row hrow
    · rw [hc] at hrow
      exact h row (List.mem_filter.1 hrow).1
  unfold TenantRepository.Delete
  split
  · rename_i heq
    exact hdel _ (Or.inl (by rw [DB.ExecContext_error heq]))
  · rename_i db1 heq
    have h1 : db1.store.tenant = db.store.tenant.filter (fun row => !(row.id = id)) := by
      rw [(DB.ExecContext_ok heq).1, deleteTenant_tenant]
    split
    · exact hdel _ (Or.inr h1)
    · split
      · rename_i h3
        exact hdel _ (Or.inr (by rw [DB.ExecContext_error h3, h1]))
      · rename_i h3
        refine hdel _ (Or.inr ?_)
        rw [(DB.ExecContext_ok h3).1]
        exact h1

/-- The store that a successful `Create` of a notebook leaves has the tenants it
had. -/
theorem Store.created_tenant (now : Nat) (n : Notebook) (s : Store) :
    (Store.created now n s).tenant = s.tenant := by
  unfold Store.created
  simp only []
  rw [(upsertResourceIndex_frame _ _ _ _ _).1]
  show (n.Contents.ContentBlocks.foldl (Store.addBlock n.ID) _).tenant = _
  rw [(Store.foldl_addBlock_frame _ _ _).1]
  rfl

/-- Method `NotebookRepository.Create` leaves table `tenant` alone. -/
theorem NotebookRepository.Create_tenant (db : DB) (n : Notebook) :
    (NotebookRepository.Create db n).2.store.tenant = db.store.tenant := by
  rcases h : NotebookRepository.Create db n with ⟨_ | err, db'⟩
  · rw [NotebookRepository.Create_ok h, Store.created_tenant]
  · have := NotebookRepository.Create_error db n err (by rw [h])
    rw [h] at this
    rw [this]

/-- A failed `Update` of a notebook ends in a rollback: the store is unchanged. -/
theorem NotebookRepository.Update_error (db : DB) (notebook : Notebook) (err : String)
    (h : (NotebookRepository.Update db notebook).1 = some err) :
    (NotebookRepository.Update db notebook).2.store = db.store := by
  revert h
  unfold NotebookRepository.Update
  split
  · rename_i heq
    intro _
    rw [← (Prod.mk.inj heq).2]
    exact DB.BeginTx_store db
  · rename_i tx0 _ heq
    have hb0 : tx0.base = db.store := (DB.BeginTx_ok heq).1
    split
    · rename_i h1
      intro _
      rw [Tx.Rollback_store, ← snd_of_eq h1, Tx.ExecContext_base, hb0]
    · rename_i _ tx1 h1
      have hb1 : tx1.base = db.store := by
        rw [← snd_of_eq h1, Tx.ExecContext_base, hb0]
      split
      · intro _
        rw [Tx.Rollback_store, hb1]
      · split
        · rename_i h2
          intro _
          rw [Tx.Rollback_store, ← snd_of_eq h2, Tx.ExecContext_base, hb1]
        · rename_i _ tx2 h2
          have hb2 : tx2.base = db.store := by
            rw [← snd_of_eq h2, Tx.ExecContext_base, hb1]
          intro hc
          rw [Tx.Commit_error hc, hb2]

/-- A successful `Update` of a notebook found at least one row, and has applied
both of its statements. -/
theorem NotebookRepository.notebook_Update_ok {db db' : DB} {n : Notebook}
    (h : NotebookRepository.Update db n = (none, db')) :
    db'.store =
        (updateNotebookContent n.ID n.Contents.Data.Markdown
          (updateNotebook n.ID n.Status n.Owner n.DisplayName n.Description db.store).1).1 ∧
      (db.store.notebook.filter (fun row => row.id = n.ID)).length ≠ 0 := by
  unfold NotebookRepository.Update at h
  split at h
  · cases (Prod.mk.inj h).1
  · rename_i tx0 _ h0
    have e0 := DB.BeginTx_ok h0
    split at h
    · cases (Prod.mk.inj h).1
    · rename_i rows tx1 h1
      have e1 := Tx.tx_ExecContext_ok h1
      split at h
      · cases (Prod.mk.inj h).1
      · rename_i hrows
        split at h
        · cases (Prod.mk.inj h).1
        · rename_i _ tx2 h2
          have e2 := Tx.tx_ExecContext_ok h2
          have e3 := Tx.Commit_ok h
          rw [e3, e2.1, e1.1, e0.2.1]
          refine ⟨rfl, ?_⟩
          rw [e1.2.1, e0.2.1] at hrows
          exact hrows

/-- Method `NotebookRepository.Update` leaves table `tenant` alone. -/
theorem NotebookRepository.Update_tenant (db : DB) (n : Notebook) :
    (NotebookRepository.Update db n).2.store.tenant = db.store.tenant := by
  rcases h : NotebookRepository.Update db n with ⟨_ | err, db'⟩
  · rw [(NotebookRepository.notebook_Update_ok h).1]
    rfl
  · have := NotebookRepository.Update_error db n err (by rw [h])
    rw [h] at this
    rw [this]

/-- The statement that deletes notebooks leaves table `tenant` alone. -/
theorem Store.removeNotebooks_tenant (s : Store) (cascade : Bool) (p : NotebookRow → Bool) :
    (s.removeNotebooks cascade p).tenant = s.tenant := by
  unfold Store.removeNotebooks
  cases cascade <;> rfl

/-- Method `NotebookRepository.Delete` leaves table `tenant` alone. -/
theorem NotebookRepository.Delete_tenant (db : DB) (id : String) :
    (NotebookRepository.Delete db id).2.store.tenant = db.store.tenant := by
  unfold NotebookRepository.Delete
  split
  · rename_i heq
    rw [DB.ExecContext_error heq]
  · rename_i heq
    have h := (DB.ExecContext_ok heq).1
    split <;> simp only [h, deleteNotebook, Store.removeNotebooks_tenant]

/-- In every store the repositories can produce, the labels of table `tenant`
are decodable. -/
theorem Reachable.labelsValid {s : Store} (h : Reachable s) : s.labelsValid := by
  induction h with
  | empty =>
    intro row hrow
    cases hrow
  | tenantCreate db t _ ih => exact TenantRepository.Create_labelsValid db t ih
  | tenantUpdate db t _ ih => exact TenantRepository.Update_labelsValid db t ih
  | tenantDelete db id _ ih => exact TenantRepository.Delete_labelsValid db id ih
  | notebookCreate db n _ ih =>
    intro row hrow
    rw [NotebookRepository.Create_tenant] at hrow
    exact ih row hrow
  | notebookUpdate db n _ ih =>
    intro row hrow
    rw [NotebookRepository.Update_tenant] at hrow
    exact ih row hrow
  | notebookDelete db id _ ih =>
    intro row hrow
    rw [NotebookRepository.Delete_tenant] at hrow
    exact ih row hrow

/-- Method `TenantRepository.Get` on a connection without pending failures. -/
theorem TenantRepository.tenant_Get_of_no_faults {db : DB} (h : db.faults = []) (id : String) :
    TenantRepository.Get db id =
      match selectTenant id db.store with
      | none => .error ("tenant not found: " ++ id)
      | some row =>
        match jsonUnmarshal row.labels_json with
        | .error err => .error ("failed to unmarshal labels: " ++ err)
        | .ok labels =>
          .ok { ID := row.id, Owner := row.owner, DisplayName := row.display_name,
                Description := row.description, Labels := labels, Version := row.version,
                LastModified := row.last_modified } := by
  unfold TenantRepository.Get
  rw [DB.QueryRowContext_of_no_faults h]
  cases selectTenant id db.store <;> rfl

/-- C10: on a store the repositories can produce and a connection whose queries
go through, `TenantRepository.Get(id)` returns the error `tenant not found: id`
exactly when no tenant row has that id, and otherwise returns a tenant whose id
is the requested id; likewise `NotebookRepository.Get(id)` with
`notebook not found: id`. -/
theorem get_not_found_iff_absent (db : DB) (id : String) (hr : Reachable db.store)
    (hf : db.faults = []) :
    (TenantRepository.Get db id = .error ("tenant not found: " ++ id) ↔
      ∀ row ∈ db.store.tenant, row.id ≠ id) ∧
    ((∃ row ∈ db.store.tenant, row.id = id) →
      ∃ t, TenantRepository.Get db id = .ok t ∧ t.ID = id) ∧
    (NotebookRepository.Get db id = .error ("notebook not found: " ++ id) ↔
      ∀ row ∈ db.store.notebook, row.id ≠ id) ∧
    ((∃ row ∈ db.store.notebook, row.id = id) →
      ∃ n, NotebookRepository.Get db id = .ok n ∧ n.ID = id) := by
  have hvalid := hr.labelsValid
  -- what the tenant query finds
  have htenant : ∀ row, selectTenant id db.store = some row →
      ∃ t, TenantRepository.Get db id = .ok t ∧ t.ID = id := by
    intro row hrow
    have hid : row.id = id := by simpa using List.find?_some hrow
    obtain ⟨m, hm⟩ := hvalid row (List.mem_of_find?_eq_some hrow)
    rw [TenantRepository.tenant_Get_of_no_faults hf, hrow]
    simp only [hm, jsonUnmarshal]
    exact ⟨_, rfl, hid⟩
  have hnotebook : ∀ row, selectNotebook id db.store = some row →
      ∃ n, NotebookRepository.Get db id = .ok n ∧ n.ID = id := by
    intro row hrow
    have hid : row.id = id := by simpa using List.find?_some hrow
    rw [NotebookRepository.Get_of_no_faults hf]
    unfold Store.getNotebook
    rw [hrow]
    exact ⟨_, rfl, hid⟩
  have hnoneT : selectTenant id db.store = none ↔ ∀ row ∈ db.store.tenant, row.id ≠ id := by
    unfold selectTenant
    rw [List.find?_eq_none]
    simp
  have hnoneN : selectNotebook id db.store = none ↔
      ∀ row ∈ db.store.notebook, row.id ≠ id := by
    unfold selectNotebook
    rw [List.find?_eq_none]
    simp
  refine ⟨⟨fun h => ?_, fun h => ?_⟩, fun h => ?_, ⟨fun h => ?_, fun h => ?_⟩, fun h => ?_⟩
  · rcases hsel : selectTenant id db.store with _ | row
    · exact hnoneT.1 hsel
    · obtain ⟨t, ht, _⟩ := htenant row hsel
      rw [ht] at h
      cases h
  · rw [TenantRepository.tenant_Get_of_no_faults hf, hnoneT.2 h]
  · rcases hsel : selectTenant id db.store with _ | row
    · obtain ⟨row, hrow, hid⟩ := h
      exact absurd hid (hnoneT.1 hsel row hrow)
    · exact htenant row hsel
  · rcases hsel : selectNotebook id db.store with _ | row
    · exact hnoneN.1 hsel
    · obtain ⟨n, hn, _⟩ := hnotebook row hsel
      rw [hn] at h
      cases h
  · rw [NotebookRepository.Get_of_no_faults hf]
    unfold Store.getNotebook
    rw [hnoneN.2 h]
  · rcases hsel : selectNotebook id db.store with _ | row
    · obtain ⟨row, hrow, hid⟩ := h
      exact absurd hid (hnoneN.1 hsel row hrow)
    · exact hnotebook row hsel

/-- Witness for C10: the store after creating tenant `t1`, asked for `t1`. -/
theorem get_not_found_iff_absent_witness :
    ∃ t, TenantRepository.Get (TenantRepository.Create sampleDB (sampleTenant "a" "1")).2 "t1" =
      .ok t ∧ t.ID = "t1" :=
  (get_not_found_iff_absent (TenantRepository.Create sampleDB (sampleTenant "a" "1")).2 "t1"
    (Reachable.tenantCreate sampleDB (sampleTenant "a" "1") Reachable.empty) (by decide)).2.1
    ⟨⟨"t1", "a", "Acme", "", .marshalled [], "1", 5, 0⟩, by decide, rfl⟩

/-! ### Mutating an absent entity -/

/-- A statement on a connection without pending failures is applied. -/
theorem DB.ExecContext_of_no_faults {db : DB} (h : db.faults = []) (stmt : Store → Store × Nat) :
    db.ExecContext stmt = (.ok (stmt db.store).2, { db with store := (stmt db.store).1 }) := by
  unfold DB.ExecContext
  rw [DB.next_of_no_faults h]

/-- A transaction begins on a connection without pending failures. -/
theorem DB.BeginTx_of_no_faults {db : DB} (h : db.faults = []) :
    db.BeginTx = (.ok { base := db.store, conn := db }, db) := by
  unfold DB.BeginTx
  rw [DB.next_of_no_faults h]

/-- A map that changes only rows that are not there changes nothing. -/
theorem map_ite_absent {α : Type} (l : List α) (p : α → Prop) [DecidablePred p] (f : α → α)
    (h : ∀ a ∈ l, ¬ p a) : l.map (fun a => if p a then f a else a) = l := by
  induction l with
  | nil => rfl
  | cons a l ih =>
    have ha : ¬ p a := h a (List.mem_cons_self a l)
    have hl : ∀ b ∈ l, ¬ p b := fun b hb => h b (List.mem_cons_of_mem a hb)
    simp only [List.map_cons, ha, if_false, ih hl]

/-- The `UPDATE` of a tenant that has no row changes nothing and affects no row. -/
theorem updateTenant_absent (id owner display_name description : String)
    (labels_json : JSONBytes) (version : String) (s : Store)
    (h : ∀ row ∈ s.tenant, row.id ≠ id) :
    updateTenant id owner display_name description labels_json version s = (s, 0) := by
  unfold updateTenant
  simp only []
  rw [map_ite_absent s.tenant (fun row => row.id = id) _ h]
  have hf : s.tenant.filter (fun row => row.id = id) = [] := by
    rw [List.filter_eq_nil_iff]
    intro row hrow
    simpa using h row hrow
  rw [hf]
  rfl

/-- The `DELETE` of a tenant that has no row changes nothing and affects no row. -/
theorem deleteTenant_absent (cascade : Bool) (id : String) (s : Store)
    (h : ∀ row ∈ s.tenant, row.id ≠ id) : deleteTenant cascade id s = (s, 0) := by
  have hany : s.tenant.any (fun row => row.id = id) = false := by
    rw [List.any_eq_false]
    intro row hrow
    simpa using h row hrow
  have hkeep : s.tenant.filter (fun row => !(row.id = id)) = s.tenant := by
    rw [List.filter_eq_self]
    intro row hrow
    simpa using h row hrow
  have hf : s.tenant.filter (fun row => row.id = id) = [] := by
    rw [List.filter_eq_nil_iff]
    intro row hrow
    simpa using h row hrow
  unfold deleteTenant
  simp only [hany, hkeep, hf]
  simp

/-- The `UPDATE` of a notebook that has no row changes nothing and affects no
row. -/
theorem updateNotebook_absent (id status owner display_name description : String) (s : Store)
    (h : ∀ row ∈ s.notebook, row.id ≠ id) :
    updateNotebook id status owner display_name description s = (s, 0) := by
  unfold updateNotebook
  simp only []
  rw [map_ite_absent s.notebook (fun row => row.id = id) _ h]
  have hf : s.notebook.filter (fun row => row.id = id) = [] := by
    rw [List.filter_eq_nil_iff]
    intro row hrow
    simpa using h row hrow
  rw [hf]
  rfl

/-- The `DELETE` of a notebook that has no row changes nothing and affects no
row, with or without cascading foreign keys. -/
theorem deleteNotebook_absent (cascade : Bool) (id : String) (s : Store)
    (h : ∀ row ∈ s.notebook, row.id ≠ id) : deleteNotebook cascade id s = (s, 0) := by
  have hf : s.notebook.filter (fun row => decide (row.id = id)) = [] := by
    rw [List.filter_eq_nil_iff]
    intro row hrow
    simpa using h row hrow
  have hkeep : s.notebook.filter (fun row => !decide (row.id = id)) = s.notebook := by
    rw [List.filter_eq_self]
    intro row hrow
    simpa using h row hrow
  unfold deleteNotebook Store.removeNotebooks
  simp only [hf, hkeep, List.map_nil, List.filter_nil]
  cases cascade <;> simp

/-- Method `TenantRepository.Update` for a tenant without a row: an error, the
not-found error when the statement goes through, and the store unchanged. -/
theorem TenantRepository.tenant_Update_absent (db : DB) (t : Tenant)
    (h : ∀ row ∈ db.store.tenant, row.id ≠ t.ID) :
    (∃ err, (TenantRepository.Update db t).1 = some err) ∧
    (TenantRepository.Update db t).2.store = db.store ∧
    (db.faults = [] →
      (TenantRepository.Update db t).1 = some ("tenant not found: " ++ t.ID)) := by
  have hstmt := updateTenant_absent t.ID t.Owner t.DisplayName t.Description
    (.marshalled t.Labels) t.Version db.store h
  unfold TenantRepository.Update
  simp only [jsonMarshal]
  refine ⟨?_, ?_, ?_⟩
  · split
    · exact ⟨_, rfl⟩
    · rename_i rows db1 heq
      have e := (DB.ExecContext_ok heq).2.1
      rw [hstmt] at e
      simp only [e, if_true]
      exact ⟨_, rfl⟩
  · split
    · rename_i heq
      exact DB.ExecContext_error heq
    · rename_i rows db1 heq
      have e := DB.ExecContext_ok heq
      rw [hstmt] at e
      simp only [e.2.1, if_true]
      exact e.1
  · intro hf
    rw [DB.ExecContext_of_no_faults hf, hstmt]
    rfl

/-- Method `TenantRepository.Delete` for a tenant without a row: an error, the
not-found error when the statement goes through, and the store unchanged. -/
theorem TenantRepository.tenant_Delete_absent (db : DB) (id : String)
    (h : ∀ row ∈ db.store.tenant, row.id ≠ id) :
    (∃ err, (TenantRepository.Delete db id).1 = some err) ∧
    (TenantRepository.Delete db id).2.store = db.store ∧
    (db.faults = [] → (TenantRepository.Delete db id).1 = some ("tenant not found: " ++ id)) := by
  have hstmt := deleteTenant_absent db.cascade id db.store h
  unfold TenantRepository.Delete
  refine ⟨?_, ?_, ?_⟩
  · split
    · exact ⟨_, rfl⟩
    · rename_i rows db1 heq
      have e := (DB.ExecContext_ok heq).2.1
      rw [hstmt] at e
      simp only [e, if_true]
      exact ⟨_, rfl⟩
  · split
    · rename_i heq
      exact DB.ExecContext_error heq
    · rename_i rows db1 heq
      have e := DB.ExecContext_ok heq
      rw [hstmt] at e
      simp only [e.2.1, if_true]
      exact e.1
  · intro hf
    rw [DB.ExecContext_of_no_faults hf, hstmt]
    rfl

/-- Method `NotebookRepository.Delete` for a notebook without a row: an error,
the not-found error when the statement goes through, and the store unchanged. -/
theorem NotebookRepository.notebook_Delete_absent (db : DB) (id : String)
    (h : ∀ row ∈ db.store.notebook, row.id ≠ id) :
    (∃ err, (NotebookRepository.Delete db id).1 = some err) ∧
    (NotebookRepository.Delete db id).2.store = db.store ∧
    (db.faults = [] →
      (NotebookRepository.Delete db id).1 = some ("notebook not found: " ++ id)) := by
  have hstmt := deleteNotebook_absent db.cascade id db.store h
  unfold NotebookRepository.Delete
  refine ⟨?_, ?_, ?_⟩
  · split
    · exact ⟨_, rfl⟩
    · rename_i rows db1 heq
      have e := (DB.ExecContext_ok heq).2.1
      rw [hstmt] at e
      simp only [e, if_true]
      exact ⟨_, rfl⟩
  · split
    · rename_i heq
      exact DB.ExecContext_error heq
    · rename_i rows db1 heq
      have e := DB.ExecContext_ok heq
      rw [hstmt] at e
      simp only [e.2.1, if_true]
      exact e.1
  · intro hf
    rw [DB.ExecContext_of_no_faults hf, hstmt]
    rfl

/-- Method `NotebookRepository.Update` for a notebook without a row: an error,
the not-found error when the calls go through, and the store unchanged. -/
theorem NotebookRepository.notebook_Update_absent (db : DB) (n : Notebook)
    (h : ∀ row ∈ db.store.notebook, row.id ≠ n.ID) :
    (∃ err, (NotebookRepository.Update db n).1 = some err) ∧
    (NotebookRepository.Update db n).2.store = db.store ∧
    (db.faults = [] →
      (NotebookRepository.Update db n).1 = some ("notebook not found: " ++ n.ID)) := by
  have hstmt := updateNotebook_absent n.ID n.Status n.Owner n.DisplayName n.Description
    db.store h
  have herr : ∃ err, (NotebookRepository.Update db n).1 = some err := by
    rcases hr : NotebookRepository.Update db n with ⟨_ | err, db'⟩
    · have hcount := (NotebookRepository.notebook_Update_ok hr).2
      have hf : db.store.notebook.filter (fun row => row.id = n.ID) = [] := by
        rw [List.filter_eq_nil_iff]
        intro row hrow
        simpa using h row hrow
      rw [hf] at hcount
      exact absurd rfl hcount
    · exact ⟨err, rfl⟩
  refine ⟨herr, ?_, ?_⟩
  · obtain ⟨err, he⟩ := herr
    exact NotebookRepository.Update_error db n err he
  · intro hf
    unfold NotebookRepository.Update
    rw [DB.BeginTx_of_no_faults hf]
    simp only [Tx.ExecContext, DB.ExecContext_of_no_faults hf, hstmt]
    rfl

/-- C11: mutating an absent entity fails and changes nothing. When no tenant row
has the id of `t` and no notebook row has the id of `n`, then `Update` and
`Delete` of both repositories return an error and leave the whole store equal
to the store before the call, whatever the driver does; when the calls to the
driver go through, the error is the not-found error (zero rows affected). -/
theorem mutate_absent_changes_nothing (db : DB) (t : Tenant) (n : Notebook)
    (hT : ∀ row ∈ db.store.tenant, row.id ≠ t.ID)
    (hN : ∀ row ∈ db.store.notebook, row.id ≠ n.ID) :
    ((∃ err, (TenantRepository.Update db t).1 = some err) ∧
      (TenantRepository.Update db t).2.store = db.store ∧
      (db.faults = [] →
        (TenantRepository.Update db t).1 = some ("tenant not found: " ++ t.ID))) ∧
    ((∃ err, (TenantRepository.Delete db t.ID).1 = some err) ∧
      (TenantRepository.Delete db t.ID).2.store = db.store ∧
      (db.faults = [] →
        (TenantRepository.Delete db t.ID).1 = some ("tenant not found: " ++ t.ID))) ∧
    ((∃ err, (NotebookRepository.Update db n).1 = some err) ∧
      (NotebookRepository.Update db n).2.store = db.store ∧
      (db.faults = [] →
        (NotebookRepository.Update db n).1 = some ("notebook not found: " ++ n.ID))) ∧
    ((∃ err, (NotebookRepository.Delete db n.ID).1 = some err) ∧
      (NotebookRepository.Delete db n.ID).2.store = db.store ∧
      (db.faults = [] →
        (NotebookRepository.Delete db n.ID).1 = some ("notebook not found: " ++ n.ID))) :=
  ⟨TenantRepository.tenant_Update_absent db t hT,
    TenantRepository.tenant_Delete_absent db t.ID hT,
    NotebookRepository.notebook_Update_absent db n hN,
    NotebookRepository.notebook_Delete_absent db n.ID hN⟩

/-- Witness for C11: the store that holds notebook `n1` and its rows has no
tenant `t1` and no notebook `n2`; updating `n2` returns the not-found error and
leaves the store as it was. -/
theorem mutate_absent_changes_nothing_witness :
    (NotebookRepository.Update (sampleNotebookDB true)
        { sampleNotebook [] with ID := "n2" }).1 = some ("notebook not found: " ++ "n2") ∧
    (NotebookRepository.Update (sampleNotebookDB true)
        { sampleNotebook [] with ID := "n2" }).2.store = (sampleNotebookDB true).store :=
  ⟨(mutate_absent_changes_nothing (sampleNotebookDB true) (sampleTenant "a" "1")
      { sampleNotebook [] with ID := "n2" } (by decide) (by decide)).2.2.1.2.2 (by decide),
    (mutate_absent_changes_nothing (sampleNotebookDB true) (sampleTenant "a" "1")
      { sampleNotebook [] with ID := "n2" } (by decide) (by decide)).2.2.1.2.1⟩

/-! ### Tool handlers -/

/-- C12 fails on the code: `handleCreateNotebook` passes the arguments to
`NotebookRepository.Create` without looking at them, and `Create` does not
validate either. A request for notebook `n1` of tenant `t1` with an empty
`display_name` returns the success result and stores the notebook with all its
rows; so does a request whose four required fields are all empty. -/
theorem create_notebook_not_validated :
    (Server.handleCreateNotebook sampleTenantDB (.ok ⟨"t1", "l1", "n1", "", "", ""⟩)).1 =
      .text [("message", "Notebook created successfully"), ("notebookId", "n1"),
             ("notebookUri", "synthesis://tenant/t1/notebook/n1")] ∧
    (Server.handleCreateNotebook sampleTenantDB
        (.ok ⟨"t1", "l1", "n1", "", "", ""⟩)).2.store.notebook =
      [⟨"n1", "t1", "l1", "draft", "system", "", "", 0⟩] ∧
    (Server.handleCreateNotebook sampleTenantDB
        (.ok ⟨"t1", "l1", "n1", "", "", ""⟩)).2.store.resource_index =
      [⟨"synthesis://tenant/t1", "tenant", "t1", "t1"⟩,
       ⟨"synthesis://tenant/t1/notebook/n1", "notebook", "n1", "t1"⟩] ∧
    (Server.handleCreateNotebook sampleTenantDB (.ok ⟨"", "", "", "", "", ""⟩)).1 =
      .text [("message", "Notebook created successfully"), ("notebookId", ""),
             ("notebookUri", "synthesis://tenant//notebook/")] ∧
    (Server.handleCreateNotebook sampleTenantDB
        (.ok ⟨"", "", "", "", "", ""⟩)).2.store.notebook =
      [⟨"", "", "", "draft", "system", "", "", 0⟩] := by
  decide

/-- The error text of a failed `Create` is not the text of the validation error. -/
theorem create_error_ne_validation (err : String) :
    "failed to create tenant: " ++ err ≠ "tenantId, owner, and display_name are required" := by
  intro h
  have hd := congrArg String.data h
  simp at hd

/-- C13: `handleCreateTenant` returns the error result `tenantId, owner, and
display_name are required` exactly when `tenantId`, `owner` or `display_name`
of the parsed arguments is empty, and then the connection is untouched (no
call to the driver, store unchanged); when all three are non-empty it calls
`TenantRepository.Create` with exactly the parsed values, version `1` and the
current time, and reports its outcome. -/
theorem create_tenant_validates (db : DB) (clock : Nat) (args : CreateTenantArgs) :
    ((Server.handleCreateTenant db clock (.ok args)).1 =
        .error "tenantId, owner, and display_name are required" ↔
      (args.TenantID = "" ∨ args.Owner = "" ∨ args.DisplayName = "")) ∧
    ((args.TenantID = "" ∨ args.Owner = "" ∨ args.DisplayName = "") →
      (Server.handleCreateTenant db clock (.ok args)).2 = db) ∧
    (¬ (args.TenantID = "" ∨ args.Owner = "" ∨ args.DisplayName = "") →
      (Server.handleCreateTenant db clock (.ok args)).2 =
          (TenantRepository.Create db
            ⟨args.TenantID, args.Owner, args.DisplayName, args.Description, args.Labels, "1",
              clock⟩).2 ∧
        (Server.handleCreateTenant db clock (.ok args)).1 =
          match (TenantRepository.Create db
            ⟨args.TenantID, args.Owner, args.DisplayName, args.Description, args.Labels, "1",
              clock⟩).1 with
          | some err => .error ("failed to create tenant: " ++ err)
          | none =>
            .text [("message", "Tenant created successfully"), ("tenantId", args.TenantID),
                   ("tenantUri", "synthesis://tenant/" ++ args.TenantID)]) := by
  have hcall : ¬ (args.TenantID = "" ∨ args.Owner = "" ∨ args.DisplayName = "") →
      (Server.handleCreateTenant db clock (.ok args)).2 =
          (TenantRepository.Create db
            ⟨args.TenantID, args.Owner, args.DisplayName, args.Description, args.Labels, "1",
              clock⟩).2 ∧
        (Server.handleCreateTenant db clock (.ok args)).1 =
          match (TenantRepository.Create db
            ⟨args.TenantID, args.Owner, args.DisplayName, args.Description, args.Labels, "1",
              clock⟩).1 with
          | some err => .error ("failed to create tenant: " ++ err)
          | none =>
            .text [("message", "Tenant created successfully"), ("tenantId", args.TenantID),
                   ("tenantUri", "synthesis://tenant/" ++ args.TenantID)] := by
    intro hne
    unfold Server.handleCreateTenant
    simp only [hne, if_false]
    rcases hc : TenantRepository.Create db
      ⟨args.TenantID, args.Owner, args.DisplayName, args.Description, args.Labels, "1",
        clock⟩ with ⟨_ | err, db'⟩
    · exact ⟨rfl, rfl⟩
    · exact ⟨rfl, rfl⟩
  refine ⟨⟨fun h => ?_, fun h => ?_⟩, fun h => ?_, hcall⟩
  · by_contra hne
    rw [(hcall hne).2] at h
    rcases hc : (TenantRepository.Create db
      ⟨args.TenantID, args.Owner, args.DisplayName, args.Description, args.Labels, "1",
        clock⟩).1 with _ | err
    · rw [hc] at h
      cases h
    · rw [hc] at h
      simp only [CallToolResult.error.injEq] at h
      exact create_error_ne_validation err h
  · unfold Server.handleCreateTenant
    simp only [h, if_true]
  · unfold Server.handleCreateTenant
    simp only [h, if_true]

/-- Witness for C13: a request without owner on the empty store. -/
theorem create_tenant_validates_witness :
    (Server.handleCreateTenant sampleDB 9 (.ok ⟨"t1", "", "Acme", "", []⟩)).2 = sampleDB :=
  (create_tenant_validates sampleDB 9 ⟨"t1", "", "Acme", "", []⟩).2.1 (by decide)

/-- A successful `Create` of a tenant has applied the insert and the upsert. -/
theorem TenantRepository.tenant_Create_ok {db db' : DB} {tenant : Tenant}
    (h : TenantRepository.Create db tenant = (none, db')) :
    db'.store =
      (upsertResourceIndex tenant.URI "tenant" tenant.ID tenant.ID
        (insertTenant db.now tenant.ID tenant.Owner tenant.DisplayName tenant.Description
          (.marshalled tenant.Labels) tenant.Version tenant.LastModified db.store).1).1 := by
  unfold TenantRepository.Create at h
  simp only [jsonMarshal] at h
  split at h
  · cases (Prod.mk.inj h).1
  · rename_i rows db1 h1
    have e1 := DB.ExecContext_ok h1
    split at h
    · cases (Prod.mk.inj h).1
    · rename_i h2
      have e2 := TenantRepository.updateResourceIndex_ok h2
      rw [← (Prod.mk.inj h).2, e2, e1.1]

/-- C14: when `handleCreateTenant` succeeds for a request with tenant id `t`
against a store with no tenant `t` (its `tenantId`, `owner` and `display_name`
are then non-empty), `TenantRepository.Get(t)`, its query going through,
returns the tenant with the owner, display name, description and labels of the
request, version `1` and the time of the call. -/
theorem create_tenant_then_get (db db' : DB) (clock : Nat) (args : CreateTenantArgs)
    (fields : StringMap)
    (habs : ∀ row ∈ db.store.tenant, row.id ≠ args.TenantID)
    (h : Server.handleCreateTenant db clock (.ok args) = (.text fields, db')) :
    (args.TenantID ≠ "" ∧ args.Owner ≠ "" ∧ args.DisplayName ≠ "") ∧
    TenantRepository.Get { db' with faults := [] } args.TenantID =
      .ok ⟨args.TenantID, args.Owner, args.DisplayName, args.Description, args.Labels, "1",
        clock⟩ := by
  unfold Server.handleCreateTenant at h
  simp only [] at h
  split at h
  · cases (Prod.mk.inj h).1
  · rename_i hne
    split at h
    · cases (Prod.mk.inj h).1
    · rename_i db1 hc
      have hdb : db1 = db' := (Prod.mk.inj h).2
      subst hdb
      have hs := TenantRepository.tenant_Create_ok hc
      have htab : db1.store.tenant = db.store.tenant ++
          [⟨args.TenantID, args.Owner, args.DisplayName, args.Description,
            .marshalled args.Labels, "1", clock, db.now⟩] := by
        rw [hs, (upsertResourceIndex_frame _ _ _ _ _).1]
        rfl
      have h0 : db.store.tenant.find? (fun row => row.id = args.TenantID) = none := by
        rw [List.find?_eq_none]
        intro row hrow
        simpa using habs row hrow
      have hsel : selectTenant args.TenantID db1.store =
          some ⟨args.TenantID, args.Owner, args.DisplayName, args.Description,
            .marshalled args.Labels, "1", clock, db.now⟩ := by
        unfold selectTenant
        rw [htab, List.find?_append, h0]
        simp
      refine ⟨?_, ?_⟩
      · simp only [not_or] at hne
        exact hne
      · rw [TenantRepository.tenant_Get_of_no_faults rfl]
        show (match selectTenant args.TenantID db1.store with
          | none => _
          | some row => _) = _
        rw [hsel]
        rfl

/-- Witness for C14: tenant `t1` of owner `a@example.com`, display name `Acme`. -/
theorem create_tenant_then_get_witness :
    TenantRepository.Get { sampleTenantDB with faults := [] } "t1" =
      .ok ⟨"t1", "a@example.com", "Acme", "", [], "1", 9⟩ :=
  (create_tenant_then_get sampleDB sampleTenantDB 9 ⟨"t1", "a@example.com", "Acme", "", []⟩
    [("message", "Tenant created successfully"), ("tenantId", "t1"),
     ("tenantUri", "synthesis://tenant/t1")]
    (by decide) (Prod.ext (by decide) rfl)).2

/-! ### Insert-or-update -/

/-- After an upsert, the rows with the key are exactly the new row, when the
key held at most one row before. -/
theorem upsertRows_filter_key {α : Type} (p : α → Bool) (new : α) (l : List α)
    (hnew : p new = true) (hone : (l.filter p).length ≤ 1) :
    (upsertRows p new l).filter p = [new] := by
  unfold upsertRows
  split
  · rename_i hany
    have hmap : ∀ l : List α, (l.map (fun a => if p a then new else a)).filter p =
        (l.filter p).map (fun _ => new) := by
      intro l
      induction l with
      | nil => rfl
      | cons a l ih =>
        by_cases ha : p a = true
        · simp [List.filter_cons, ha, hnew, ih]
        · simp [List.filter_cons, ha, ih]
    rw [hmap]
    obtain ⟨a, ha, hpa⟩ := List.any_eq_true.1 hany
    have hmem : a ∈ l.filter p := List.mem_filter.2 ⟨ha, hpa⟩
    match hl : l.filter p, hone, hmem with
    | [b], _, _ => rfl
    | b :: c :: r, h1, _ => simp [hl] at h1
  · rename_i hany
    have hnil : l.filter p = [] := by
      rw [List.filter_eq_nil_iff]
      intro a ha hpa
      exact hany (List.any_eq_true.2 ⟨a, ha, hpa⟩)
    rw [List.filter_append, hnil]
    simp [List.filter_cons, hnew]

/-- An upsert leaves the rows with another key as they were. -/
theorem upsertRows_filter_other {α : Type} (p : α → Bool) (new : α) (l : List α)
    (hnew : p new = true) :
    (upsertRows p new l).filter (fun a => !p a) = l.filter (fun a => !p a) := by
  have hmap : ∀ l : List α, (l.map (fun a => if p a then new else a)).filter (fun a => !p a) =
      l.filter (fun a => !p a) := by
    intro l
    induction l with
    | nil => rfl
    | cons a l ih =>
      by_cases ha : p a = true
      · simp [List.filter_cons, ha, hnew, ih]
      · simp [List.filter_cons, ha, ih]
  unfold upsertRows
  split
  · exact hmap l
  · rw [List.filter_append]
    simp [List.filter_cons, hnew]

/-- Applying an upsert twice gives the table of applying it once. -/
theorem upsertRows_idem {α : Type} (p : α → Bool) (new : α) (l : List α)
    (hnew : p new = true) :
    upsertRows p new (upsertRows p new l) = upsertRows p new l := by
  have hany : (upsertRows p new l).any p = true := by
    unfold upsertRows
    split
    · rename_i h
      obtain ⟨a, ha, hpa⟩ := List.any_eq_true.1 h
      refine List.any_eq_true.2 ⟨new, ?_, hnew⟩
      exact List.mem_map.2 ⟨a, ha, by simp [hpa]⟩
    · exact List.any_eq_true.2 ⟨new, by simp, hnew⟩
  have hfix : ∀ a ∈ upsertRows p new l, (if p a = true then new else a) = a := by
    intro a ha
    by_cases hpa : p a = true
    · simp only [hpa, if_true]
      unfold upsertRows at ha
      split at ha
      · obtain ⟨b, _, hb⟩ := List.mem_map.1 ha
        by_cases hpb : p b = true
        · simp only [hpb, if_true] at hb
          exact hb
        · simp only [hpb] at hb
          rw [← hb] at hpa
          exact absurd hpa hpb
      · rename_i hnone
        rcases List.mem_append.1 ha with hl | hl
        · exact absurd (List.any_eq_true.2 ⟨a, hl, hpa⟩) hnone
        · exact (List.mem_singleton.1 hl).symm
    · simp only [hpa]
      rfl
  have e : upsertRows p new (upsertRows p new l) =
      (upsertRows p new l).map (fun a => if p a then new else a) := by
    show (if (upsertRows p new l).any p = true then _ else _) = _
    rw [if_pos hany]
  rw [e]
  exact (List.map_congr_left hfix).trans (List.map_id _)

/-- A table keyed by `key` holds at most one row per key. -/
theorem filter_key_length_le_one {α K : Type} [DecidableEq K] (key : α → K) (k : K) :
    ∀ (l : List α), (l.map key).Nodup → (l.filter (fun a => key a = k)).length ≤ 1
  | [], _ => by simp
  | a :: l, h => by
      rw [List.map_cons, List.nodup_cons] at h
      have hn := h
      have ih := filter_key_length_le_one key k l hn.2
      by_cases ha : key a = k
      · have hnil : l.filter (fun b => key b = k) = [] := by
          rw [List.filter_eq_nil_iff]
          intro b hb hkb
          have hkb : key b = k := by simpa using hkb
          exact hn.1 (by rw [ha, ← hkb]; exact List.mem_map_of_mem key hb)
        simp [List.filter_cons, ha, hnil]
      · simp only [List.filter_cons, ha, decide_False]
        exact ih

/-- An upsert keeps a keyed table keyed. -/
theorem upsertRows_nodup {α K : Type} [DecidableEq K] (key : α → K) (k : K) (new : α)
    (l : List α) (hnew : key new = k) (h : (l.map key).Nodup) :
    ((upsertRows (fun a => key a = k) new l).map key).Nodup := by
  unfold upsertRows
  split
  · have hkeys : (l.map (fun a => if decide (key a = k) = true then new else a)).map key =
        l.map key := by
      rw [List.map_map]
      apply List.map_congr_left
      intro a _
      by_cases ha : key a = k
      · simp [ha, hnew]
      · simp [ha]
    rw [hkeys]
    exact h
  · rename_i hany
    rw [List.map_append, List.map_singleton, hnew]
    refine List.Nodup.append h (List.nodup_singleton k) ?_
    intro x hx hk
    rw [List.mem_singleton.1 hk] at hx
    obtain ⟨a, ha, hka⟩ := List.mem_map.1 hx
    exact hany (List.any_eq_true.2 ⟨a, ha, by simpa using hka⟩)

/-- The resource-index upsert is the upsert of one row keyed by its URI. -/
theorem upsertResourceIndex_index (uri entity_type entity_id tenant_id : String) (s : Store) :
    (upsertResourceIndex uri entity_type entity_id tenant_id s).1.resource_index =
      upsertRows (fun row => row.uri = uri) ⟨uri, entity_type, entity_id, tenant_id⟩
        s.resource_index := by
  unfold upsertResourceIndex upsertRows
  simp only []
  split
  · show List.map _ s.resource_index = _
    apply List.map_congr_left
    intro row _
    by_cases hr : row.uri = uri
    · simp only [hr, if_true, decide_True]
    · simp [hr]
  · rfl

/-- The resource-index upsert changes the resource index only. -/
theorem upsertResourceIndex_store (uri entity_type entity_id tenant_id : String) (s : Store) :
    (upsertResourceIndex uri entity_type entity_id tenant_id s).1 =
      { s with
        resource_index :=
          (upsertResourceIndex uri entity_type entity_id tenant_id s).1.resource_index } := by
  unfold upsertResourceIndex
  split <;> rfl

/-- Applying the resource-index upsert twice gives the store of applying it once. -/
theorem upsertResourceIndex_idem (uri entity_type entity_id tenant_id : String) (s : Store) :
    (upsertResourceIndex uri entity_type entity_id tenant_id
        (upsertResourceIndex uri entity_type entity_id tenant_id s).1).1 =
      (upsertResourceIndex uri entity_type entity_id tenant_id s).1 := by
  have h1 := upsertResourceIndex_store uri entity_type entity_id tenant_id
    (upsertResourceIndex uri entity_type entity_id tenant_id s).1
  have h2 : (upsertResourceIndex uri entity_type entity_id tenant_id
        (upsertResourceIndex uri entity_type entity_id tenant_id s).1).1.resource_index =
      (upsertResourceIndex uri entity_type entity_id tenant_id s).1.resource_index := by
    rw [upsertResourceIndex_index, upsertResourceIndex_index,
      upsertRows_idem _ _ _ (by simp)]
  rw [h1, h2]

/-- What the resource-index upsert does to a table keyed by URI. -/
theorem upsertResourceIndex_spec (uri entity_type entity_id tenant_id : String) (s : Store)
    (hk : s.indexKeyed) :
    (upsertResourceIndex uri entity_type entity_id tenant_id s).1.resource_index.filter
        (fun row => row.uri = uri) = [⟨uri, entity_type, entity_id, tenant_id⟩] ∧
    (upsertResourceIndex uri entity_type entity_id tenant_id s).1.resource_index.filter
        (fun row => !(row.uri = uri)) = s.resource_index.filter (fun row => !(row.uri = uri)) ∧
    (upsertResourceIndex uri entity_type entity_id tenant_id s).1.indexKeyed := by
  rw [upsertResourceIndex_index]
  refine ⟨?_, ?_, ?_⟩
  · exact upsertRows_filter_key _ _ _ (by simp)
      (filter_key_length_le_one (fun row : ResourceIndexRow => row.uri) uri _ hk)
  · exact upsertRows_filter_other (fun row : ResourceIndexRow => decide (row.uri = uri)) _ _
      (by simp)
  · unfold Store.indexKeyed
    rw [upsertResourceIndex_index]
    exact upsertRows_nodup (fun row : ResourceIndexRow => row.uri) uri _ _ rfl hk

/-- C15: the resource-index upsert of `Create` is an insert-or-update that never
conflicts. On a table with at most one row per URI (the key of `ON CONFLICT
(uri)`), when the call to the driver goes through, `updateResourceIndex` of
`TenantRepository` (on the connection) and of `NotebookRepository` (in its
transaction) succeeds whether or not a row with the URI exists, leaves exactly
one row for the URI, holding (URI, `tenant`, id, id) resp. (URI, `notebook`,
id, tenant id), leaves the rows with another URI unchanged, and applied a
second time leaves the store as it is. -/
theorem resource_index_upsert (db : DB) (tx : Tx) (t : Tenant) (n : Notebook)
    (hf : db.faults = []) (hk : db.store.indexKeyed)
    (hftx : tx.conn.faults = []) (hktx : tx.conn.store.indexKeyed) :
    ((TenantRepository.updateResourceIndex db t).1 = none ∧
      (TenantRepository.updateResourceIndex db t).2.store.resource_index.filter
          (fun row => row.uri = t.URI) = [⟨t.URI, "tenant", t.ID, t.ID⟩] ∧
      (TenantRepository.updateResourceIndex db t).2.store.resource_index.filter
          (fun row => !(row.uri = t.URI)) =
        db.store.resource_index.filter (fun row => !(row.uri = t.URI)) ∧
      (TenantRepository.updateResourceIndex
          (TenantRepository.updateResourceIndex db t).2 t).1 = none ∧
      (TenantRepository.updateResourceIndex
          (TenantRepository.updateResourceIndex db t).2 t).2.store =
        (TenantRepository.updateResourceIndex db t).2.store) ∧
    ((NotebookRepository.updateResourceIndex tx n).1 = none ∧
      (NotebookRepository.updateResourceIndex tx n).2.conn.store.resource_index.filter
          (fun row => row.uri = n.URI) = [⟨n.URI, "notebook", n.ID, n.TenantID⟩] ∧
      (NotebookRepository.updateResourceIndex tx n).2.conn.store.resource_index.filter
          (fun row => !(row.uri = n.URI)) =
        tx.conn.store.resource_index.filter (fun row => !(row.uri = n.URI)) ∧
      (NotebookRepository.updateResourceIndex
          (NotebookRepository.updateResourceIndex tx n).2 n).1 = none ∧
      (NotebookRepository.updateResourceIndex
          (NotebookRepository.updateResourceIndex tx n).2 n).2.conn.store =
        (NotebookRepository.updateResourceIndex tx n).2.conn.store) := by
  have hT : ∀ db : DB, db.faults = [] → TenantRepository.updateResourceIndex db t =
      (none, { db with store := (upsertResourceIndex t.URI "tenant" t.ID t.ID db.store).1 }) := by
    intro db hf
    unfold TenantRepository.updateResourceIndex
    rw [DB.ExecContext_of_no_faults hf]
  have hN : ∀ tx : Tx, tx.conn.faults = [] → NotebookRepository.updateResourceIndex tx n =
      (none, { tx with conn := { tx.conn with
        store := (upsertResourceIndex n.URI "notebook" n.ID n.TenantID tx.conn.store).1 } }) := by
    intro tx hf
    unfold NotebookRepository.updateResourceIndex Tx.ExecContext
    rw [DB.ExecContext_of_no_faults hf]
  have sT := upsertResourceIndex_spec t.URI "tenant" t.ID t.ID db.store hk
  have sN := upsertResourceIndex_spec n.URI "notebook" n.ID n.TenantID tx.conn.store hktx
  have hT2 := hT { db with store := (upsertResourceIndex t.URI "tenant" t.ID t.ID db.store).1 } hf
  have hN2 := hN { tx with conn := { tx.conn with
    store := (upsertResourceIndex n.URI "notebook" n.ID n.TenantID tx.conn.store).1 } } hftx
  constructor
  · rw [hT db hf]
    refine ⟨rfl, sT.1, sT.2.1, ?_, ?_⟩
    · rw [hT2]
    · rw [hT2]
      exact upsertResourceIndex_idem _ _ _ _ _
  · rw [hN tx hftx]
    refine ⟨rfl, sN.1, sN.2.1, ?_, ?_⟩
    · rw [hN2]
    · rw [hN2]
      exact upsertResourceIndex_idem _ _ _ _ _

/-- Witness for C15: the index that already holds the row of tenant `t1`, and
the transaction of a notebook on the same store. -/
theorem resource_index_upsert_witness :
    (TenantRepository.updateResourceIndex sampleTenantDB (sampleTenant "b" "2")).1 = none ∧
    (TenantRepository.updateResourceIndex sampleTenantDB
        (sampleTenant "b" "2")).2.store.resource_index.filter
        (fun row => row.uri = (sampleTenant "b" "2").URI) =
      [⟨(sampleTenant "b" "2").URI, "tenant", "t1", "t1"⟩] :=
  ⟨(resource_index_upsert sampleTenantDB ⟨sampleTenantDB.store, sampleTenantDB⟩
      (sampleTenant "b" "2") (sampleNotebook []) (by decide)
      (by unfold Store.indexKeyed; decide) (by decide)
      (by unfold Store.indexKeyed; decide)).1.1,
    (resource_index_upsert sampleTenantDB ⟨sampleTenantDB.store, sampleTenantDB⟩
      (sampleTenant "b" "2") (sampleNotebook []) (by decide)
      (by unfold Store.indexKeyed; decide) (by decide)
      (by unfold Store.indexKeyed; decide)).1.2.1⟩

/-! ### Listing -/

/-- Sorting by `created_at` descending permutes the rows and orders them. -/
theorem sort_created_at_desc {α : Type} (created_at : α → Nat) (l : List α) :
    (l.insertionSort (fun a b => created_at b ≤ created_at a)).Perm l ∧
    (l.insertionSort (fun a b => created_at b ≤ created_at a)).Pairwise
      (fun a b => created_at b ≤ created_at a) := by
  haveI : IsTotal α (fun a b => created_at b ≤ created_at a) :=
    ⟨fun a b => Nat.le_total (created_at b) (created_at a)⟩
  haveI : IsTrans α (fun a b => created_at b ≤ created_at a) :=
    ⟨fun _ _ _ h1 h2 => Nat.le_trans h2 h1⟩
  exact ⟨List.perm_insertionSort _ l, List.sorted_insertionSort _ l⟩

/-- The loop of `List` over rows with decodable labels returns their tenants. -/
theorem tenant_List_rows_ok :
    ∀ (rows : List TenantRow) (tenants : List Tenant),
      (∀ row ∈ rows, ∃ m, row.labels_json = .marshalled m) →
      TenantRepository.List_rows tenants rows = .ok (tenants ++ rows.map TenantRow.toTenant)
  | [], tenants, _ => by simp [TenantRepository.List_rows]
  | row :: rest, tenants, h => by
      obtain ⟨m, hm⟩ := h row (List.mem_cons_self row rest)
      unfold TenantRepository.List_rows
      simp only [hm, jsonUnmarshal]
      rw [tenant_List_rows_ok rest _
        (fun r hr => h r (List.mem_cons_of_mem row hr))]
      simp [TenantRow.toTenant, hm]

/-- C16: on a store the repositories can produce and a connection whose query
goes through, `TenantRepository.List` returns the tenants of a permutation of
table `tenant` (every tenant exactly once) and `ListByLibrary(l)` the notebooks
of a permutation of the rows with library id `l`; in both, a row never comes
after a row with a smaller `created_at`. -/
theorem list_in_creation_order (db : DB) (libraryID : String) (hr : Reachable db.store)
    (hf : db.faults = []) :
    (∃ rows : List TenantRow, rows.Perm db.store.tenant ∧
      rows.Pairwise (fun a b => b.created_at ≤ a.created_at) ∧
      TenantRepository.List db = .ok (rows.map TenantRow.toTenant)) ∧
    (∃ rows : List NotebookRow,
      rows.Perm (db.store.notebook.filter (fun row => row.library_id = libraryID)) ∧
      rows.Pairwise (fun a b => b.created_at ≤ a.created_at) ∧
      NotebookRepository.ListByLibrary db libraryID = .ok (rows.map NotebookRow.toNotebook)) := by
  constructor
  · have hs := sort_created_at_desc (fun row : TenantRow => row.created_at) db.store.tenant
    refine ⟨selectTenants db.store, hs.1, hs.2, ?_⟩
    unfold TenantRepository.List
    rw [DB.QueryContext_of_no_faults hf]
    simp only []
    rw [tenant_List_rows_ok (selectTenants db.store) []
      (fun row hrow => hr.labelsValid row (hs.1.subset hrow))]
    rfl
  · have hs := sort_created_at_desc (fun row : NotebookRow => row.created_at)
      (db.store.notebook.filter (fun row => row.library_id = libraryID))
    refine ⟨selectNotebooksByLibrary libraryID db.store, hs.1, hs.2, ?_⟩
    unfold NotebookRepository.ListByLibrary
    rw [DB.QueryContext_of_no_faults hf]

/-- Witness for C16: tenants `t1` (created at 0) and `t2` (created at 3) are
listed as `t2`, `t1`. -/
theorem list_in_creation_order_witness :
    ∃ rows : List TenantRow, rows.Perm sampleTwoTenantsDB.store.tenant ∧
      rows.Pairwise (fun a b => b.created_at ≤ a.created_at) ∧
      TenantRepository.List sampleTwoTenantsDB = .ok (rows.map TenantRow.toTenant) :=
  (list_in_creation_order sampleTwoTenantsDB "l1"
    (Reachable.tenantCreate { sampleTenantDB with now := 3 }
      { sampleTenant "b" "1" with ID := "t2" }
      (Reachable.tenantCreate sampleDB ⟨"t1", "a@example.com", "Acme", "", [], "1", 9⟩
        Reachable.empty))
    (by decide)).1

/-! ### Embeddings -/

/-- After an upsert, every row with the key is the new row. -/
theorem upsertRows_mem_key {α : Type} (p : α → Bool) (new : α) (l : List α) (a : α)
    (ha : a ∈ upsertRows p new l) (hpa : p a = true)
    (hone : (l.filter p).length ≤ 1) (hnew : p new = true) : a = new := by
  have hf := upsertRows_filter_key p new l hnew hone
  have hmem : a ∈ (upsertRows p new l).filter p := List.mem_filter.2 ⟨ha, hpa⟩
  rw [hf] at hmem
  exact List.mem_singleton.1 hmem

/-- The notebook-embedding upsert is the upsert of one row keyed by notebook id. -/
theorem upsertNotebookEmbedding_table (now : Nat) (id : String) (v : Vector) (m : String)
    (s : Store) :
    (upsertNotebookEmbedding now id v m s).1.notebook_embedding =
      upsertRows (fun row => row.notebook_id = id) ⟨id, v, m, now⟩ s.notebook_embedding := by
  unfold upsertNotebookEmbedding upsertRows
  simp only []
  split
  · show List.map _ s.notebook_embedding = _
    apply List.map_congr_left
    intro row _
    by_cases hr : row.notebook_id = id
    · simp only [hr, if_true, decide_True]
    · simp [hr]
  · rfl

/-- The feature-embedding upsert is the upsert of one row keyed by feature id. -/
theorem upsertFeatureEmbedding_table (now : Nat) (id : String) (v : Vector) (m : String)
    (s : Store) :
    (upsertFeatureEmbedding now id v m s).1.feature_embedding =
      upsertRows (fun row => row.feature_id = id) ⟨id, v, m, now⟩ s.feature_embedding := by
  unfold upsertFeatureEmbedding upsertRows
  simp only []
  split
  · show List.map _ s.feature_embedding = _
    apply List.map_congr_left
    intro row _
    by_cases hr : row.feature_id = id
    · simp only [hr, if_true, decide_True]
    · simp [hr]
  · rfl

/-- A successful `UpsertNotebookEmbedding` has applied its statement. -/
theorem VectorRepository.UpsertNotebookEmbedding_ok {db db' : DB} {e : String}
    {v : List Float32} {m : String}
    (h : VectorRepository.UpsertNotebookEmbedding db e v m = (none, db')) :
    db'.store.notebook_embedding =
      upsertRows (fun row => row.notebook_id = e) ⟨e, v, m, db.now⟩
        db.store.notebook_embedding := by
  unfold VectorRepository.UpsertNotebookEmbedding at h
  split at h
  · cases (Prod.mk.inj h).1
  · rename_i heq
    rw [← (Prod.mk.inj h).2, (DB.ExecContext_ok heq).1, upsertNotebookEmbedding_table]

/-- A successful `UpsertFeatureEmbedding` has applied its statement. -/
theorem VectorRepository.UpsertFeatureEmbedding_ok {db db' : DB} {e : String}
    {v : List Float32} {m : String}
    (h : VectorRepository.UpsertFeatureEmbedding db e v m = (none, db')) :
    db'.store.feature_embedding =
      upsertRows (fun row => row.feature_id = e) ⟨e, v, m, db.now⟩
        db.store.feature_embedding := by
  unfold VectorRepository.UpsertFeatureEmbedding at h
  split at h
  · cases (Prod.mk.inj h).1
  · rename_i heq
    rw [← (Prod.mk.inj h).2, (DB.ExecContext_ok heq).1, upsertFeatureEmbedding_table]

/-- Two upserts for the same key leave one row for the key, the second one. -/
theorem upsertRows_twice {α K : Type} [DecidableEq K] (key : α → K) (k : K) (new1 new2 : α)
    (l : List α) (h1 : key new1 = k) (h2 : key new2 = k) (hk : (l.map key).Nodup) :
    (upsertRows (fun a => key a = k) new2
        (upsertRows (fun a => key a = k) new1 l)).filter (fun a => key a = k) = [new2] ∧
    (upsertRows (fun a => key a = k) new2
        (upsertRows (fun a => key a = k) new1 l)).filter (fun a => !(key a = k)) =
      l.filter (fun a => !(key a = k)) := by
  have hk1 := upsertRows_nodup key k new1 l h1 hk
  constructor
  · exact upsertRows_filter_key _ _ _ (by simp [h2])
      (filter_key_length_le_one key k _ hk1)
  · rw [upsertRows_filter_other (fun a => decide (key a = k)) new2 _ (by simp [h2]),
      upsertRows_filter_other (fun a => decide (key a = k)) new1 _ (by simp [h1])]

/-- C17, as stated, fails: the upserts are keyed by the entity id alone (`ON
CONFLICT (notebook_id)`, `ON CONFLICT (feature_id)`). After upserting vectors
under the models `model-a` and then `model-b` for notebook `n1`, resp. feature
`f1`, in the empty store, both calls succeeding, the table holds one record for
the entity, the one of `model-b`. -/
theorem embeddings_not_keyed_by_model :
    (VectorRepository.UpsertNotebookEmbedding sampleDB "n1" [⟨1⟩, ⟨2⟩] "model-a").1 = none ∧
    (VectorRepository.UpsertNotebookEmbedding
        (VectorRepository.UpsertNotebookEmbedding sampleDB "n1" [⟨1⟩, ⟨2⟩] "model-a").2
        "n1" [⟨3⟩, ⟨4⟩] "model-b").1 = none ∧
    (VectorRepository.UpsertNotebookEmbedding
        (VectorRepository.UpsertNotebookEmbedding sampleDB "n1" [⟨1⟩, ⟨2⟩] "model-a").2
        "n1" [⟨3⟩, ⟨4⟩] "model-b").2.store.notebook_embedding =
      [⟨"n1", [⟨3⟩, ⟨4⟩], "model-b", 0⟩] ∧
    (VectorRepository.UpsertFeatureEmbedding sampleDB "f1" [⟨1⟩, ⟨2⟩] "model-a").1 = none ∧
    (VectorRepository.UpsertFeatureEmbedding
        (VectorRepository.UpsertFeatureEmbedding sampleDB "f1" [⟨1⟩, ⟨2⟩] "model-a").2
        "f1" [⟨3⟩, ⟨4⟩] "model-b").1 = none ∧
    (VectorRepository.UpsertFeatureEmbedding
        (VectorRepository.UpsertFeatureEmbedding sampleDB "f1" [⟨1⟩, ⟨2⟩] "model-a").2
        "f1" [⟨3⟩, ⟨4⟩] "model-b").2.store.feature_embedding =
      [⟨"f1", [⟨3⟩, ⟨4⟩], "model-b", 0⟩] := by
  decide

/-- C17, amended: embeddings are keyed by the entity id alone. On a table with at
most one row per entity, after `UpsertNotebookEmbedding(e, v1, m1)` and then
`UpsertNotebookEmbedding(e, v2, m2)` with `m1 ≠ m2` both succeed, the table
holds exactly one record for `e`, carrying `(v2, m2)`, and no record of `e`
with model `m1`; the same holds for `UpsertFeatureEmbedding`. -/
theorem embeddings_keyed_by_entity (db db1 db2 fdb1 fdb2 : DB) (e : String)
    (v1 v2 : List Float32) (m1 m2 : String) (now2 : Nat) (hm : m1 ≠ m2)
    (hk : db.store.notebookEmbeddingKeyed) (hkf : db.store.featureEmbeddingKeyed)
    (h1 : VectorRepository.UpsertNotebookEmbedding db e v1 m1 = (none, db1))
    (h2 : VectorRepository.UpsertNotebookEmbedding { db1 with now := now2 } e v2 m2 =
      (none, db2))
    (g1 : VectorRepository.UpsertFeatureEmbedding db e v1 m1 = (none, fdb1))
    (g2 : VectorRepository.UpsertFeatureEmbedding { fdb1 with now := now2 } e v2 m2 =
      (none, fdb2)) :
    (db2.store.notebook_embedding.filter (fun row => row.notebook_id = e) =
        [⟨e, v2, m2, now2⟩] ∧
      ∀ row ∈ db2.store.notebook_embedding, ¬ (row.notebook_id = e ∧ row.model = m1)) ∧
    (fdb2.store.feature_embedding.filter (fun row => row.feature_id = e) =
        [⟨e, v2, m2, now2⟩] ∧
      ∀ row ∈ fdb2.store.feature_embedding, ¬ (row.feature_id = e ∧ row.model = m1)) := by
  have e1 := VectorRepository.UpsertNotebookEmbedding_ok h1
  have e2 := VectorRepository.UpsertNotebookEmbedding_ok h2
  have f1 := VectorRepository.UpsertFeatureEmbedding_ok g1
  have f2 := VectorRepository.UpsertFeatureEmbedding_ok g2
  simp only [] at e2 f2
  rw [e1] at e2
  rw [f1] at f2
  have tn := (upsertRows_twice (fun row : NotebookEmbeddingRow => row.notebook_id) e
    ⟨e, v1, m1, db.now⟩ ⟨e, v2, m2, now2⟩ db.store.notebook_embedding rfl rfl hk).1
  have tf := (upsertRows_twice (fun row : FeatureEmbeddingRow => row.feature_id) e
    ⟨e, v1, m1, db.now⟩ ⟨e, v2, m2, now2⟩ db.store.feature_embedding rfl rfl hkf).1
  rw [← e2] at tn
  rw [← f2] at tf
  refine ⟨⟨tn, ?_⟩, ⟨tf, ?_⟩⟩
  · intro row hrow hc
    have hmem : row ∈ db2.store.notebook_embedding.filter (fun row => row.notebook_id = e) :=
      List.mem_filter.2 ⟨hrow, by simp [hc.1]⟩
    rw [tn] at hmem
    have hr := List.mem_singleton.1 hmem
    rw [hr] at hc
    exact hm hc.2.symm
  · intro row hrow hc
    have hmem : row ∈ fdb2.store.feature_embedding.filter (fun row => row.feature_id = e) :=
      List.mem_filter.2 ⟨hrow, by simp [hc.1]⟩
    rw [tf] at hmem
    have hr := List.mem_singleton.1 hmem
    rw [hr] at hc
    exact hm hc.2.symm

/-- Witness for C17, amended: notebook and feature `x1` in the empty store, models
`model-a` and then `model-b`. -/
theorem embeddings_keyed_by_entity_witness :
    (VectorRepository.UpsertNotebookEmbedding
        { (VectorRepository.UpsertNotebookEmbedding sampleDB "x1" [⟨1⟩] "model-a").2 with
          now := 4 } "x1" [⟨2⟩] "model-b").2.store.notebook_embedding.filter
        (fun row => row.notebook_id = "x1") = [⟨"x1", [⟨2⟩], "model-b", 4⟩] :=
  (embeddings_keyed_by_entity sampleDB
    (VectorRepository.UpsertNotebookEmbedding sampleDB "x1" [⟨1⟩] "model-a").2
    (VectorRepository.UpsertNotebookEmbedding
      { (VectorRepository.UpsertNotebookEmbedding sampleDB "x1" [⟨1⟩] "model-a").2 with
        now := 4 } "x1" [⟨2⟩] "model-b").2
    (VectorRepository.UpsertFeatureEmbedding sampleDB "x1" [⟨1⟩] "model-a").2
    (VectorRepository.UpsertFeatureEmbedding
      { (VectorRepository.UpsertFeatureEmbedding sampleDB "x1" [⟨1⟩] "model-a").2 with
        now := 4 } "x1" [⟨2⟩] "model-b").2
    "x1" [⟨1⟩] [⟨2⟩] "model-a" "model-b" 4 (by decide)
    (by unfold Store.notebookEmbeddingKeyed; decide)
    (by unfold Store.featureEmbeddingKeyed; decide)
    (Prod.ext (by decide) rfl) (Prod.ext (by decide) rfl)
    (Prod.ext (by decide) rfl) (Prod.ext (by decide) rfl)).1.1

/-- After an upsert the table holds a row with the key. -/
theorem upsertRows_any {α : Type} (p : α → Bool) (new : α) (l : List α)
    (hnew : p new = true) : (upsertRows p new l).any p = true := by
  unfold upsertRows
  split
  · rename_i h
    obtain ⟨a, ha, hpa⟩ := List.any_eq_true.1 h
    refine List.any_eq_true.2 ⟨new, ?_, hnew⟩
    exact List.mem_map.2 ⟨a, ha, by simp [hpa]⟩
  · exact List.any_eq_true.2 ⟨new, by simp, hnew⟩

/-- An upsert that agrees under `proj` with the rows it replaces leaves the
table the same under `proj`. -/
theorem upsertRows_map_of_same {α β : Type} (p : α → Bool) (new : α) (l : List α)
    (proj : α → β) (hany : l.any p = true)
    (h : ∀ a ∈ l, p a = true → proj new = proj a) :
    (upsertRows p new l).map proj = l.map proj := by
  unfold upsertRows
  rw [if_pos hany, List.map_map]
  apply List.map_congr_left
  intro a ha
  by_cases hpa : p a = true
  · simp [hpa, h a ha hpa]
  · simp [hpa]

/-- C18: re-upsert replaces. On a table with at most one row per notebook, after
`UpsertNotebookEmbedding(e, v1, m)` and then `UpsertNotebookEmbedding(e, v2, m)`
both succeed, the table holds exactly one record for `(e, m)`, with vector
`v2`; the records of every other notebook are the ones from before the two
calls; and when `v1 = v2` the table has the same ids, vectors and models after
the second call as after the first. -/
theorem reupsert_replaces (db db1 db2 : DB) (e m : String) (v1 v2 : List Float32)
    (now2 : Nat) (hk : db.store.notebookEmbeddingKeyed)
    (h1 : VectorRepository.UpsertNotebookEmbedding db e v1 m = (none, db1))
    (h2 : VectorRepository.UpsertNotebookEmbedding { db1 with now := now2 } e v2 m =
      (none, db2)) :
    db2.store.notebook_embedding.filter (fun row => row.notebook_id = e ∧ row.model = m) =
      [⟨e, v2, m, now2⟩] ∧
    db2.store.notebook_embedding.filter (fun row => !(row.notebook_id = e)) =
      db.store.notebook_embedding.filter (fun row => !(row.notebook_id = e)) ∧
    (v1 = v2 →
      db2.store.notebook_embedding.map (fun row => (row.notebook_id, row.embedding, row.model)) =
        db1.store.notebook_embedding.map
          (fun row => (row.notebook_id, row.embedding, row.model))) := by
  have e1 := VectorRepository.UpsertNotebookEmbedding_ok h1
  have e2 := VectorRepository.UpsertNotebookEmbedding_ok h2
  simp only [] at e2
  have tw := upsertRows_twice (fun row : NotebookEmbeddingRow => row.notebook_id) e
    ⟨e, v1, m, db.now⟩ ⟨e, v2, m, now2⟩ db.store.notebook_embedding rfl rfl hk
  rw [← e1, ← e2] at tw
  refine ⟨?_, tw.2, ?_⟩
  · have hsplit : db2.store.notebook_embedding.filter
        (fun row => decide (row.notebook_id = e ∧ row.model = m)) =
        (db2.store.notebook_embedding.filter (fun row => decide (row.notebook_id = e))).filter
          (fun row => decide (row.model = m)) := by
      rw [List.filter_filter]
      congr 1
      funext row
      simp [Bool.decide_and, Bool.and_comm]
    rw [hsplit, tw.1]
    simp
  · intro hv
    subst hv
    rw [e2]
    apply upsertRows_map_of_same
    · rw [e1]
      exact upsertRows_any _ _ _ (by simp)
    · intro a ha hpa
      rw [e1] at ha
      have := upsertRows_mem_key _ _ _ a ha hpa
        (filter_key_length_le_one (fun row : NotebookEmbeddingRow => row.notebook_id) e _ hk)
        (by simp)
      rw [this]

/-- Witness for C18: notebook `n1` gets a vector and then another one under the
same model, next to the embedding of notebook `n0`. -/
theorem reupsert_replaces_witness :
    (VectorRepository.UpsertNotebookEmbedding
        { (VectorRepository.UpsertNotebookEmbedding
            (VectorRepository.UpsertNotebookEmbedding sampleDB "n0" [⟨9⟩] "m").2
            "n1" [⟨1⟩] "m").2 with now := 4 }
        "n1" [⟨2⟩] "m").2.store.notebook_embedding.filter
        (fun row => row.notebook_id = "n1" ∧ row.model = "m") = [⟨"n1", [⟨2⟩], "m", 4⟩] :=
  (reupsert_replaces (VectorRepository.UpsertNotebookEmbedding sampleDB "n0" [⟨9⟩] "m").2
    (VectorRepository.UpsertNotebookEmbedding
      (VectorRepository.UpsertNotebookEmbedding sampleDB "n0" [⟨9⟩] "m").2 "n1" [⟨1⟩] "m").2
    (VectorRepository.UpsertNotebookEmbedding
      { (VectorRepository.UpsertNotebookEmbedding
          (VectorRepository.UpsertNotebookEmbedding sampleDB "n0" [⟨9⟩] "m").2
          "n1" [⟨1⟩] "m").2 with now := 4 }
      "n1" [⟨2⟩] "m").2
    "n1" "m" [⟨1⟩] [⟨2⟩] 4
    (by unfold Store.notebookEmbeddingKeyed; decide)
    (Prod.ext (by decide) rfl) (Prod.ext (by decide) rfl)).1

/-- Method `DeleteNotebookEmbedding` when the statement goes through. -/
theorem VectorRepository.DeleteNotebookEmbedding_of_no_faults {db : DB} (hf : db.faults = [])
    (e : String) :
    VectorRepository.DeleteNotebookEmbedding db e =
      (none, { db with store := (deleteNotebookEmbedding e db.store).1 }) := by
  unfold VectorRepository.DeleteNotebookEmbedding
  rw [DB.ExecContext_of_no_faults hf]

/-- Method `DeleteFeatureEmbedding` when the statement goes through. -/
theorem VectorRepository.DeleteFeatureEmbedding_of_no_faults {db : DB} (hf : db.faults = [])
    (e : String) :
    VectorRepository.DeleteFeatureEmbedding db e =
      (none, { db with store := (deleteFeatureEmbedding e db.store).1 }) := by
  unfold VectorRepository.DeleteFeatureEmbedding
  rw [DB.ExecContext_of_no_faults hf]

/-- Filtering twice by the same predicate is filtering once. -/
theorem filter_idem {α : Type} (p : α → Bool) (l : List α) :
    (l.filter p).filter p = l.filter p := by
  rw [List.filter_eq_self]
  intro a ha
  exact (List.mem_filter.1 ha).2

/-- C19: embedding deletion is idempotent. When the statement goes through,
`DeleteNotebookEmbedding(e)` and `DeleteFeatureEmbedding(e)` return no error,
also when `e` has no embedding (the store is then unchanged); the store
afterwards is the store before without the embeddings of `e`, nothing else
changed; and a second deletion returns no error and leaves the store of the
first. -/
theorem embedding_delete_idempotent (db : DB) (e : String) (hf : db.faults = []) :
    ((VectorRepository.DeleteNotebookEmbedding db e).1 = none ∧
      (VectorRepository.DeleteNotebookEmbedding db e).2.store =
        { db.store with
          notebook_embedding :=
            db.store.notebook_embedding.filter (fun row => !(row.notebook_id = e)) } ∧
      ((∀ row ∈ db.store.notebook_embedding, row.notebook_id ≠ e) →
        (VectorRepository.DeleteNotebookEmbedding db e).2.store = db.store) ∧
      (VectorRepository.DeleteNotebookEmbedding
        (VectorRepository.DeleteNotebookEmbedding db e).2 e).1 = none ∧
      (VectorRepository.DeleteNotebookEmbedding
        (VectorRepository.DeleteNotebookEmbedding db e).2 e).2.store =
        (VectorRepository.DeleteNotebookEmbedding db e).2.store) ∧
    ((VectorRepository.DeleteFeatureEmbedding db e).1 = none ∧
      (VectorRepository.DeleteFeatureEmbedding db e).2.store =
        { db.store with
          feature_embedding :=
            db.store.feature_embedding.filter (fun row => !(row.feature_id = e)) } ∧
      ((∀ row ∈ db.store.feature_embedding, row.feature_id ≠ e) →
        (VectorRepository.DeleteFeatureEmbedding db e).2.store = db.store) ∧
      (VectorRepository.DeleteFeatureEmbedding
        (VectorRepository.DeleteFeatureEmbedding db e).2 e).1 = none ∧
      (VectorRepository.DeleteFeatureEmbedding
        (VectorRepository.DeleteFeatureEmbedding db e).2 e).2.store =
        (VectorRepository.DeleteFeatureEmbedding db e).2.store) := by
  have hN := VectorRepository.DeleteNotebookEmbedding_of_no_faults hf e
  have hN2 := @VectorRepository.DeleteNotebookEmbedding_of_no_faults
    { db with store := (deleteNotebookEmbedding e db.store).1 } hf e
  have hF := VectorRepository.DeleteFeatureEmbedding_of_no_faults hf e
  have hF2 := @VectorRepository.DeleteFeatureEmbedding_of_no_faults
    { db with store := (deleteFeatureEmbedding e db.store).1 } hf e
  constructor
  · rw [hN]
    refine ⟨rfl, rfl, ?_, ?_, ?_⟩
    · intro habs
      have hkeep : db.store.notebook_embedding.filter (fun row => !(row.notebook_id = e)) =
          db.store.notebook_embedding := by
        rw [List.filter_eq_self]
        intro row hrow
        simpa using habs row hrow
      simp only [deleteNotebookEmbedding, hkeep]
    · rw [hN2]
    · rw [hN2]
      simp only [deleteNotebookEmbedding, filter_idem]
  · rw [hF]
    refine ⟨rfl, rfl, ?_, ?_, ?_⟩
    · intro habs
      have hkeep : db.store.feature_embedding.filter (fun row => !(row.feature_id = e)) =
          db.store.feature_embedding := by
        rw [List.filter_eq_self]
        intro row hrow
        simpa using habs row hrow
      simp only [deleteFeatureEmbedding, hkeep]
    · rw [hF2]
    · rw [hF2]
      simp only [deleteFeatureEmbedding, filter_idem]

/-- Witness for C19: notebook `n1` has no embedding in the empty store. -/
theorem embedding_delete_idempotent_witness :
    (VectorRepository.DeleteNotebookEmbedding sampleDB "n1").1 = none ∧
    (VectorRepository.DeleteNotebookEmbedding sampleDB "n1").2.store = sampleDB.store :=
  ⟨(embedding_delete_idempotent sampleDB "n1" (by decide)).1.1,
    (embedding_delete_idempotent sampleDB "n1" (by decide)).1.2.2.1 (by decide)⟩

/-! ### Similarity search -/

/-- Sorting by a key ascending permutes the rows and orders them. -/
theorem sort_by_key_asc {α K : Type} [LinearOrder K] (key : α → K) (l : List α) :
    (l.insertionSort (fun a b => key a ≤ key b)).Perm l ∧
    (l.insertionSort (fun a b => key a ≤ key b)).Pairwise (fun a b => key a ≤ key b) := by
  haveI : IsTotal α (fun a b => key a ≤ key b) := ⟨fun a b => le_total (key a) (key b)⟩
  haveI : IsTrans α (fun a b => key a ≤ key b) := ⟨fun _ _ _ h1 h2 => le_trans h1 h2⟩
  exact ⟨List.perm_insertionSort _ l, List.sorted_insertionSort _ l⟩

/-- A checked query on a connection without pending failures returns what the
database answers. -/
theorem DB.QueryContextChecked_of_no_faults {α : Type} {db : DB} (h : db.faults = [])
    (sel : Store → Except String (List α)) : db.QueryContextChecked sel = (sel db.store, db) := by
  unfold DB.QueryContextChecked
  rw [DB.next_of_no_faults h]

/-- The first `n` rows of a ranking, turned into results: at most `n` of them, in
non-increasing similarity when `1 - x` reverses the order. -/
theorem ranked_take_spec {α Score : Type} [LinearOrder Score] (ops : VectorOps Score)
    (query : Vector) (emb : α → Vector) (ident : α → String) (ranked : List α) (limit : Int)
    (hl : 0 ≤ limit)
    (hanti : ∀ x y : Score, x ≤ y → ops.oneMinus y ≤ ops.oneMinus x)
    (hs : ranked.Pairwise (fun a b => ops.distance (emb a) query ≤ ops.distance (emb b) query)) :
    ((((ranked.take limit.toNat).map (fun row =>
        ({ ID := ident row, Similarity := ops.oneMinus (ops.distance (emb row) query) } :
          SearchResult Score))).length : Int) ≤ limit) ∧
    ((ranked.take limit.toNat).map (fun row =>
        ({ ID := ident row, Similarity := ops.oneMinus (ops.distance (emb row) query) } :
          SearchResult Score))).Pairwise (fun a b => b.Similarity ≤ a.Similarity) := by
  constructor
  · rw [List.length_map, List.length_take]
    have h1 : (min limit.toNat ranked.length : Int) ≤ (limit.toNat : Int) := by
      exact_mod_cast Nat.min_le_left _ _
    have h2 : (limit.toNat : Int) = limit := Int.toNat_of_nonneg hl
    omega
  · rw [List.pairwise_map]
    exact (List.Pairwise.take hs).imp (fun hab => hanti _ _ hab)

/-- C20, as stated, fails: the queries order by distance only (`ORDER BY embedding
<=> $1`), with no tie-break on the id. In the store where `b` and then `a` got
the same embedding, `SearchNotebooks` and `SearchFeatures` return `b` before
`a` with equal scores, whatever the distance function is, although `a` is the
smaller id. -/
theorem search_ties_not_by_id :
    "a".data < "b".data ∧
    (∀ (Score : Type) [LinearOrder Score] (ops : VectorOps Score),
      VectorRepository.SearchNotebooks ops sampleTieDB [⟨1⟩] 5 =
        .ok [⟨"b", ops.oneMinus (ops.distance [⟨7⟩] [⟨1⟩])⟩,
             ⟨"a", ops.oneMinus (ops.distance [⟨7⟩] [⟨1⟩])⟩]) ∧
    (∀ (Score : Type) [LinearOrder Score] (ops : VectorOps Score),
      VectorRepository.SearchFeatures ops sampleTieDB [⟨1⟩] 5 =
        .ok [⟨"b", ops.oneMinus (ops.distance [⟨7⟩] [⟨1⟩])⟩,
             ⟨"a", ops.oneMinus (ops.distance [⟨7⟩] [⟨1⟩])⟩]) := by
  have hf : sampleTieDB.faults = [] := by decide
  have hn : sampleTieDB.store.notebook_embedding =
      [⟨"b", [⟨7⟩], "m", 0⟩, ⟨"a", [⟨7⟩], "m", 0⟩] := by decide
  have hfe : sampleTieDB.store.feature_embedding =
      [⟨"b", [⟨7⟩], "m", 0⟩, ⟨"a", [⟨7⟩], "m", 0⟩] := by decide
  refine ⟨by decide, ?_, ?_⟩
  · intro Score _ ops
    unfold VectorRepository.SearchNotebooks
    rw [DB.QueryContextChecked_of_no_faults hf]
    simp [searchNotebookEmbeddings, hn, List.insertionSort, List.orderedInsert]
  · intro Score _ ops
    unfold VectorRepository.SearchFeatures
    rw [DB.QueryContextChecked_of_no_faults hf]
    simp [searchFeatureEmbeddings, hfe, List.insertionSort, List.orderedInsert]

/-- C20, amended: similarity search is a ranked, bounded prefix. For a limit that
is not negative and a query that goes through, `SearchNotebooks` and
`SearchFeatures` return the first `limit` rows of a ranking of all embeddings
by non-decreasing distance to the query, each as (id, `1 - distance`); the
result has at most `limit` entries and, `1 - x` being order-reversing, its
similarity scores do not increase. Nothing is said about the order of rows with
equal distance. -/
theorem search_ranked_bounded {Score : Type} [LinearOrder Score] (ops : VectorOps Score)
    (db : DB) (query : List Float32) (limit : Int) (hf : db.faults = []) (hl : 0 ≤ limit)
    (hanti : ∀ x y : Score, x ≤ y → ops.oneMinus y ≤ ops.oneMinus x) :
    (∃ (ranked : List NotebookEmbeddingRow) (results : List (SearchResult Score)),
      ranked.Perm db.store.notebook_embedding ∧
      ranked.Pairwise
        (fun a b => ops.distance a.embedding query ≤ ops.distance b.embedding query) ∧
      VectorRepository.SearchNotebooks ops db query limit = .ok results ∧
      results = (ranked.take limit.toNat).map (fun row =>
        { ID := row.notebook_id,
          Similarity := ops.oneMinus (ops.distance row.embedding query) }) ∧
      (results.length : Int) ≤ limit ∧
      results.Pairwise (fun a b => b.Similarity ≤ a.Similarity)) ∧
    (∃ (ranked : List FeatureEmbeddingRow) (results : List (SearchResult Score)),
      ranked.Perm db.store.feature_embedding ∧
      ranked.Pairwise
        (fun a b => ops.distance a.embedding query ≤ ops.distance b.embedding query) ∧
      VectorRepository.SearchFeatures ops db query limit = .ok results ∧
      results = (ranked.take limit.toNat).map (fun row =>
        { ID := row.feature_id,
          Similarity := ops.oneMinus (ops.distance row.embedding query) }) ∧
      (results.length : Int) ≤ limit ∧
      results.Pairwise (fun a b => b.Similarity ≤ a.Similarity)) := by
  have hnot : ¬ limit < 0 := not_lt.2 hl
  constructor
  · have hs := sort_by_key_asc
      (fun row : NotebookEmbeddingRow => ops.distance row.embedding query)
      db.store.notebook_embedding
    have hp := ranked_take_spec ops query (fun row : NotebookEmbeddingRow => row.embedding)
      (fun row => row.notebook_id) _ limit hl hanti hs.2
    refine ⟨_, _, hs.1, hs.2, ?_, rfl, hp.1, hp.2⟩
    unfold VectorRepository.SearchNotebooks
    rw [DB.QueryContextChecked_of_no_faults hf]
    simp only [searchNotebookEmbeddings, hnot, if_false]
  · have hs := sort_by_key_asc
      (fun row : FeatureEmbeddingRow => ops.distance row.embedding query)
      db.store.feature_embedding
    have hp := ranked_take_spec ops query (fun row : FeatureEmbeddingRow => row.embedding)
      (fun row => row.feature_id) _ limit hl hanti hs.2
    refine ⟨_, _, hs.1, hs.2, ?_, rfl, hp.1, hp.2⟩
    unfold VectorRepository.SearchFeatures
    rw [DB.QueryContextChecked_of_no_faults hf]
    simp only [searchFeatureEmbeddings, hnot, if_false]

/-- Witness for C20, amended: of the three embeddings `far`, `near`, `mid`, the
two nearest to the query `[5, 6]` are returned, nearest first. -/
theorem search_ranked_bounded_witness :
    VectorRepository.SearchNotebooks sampleOps sampleSearchDB [⟨5⟩, ⟨6⟩] 2 =
      .ok [⟨"near", 1⟩, ⟨"mid", 0⟩] ∧
    ∃ (ranked : List NotebookEmbeddingRow) (results : List (SearchResult Int)),
      ranked.Perm sampleSearchDB.store.notebook_embedding ∧
      ranked.Pairwise (fun a b =>
        sampleOps.distance a.embedding [⟨5⟩, ⟨6⟩] ≤
          sampleOps.distance b.embedding [⟨5⟩, ⟨6⟩]) ∧
      VectorRepository.SearchNotebooks sampleOps sampleSearchDB [⟨5⟩, ⟨6⟩] 2 = .ok results ∧
      results = (ranked.take (2 : Int).toNat).map (fun row =>
        { ID := row.notebook_id,
          Similarity := sampleOps.oneMinus (sampleOps.distance row.embedding [⟨5⟩, ⟨6⟩]) }) ∧
      (results.length : Int) ≤ 2 ∧
      results.Pairwise (fun a b => b.Similarity ≤ a.Similarity) :=
  ⟨by rfl,
    (search_ranked_bounded sampleOps sampleSearchDB [⟨5⟩, ⟨6⟩] 2 (by decide) (by decide)
      (fun x y h => by simp only [sampleOps]; omega)).1⟩

/-! ### The resource index stays keyed by URI -/

/-- A property of the store that a statement keeps is kept by `ExecContext`,
whether the statement fails or goes through. -/
theorem DB.ExecContext_preserves (P : Store → Prop) (db : DB) (stmt : Store → Store × Nat)
    (h : P db.store) (hstmt : P (stmt db.store).1) : P (db.ExecContext stmt).2.store := by
  rcases DB.ExecContext_store_cases db stmt with hc | hc
  · rw [hc]
    exact h
  · rw [hc]
    exact hstmt

/-- The tenant-side upsert keeps the resource index keyed. -/
theorem TenantRepository.updateResourceIndex_keyed (db : DB) (t : Tenant)
    (h : db.store.indexKeyed) :
    (TenantRepository.updateResourceIndex db t).2.store.indexKeyed := by
  have hp := DB.ExecContext_preserves Store.indexKeyed db
    (upsertResourceIndex t.URI "tenant" t.ID t.ID) h
    (upsertResourceIndex_spec _ _ _ _ _ h).2.2
  unfold TenantRepository.updateResourceIndex
  split <;> rename_i heq <;> rw [heq] at hp <;> exact hp

/-- Method `TenantRepository.Create` keeps the resource index keyed. -/
theorem TenantRepository.Create_keyed (db : DB) (t : Tenant) (h : db.store.indexKeyed) :
    (TenantRepository.Create db t).2.store.indexKeyed := by
  have hp := DB.ExecContext_preserves Store.indexKeyed db
    (insertTenant db.now t.ID t.Owner t.DisplayName t.Description (.marshalled t.Labels)
      t.Version t.LastModified) h h
  unfold TenantRepository.Create
  simp only [jsonMarshal]
  split
  · rename_i heq
    rw [heq] at hp
    exact hp
  · rename_i db1 heq
    rw [heq] at hp
    have h2 := TenantRepository.updateResourceIndex_keyed db1 t hp
    split <;> rename_i h3 <;> rw [h3] at h2 <;> exact h2

/-- Method `TenantRepository.Update` keeps the resource index keyed. -/
theorem TenantRepository.Update_keyed (db : DB) (t : Tenant) (h : db.store.indexKeyed) :
    (TenantRepository.Update db t).2.store.indexKeyed := by
  have hp := DB.ExecContext_preserves Store.indexKeyed db
    (updateTenant t.ID t.Owner t.DisplayName t.Description (.marshalled t.Labels) t.Version)
    h h
  unfold TenantRepository.Update
  simp only [jsonMarshal]
  split
  · rename_i heq
    rw [heq] at hp
    exact hp
  · rename_i db1 heq
    rw [heq] at hp
    have h2 := TenantRepository.updateResourceIndex_keyed db1 t hp
    split
    · exact hp
    · split <;> rename_i h3 <;> rw [h3] at h2 <;> exact h2

/-- Method `TenantRepository.Delete` keeps the resource index keyed. -/
theorem TenantRepository.Delete_keyed (db : DB) (id : String) (h : db.store.indexKeyed) :
    (TenantRepository.Delete db id).2.store.indexKeyed := by
  have hdel : (deleteTenant db.cascade id db.store).1.indexKeyed := by
    have hidx : (deleteTenant db.cascade id db.store).1.resource_index =
        db.store.resource_index := by
      unfold deleteTenant
      simp only []
      split
      · exact Store.removeNotebooks_resource_index _ _ _
      · rfl
    unfold Store.indexKeyed
    rw [hidx]
    exact h
  have hp := DB.ExecContext_preserves Store.indexKeyed db (deleteTenant db.cascade id) h hdel
  unfold TenantRepository.Delete
  split
  · rename_i heq
    rw [heq] at hp
    exact hp
  · rename_i db1 heq
    rw [heq] at hp
    have hfilter : (deleteTenantResourceIndex id db1.store).1.indexKeyed := by
      unfold Store.indexKeyed deleteTenantResourceIndex
      simp only []
      exact (List.Nodup.sublist (List.Sublist.map _ (List.filter_sublist _)) hp)
    have h2 := DB.ExecContext_preserves Store.indexKeyed db1 (deleteTenantResourceIndex id) hp
      hfilter
    split
    · exact hp
    · split <;> rename_i h3 <;> rw [h3] at h2 <;> exact h2

/-- The store that a successful `Create` of a notebook leaves has a keyed
resource index when the store before had one. -/
theorem Store.created_keyed (now : Nat) (n : Notebook) (s : Store) (h : s.indexKeyed) :
    (Store.created now n s).indexKeyed := by
  unfold Store.created
  simp only []
  apply (upsertResourceIndex_spec _ _ _ _ _ _).2.2
  unfold Store.indexKeyed
  show ((n.Contents.ContentBlocks.foldl (Store.addBlock n.ID) _).resource_index.map _).Nodup
  rw [(Store.foldl_addBlock_frame _ _ _).2.2.2.2]
  exact h

/-- In every store the repositories can produce, the resource index has at most
one row per URI. -/
theorem Reachable.indexKeyed {s : Store} (h : Reachable s) : s.indexKeyed := by
  induction h with
  | empty => exact List.nodup_nil
  | tenantCreate db t _ ih => exact TenantRepository.Create_keyed db t ih
  | tenantUpdate db t _ ih => exact TenantRepository.Update_keyed db t ih
  | tenantDelete db id _ ih => exact TenantRepository.Delete_keyed db id ih
  | notebookCreate db n _ ih =>
    rcases hc : NotebookRepository.Create db n with ⟨_ | err, db'⟩
    · rw [NotebookRepository.Create_ok hc]
      exact Store.created_keyed db.now n db.store ih
    · have he := NotebookRepository.Create_error db n err (by rw [hc])
      rw [hc] at he
      simp only at he ⊢
      rw [he]
      exact ih
  | notebookUpdate db n _ ih =>
    rcases hc : NotebookRepository.Update db n with ⟨_ | err, db'⟩
    · rw [(NotebookRepository.notebook_Update_ok hc).1]
      exact ih
    · have he := NotebookRepository.Update_error db n err (by rw [hc])
      rw [hc] at he
      simp only at he ⊢
      rw [he]
      exact ih
  | notebookDelete db id _ ih =>
    unfold Store.indexKeyed
    rw [NotebookRepository.Delete_resource_index]
    exact ih

/-! ### URIs of slash-free identifiers -/

/-- An entity all of whose identifier segments are free of `/` has a slash-free
tenant segment. -/
theorem tenantSlashFree_of_key (e : Entity) (h : ∀ s ∈ e.key, '/' ∉ s.data) :
    e.tenantSlashFree := by
  intro t ht
  cases e <;> simp only [Entity.tenantSegment] at ht <;>
    first
    | (cases ht; exact h _ (by simp [Entity.key]))
    | cases ht

/-- C27: for two entities, of the same or of different kinds, all of whose
identifier segments contain no `/`, equal `URI()` strings imply the same kind
and the same identifier segments. -/
theorem uri_collision_free (e₁ e₂ : Entity) (h₁ : ∀ s ∈ e₁.key, '/' ∉ s.data)
    (h₂ : ∀ s ∈ e₂.key, '/' ∉ s.data) (h : e₁.URI = e₂.URI) :
    e₁.kind = e₂.kind ∧ e₁.key = e₂.key :=
  uri_eq_same_entity e₁ e₂ (tenantSlashFree_of_key e₁ h₁) (tenantSlashFree_of_key e₂ h₂) h

/-- Witness for C27: notebook `n1` of tenant `t1` as filed in library `l1` and in
library `l2`; the two values have the same URI. -/
theorem uri_collision_free_witness :
    (Entity.notebook ⟨"t1", "n1", "l1", "draft", "", "", "", ⟨⟨""⟩, []⟩, []⟩).URI =
      (Entity.notebook ⟨"t1", "n1", "l2", "draft", "", "", "", ⟨⟨""⟩, []⟩, []⟩).URI ∧
    (Entity.notebook ⟨"t1", "n1", "l1", "draft", "", "", "", ⟨⟨""⟩, []⟩, []⟩).kind =
      (Entity.notebook ⟨"t1", "n1", "l2", "draft", "", "", "", ⟨⟨""⟩, []⟩, []⟩).kind ∧
    (Entity.notebook ⟨"t1", "n1", "l1", "draft", "", "", "", ⟨⟨""⟩, []⟩, []⟩).key =
      (Entity.notebook ⟨"t1", "n1", "l2", "draft", "", "", "", ⟨⟨""⟩, []⟩, []⟩).key :=
  ⟨by decide,
    uri_collision_free
      (Entity.notebook ⟨"t1", "n1", "l1", "draft", "", "", "", ⟨⟨""⟩, []⟩, []⟩)
      (Entity.notebook ⟨"t1", "n1", "l2", "draft", "", "", "", ⟨⟨""⟩, []⟩, []⟩)
      (by decide) (by decide) (by decide)⟩

/-! ### What `Update` leaves alone -/

/-- Table `tenant` after a successful `TenantRepository.Update`: the statement
`UPDATE tenant SET ...` applied to every row. -/
theorem tenant_Update_table {db db' : DB} {t : Tenant}
    (h : TenantRepository.Update db t = (none, db')) :
    db'.store.tenant = db.store.tenant.map (fun row =>
      if row.id = t.ID then
        { row with
          owner := t.Owner, display_name := t.DisplayName, description := t.Description,
          labels_json := .marshalled t.Labels, version := t.Version }
      else row) := by
  rw [(TenantRepository.Update_ok h).1, (upsertResourceIndex_frame _ _ _ _ _).1]
  rfl

/-- Rows related by a function are related position by position. -/
theorem forall₂_map_self {α : Type} (R : α → α → Prop) (f : α → α) (hf : ∀ a, R a (f a)) :
    ∀ l : List α, List.Forall₂ R l (l.map f)
  | [] => List.Forall₂.nil
  | a :: l => List.Forall₂.cons (hf a) (forall₂_map_self R f hf l)

/-- C29: a successful `TenantRepository.Update` with argument `t` keeps the rows
of table `tenant` in place; a row with the id of `t` keeps its `last_modified`
(and `created_at`), whatever `t.LastModified` is, and gets the owner, display
name, description, labels and version of `t`; every other row is unchanged; a
row with the id of `t` exists. So `Get`, if it returned the tenant `old` before
the call, afterwards returns `t` with the last-modified instant of `old`. -/
theorem tenant_update_keeps_last_modified (db db' : DB) (t : Tenant)
    (h : TenantRepository.Update db t = (none, db')) :
    List.Forall₂ (fun before after =>
        after.id = before.id ∧ after.last_modified = before.last_modified ∧
        after.created_at = before.created_at ∧
        (before.id = t.ID → after.owner = t.Owner ∧ after.display_name = t.DisplayName ∧
          after.description = t.Description ∧ after.labels_json = .marshalled t.Labels ∧
          after.version = t.Version) ∧
        (before.id ≠ t.ID → after = before))
      db.store.tenant db'.store.tenant ∧
    (∃ row ∈ db.store.tenant, row.id = t.ID) ∧
    (∀ old, TenantRepository.Get { db with faults := [] } t.ID = .ok old →
      TenantRepository.Get { db' with faults := [] } t.ID =
        .ok { t with LastModified := old.LastModified }) := by
  have htab := tenant_Update_table h
  refine ⟨?_, ?_, ?_⟩
  · rw [htab]
    apply forall₂_map_self
    intro row
    by_cases hid : row.id = t.ID
    · simp [hid]
    · simp [hid]
  · obtain ⟨r0, hr0⟩ := List.exists_mem_of_length_pos
      (Nat.pos_of_ne_zero (TenantRepository.Update_ok h).2)
    exact ⟨r0, (List.mem_filter.1 hr0).1, by simpa using (List.mem_filter.1 hr0).2⟩
  · intro old hold
    rw [TenantRepository.tenant_Get_of_no_faults rfl] at hold ⊢
    show (match selectTenant t.ID db'.store with
      | none => _
      | some row => _) = _
    simp only [selectTenant] at hold ⊢
    rw [htab, List.find?_map]
    cases hfind : db.store.tenant.find? (fun row => decide (row.id = t.ID)) with
    | none =>
      rw [hfind] at hold
      cases hold
    | some row =>
      have hid : row.id = t.ID := by simpa using List.find?_some hfind
      rw [hfind] at hold
      have hcomp : ((fun row : TenantRow => decide (row.id = t.ID)) ∘ (fun row : TenantRow =>
          if row.id = t.ID then
            { row with
              owner := t.Owner, display_name := t.DisplayName, description := t.Description,
              labels_json := .marshalled t.Labels, version := t.Version }
          else row)) = (fun row => decide (row.id = t.ID)) := by
        funext r
        by_cases hr : r.id = t.ID <;> simp [hr]
      rw [hcomp, hfind]
      simp only [Option.map_some', hid, if_true, jsonUnmarshal]
      cases hl : row.labels_json with
      | marshalled m =>
        simp only [hl, jsonUnmarshal] at hold
        injection hold with hold
        rw [← hold]
      | malformed raw =>
        simp only [hl, jsonUnmarshal] at hold
        cases hold

/-- Witness for C29: tenant `t1`, stored with last-modified instant 5, is updated
with an argument whose last-modified instant is 99. -/
theorem tenant_update_keeps_last_modified_witness :
    TenantRepository.Get
        { (TenantRepository.Update (TenantRepository.Create sampleDB (sampleTenant "a" "2")).2
            { sampleTenant "b" "7" with LastModified := 99 }).2 with faults := [] }
        "t1" = .ok { sampleTenant "b" "7" with LastModified := 5 } :=
  (tenant_update_keeps_last_modified
    (TenantRepository.Create sampleDB (sampleTenant "a" "2")).2
    (TenantRepository.Update (TenantRepository.Create sampleDB (sampleTenant "a" "2")).2
      { sampleTenant "b" "7" with LastModified := 99 }).2
    { sampleTenant "b" "7" with LastModified := 99 } (Prod.ext (by decide) rfl)).2.2
    (sampleTenant "a" "2") (by rfl)

/-- Tables after a successful `NotebookRepository.Update`. -/
theorem notebook_Update_tables {db db' : DB} {n : Notebook}
    (h : NotebookRepository.Update db n = (none, db')) :
    db'.store.notebook = db.store.notebook.map (fun row =>
      if row.id = n.ID then
        { row with
          status := n.Status, owner := n.Owner, display_name := n.DisplayName,
          description := n.Description }
      else row) ∧
    db'.store.notebook_content = db.store.notebook_content.map (fun row =>
      if row.notebook_id = n.ID then { row with markdown := n.Contents.Data.Markdown }
      else row) ∧
    db'.store.tenant = db.store.tenant ∧
    db'.store.content_block = db.store.content_block ∧
    db'.store.content_block_type = db.store.content_block_type ∧
    db'.store.notebook_notification = db.store.notebook_notification ∧
    db'.store.resource_index = db.store.resource_index ∧
    db'.store.notebook_embedding = db.store.notebook_embedding ∧
    db'.store.feature_embedding = db.store.feature_embedding := by
  rw [(NotebookRepository.notebook_Update_ok h).1]
  exact ⟨rfl, rfl, rfl, rfl, rfl, rfl, rfl, rfl, rfl⟩

/-- Method `NotebookRepository.Update` for a notebook that has a row, on a
connection without pending failures: no error. -/
theorem notebook_Update_of_no_faults (db : DB) (n : Notebook) (hf : db.faults = [])
    (hex : ∃ row ∈ db.store.notebook, row.id = n.ID) :
    (NotebookRepository.Update db n).1 = none := by
  obtain ⟨row, hrow, hid⟩ := hex
  have hlen : (db.store.notebook.filter (fun row => row.id = n.ID)).length ≠ 0 := by
    have hm : row ∈ db.store.notebook.filter (fun row => row.id = n.ID) :=
      List.mem_filter.2 ⟨hrow, by simpa using hid⟩
    exact Nat.ne_of_gt (List.length_pos_of_mem hm)
  obtain ⟨store, faults, now, cascade⟩ := db
  simp only at hf hlen
  subst hf
  simp only [NotebookRepository.Update, DB.BeginTx, DB.next, Tx.ExecContext, DB.ExecContext,
    updateNotebook, if_neg hlen, Tx.Commit]

/-- C28: a successful `NotebookRepository.Update` with argument `n` keeps the
rows of table `notebook` in place; a row with the id of `n` keeps its tenant id
and library id and gets the status, owner, display name and description of
`n`; every other row is unchanged. The content blocks, block type tags,
notifications and the resource index are unchanged, whatever `n` carries for
them. In table `notebook_content` the rows of the notebook get the markdown of
`n`; when the notebook has no content row the table is unchanged, and the
update of such a notebook succeeds when the calls to the driver go through. -/
theorem notebook_update_frame (db db' : DB) (n : Notebook)
    (h : NotebookRepository.Update db n = (none, db')) :
    List.Forall₂ (fun before after =>
        after.id = before.id ∧ after.tenant_id = before.tenant_id ∧
        after.library_id = before.library_id ∧ after.created_at = before.created_at ∧
        (before.id = n.ID → after.status = n.Status ∧ after.owner = n.Owner ∧
          after.display_name = n.DisplayName ∧ after.description = n.Description) ∧
        (before.id ≠ n.ID → after = before))
      db.store.notebook db'.store.notebook ∧
    (∃ row ∈ db.store.notebook, row.id = n.ID) ∧
    db'.store.content_block = db.store.content_block ∧
    db'.store.content_block_type = db.store.content_block_type ∧
    db'.store.notebook_notification = db.store.notebook_notification ∧
    db'.store.resource_index = db.store.resource_index ∧
    List.Forall₂ (fun before after =>
        after.notebook_id = before.notebook_id ∧
        (before.notebook_id = n.ID → after.markdown = n.Contents.Data.Markdown) ∧
        (before.notebook_id ≠ n.ID → after = before))
      db.store.notebook_content db'.store.notebook_content ∧
    ((∀ row ∈ db.store.notebook_content, row.notebook_id ≠ n.ID) →
      db'.store.notebook_content = db.store.notebook_content ∧
      (NotebookRepository.Update { db with faults := [] } n).1 = none) := by
  obtain ⟨hnb, hct, _, hcb, hcbt, hnn, hri, _, _⟩ := notebook_Update_tables h
  have hex : ∃ row ∈ db.store.notebook, row.id = n.ID := by
    obtain ⟨r0, hr0⟩ := List.exists_mem_of_length_pos
      (Nat.pos_of_ne_zero (NotebookRepository.notebook_Update_ok h).2)
    exact ⟨r0, (List.mem_filter.1 hr0).1, by simpa using (List.mem_filter.1 hr0).2⟩
  refine ⟨?_, hex, hcb, hcbt, hnn, hri, ?_, ?_⟩
  · rw [hnb]
    apply forall₂_map_self
    intro row
    by_cases hid : row.id = n.ID
    · simp [hid]
    · simp [hid]
  · rw [hct]
    apply forall₂_map_self
    intro row
    by_cases hid : row.notebook_id = n.ID
    · simp [hid]
    · simp [hid]
  · intro habs
    refine ⟨?_, notebook_Update_of_no_faults { db with faults := [] } n rfl hex⟩
    rw [hct]
    exact map_ite_absent _ _ _ habs

/-- Witness for C28: notebook `n1` is updated with an argument that names another
tenant and library and carries other blocks and notifications, in a store with
and in a store without a content row for `n1`. -/
theorem notebook_update_frame_witness :
    ((NotebookRepository.Update (sampleNotebookDB false) sampleNotebookUpdate).2.store.content_block =
        (sampleNotebookDB false).store.content_block ∧
      (NotebookRepository.Update (sampleNotebookDB false) sampleNotebookUpdate).2.store.content_block_type =
        (sampleNotebookDB false).store.content_block_type ∧
      (NotebookRepository.Update (sampleNotebookDB false) sampleNotebookUpdate).2.store.notebook_notification =
        (sampleNotebookDB false).store.notebook_notification ∧
      (NotebookRepository.Update (sampleNotebookDB false) sampleNotebookUpdate).2.store.resource_index =
        (sampleNotebookDB false).store.resource_index) ∧
    ((NotebookRepository.Update sampleNoContentDB sampleNotebookUpdate).2.store.notebook_content =
        sampleNoContentDB.store.notebook_content ∧
      (NotebookRepository.Update { sampleNoContentDB with faults := [] } sampleNotebookUpdate).1 =
        none) :=
  ⟨(fun h => ⟨h.2.2.1, h.2.2.2.1, h.2.2.2.2.1, h.2.2.2.2.2.1⟩)
      (notebook_update_frame (sampleNotebookDB false)
        (NotebookRepository.Update (sampleNotebookDB false) sampleNotebookUpdate).2
        sampleNotebookUpdate (Prod.ext (by decide) rfl)),
   (notebook_update_frame sampleNoContentDB
      (NotebookRepository.Update sampleNoContentDB sampleNotebookUpdate).2
      sampleNotebookUpdate (Prod.ext (by decide) rfl)).2.2.2.2.2.2.2
      (by intro row hrow; cases hrow)⟩

/-! ### Search within a tenant -/

/-- Rows of a list whose keys are pairwise distinct are equal when their keys are. -/
theorem eq_of_nodup_key {α K : Type} (key : α → K) :
    ∀ (l : List α), (l.map key).Nodup → ∀ a ∈ l, ∀ b ∈ l, key a = key b → a = b
  | [], _, a, ha, _, _, _ => by cases ha
  | x :: l, h, a, ha, b, hb, hk => by
    rw [List.map_cons, List.nodup_cons] at h
    rcases List.mem_cons.1 ha with rfl | ha' <;> rcases List.mem_cons.1 hb with rfl | hb'
    · rfl
    · exact absurd (by rw [hk]; exact List.mem_map_of_mem key hb') h.1
    · exact absurd (by rw [← hk]; exact List.mem_map_of_mem key ha') h.1
    · exact eq_of_nodup_key key l h.2 a ha' b hb' hk

/-- C21: every id that `SearchNotebooksByTenant(t, ...)` returns is the id of a
row of table `notebook` whose tenant id is `t` and the id of a stored
embedding; when the ids of table `notebook` are pairwise distinct, no notebook
of another tenant has a returned id. The search returns a result whenever the
query goes through and the limit is not negative. -/
theorem tenant_scoped_search {Score : Type} [LinearOrder Score] (ops : VectorOps Score)
    (db : DB) (t : String) (query : List Float32) (limit : Int) :
    (∀ results, VectorRepository.SearchNotebooksByTenant ops db t query limit = .ok results →
      ∀ r ∈ results,
        (∃ n ∈ db.store.notebook, n.id = r.ID ∧ n.tenant_id = t) ∧
        (∃ ne ∈ db.store.notebook_embedding, ne.notebook_id = r.ID) ∧
        (db.store.notebookKeyed → ∀ n ∈ db.store.notebook, n.tenant_id ≠ t → n.id ≠ r.ID)) ∧
    (db.faults = [] → 0 ≤ limit →
      ∃ results, VectorRepository.SearchNotebooksByTenant ops db t query limit = .ok results) := by
  constructor
  · intro results h r hr
    have hstore : (db.QueryContextChecked
        (searchNotebookEmbeddingsByTenant ops query t limit)).1 = .ok results := by
      unfold VectorRepository.SearchNotebooksByTenant at h
      split at h
      · cases h
      · rename_i heq
        rw [heq]
        injection h with h
        rw [h]
    have hsel : searchNotebookEmbeddingsByTenant ops query t limit db.store = .ok results := by
      unfold DB.QueryContextChecked at hstore
      split at hstore
      · cases hstore
      · rename_i db1 heq
        have hfr := DB.next_frame db
        rw [heq] at hfr
        simp only at hfr hstore
        rw [← hfr.1]
        exact hstore
    unfold searchNotebookEmbeddingsByTenant at hsel
    simp only at hsel
    split at hsel
    · cases hsel
    · injection hsel with hsel
      rw [← hsel] at hr
      obtain ⟨row, hrow, hrid⟩ := List.mem_map.1 hr
      have hrow2 := (List.perm_insertionSort _ _).mem_iff.1 (List.mem_of_mem_take hrow)
      obtain ⟨ne, hne, hin⟩ := List.mem_flatMap.1 hrow2
      obtain ⟨n, hn, hrn⟩ := List.mem_map.1 hin
      have hcond := (List.mem_filter.1 hn).2
      have hnmem := (List.mem_filter.1 hn).1
      simp only [decide_eq_true_eq] at hcond
      subst hrn
      have hid : r.ID = ne.notebook_id := by rw [← hrid]
      refine ⟨⟨n, hnmem, by rw [hid, hcond.1], hcond.2⟩, ⟨ne, hne, hid.symm⟩, ?_⟩
      intro hkey n2 hn2 hten heq
      have : n2 = n := eq_of_nodup_key (fun row : NotebookRow => row.id) _ hkey n2 hn2 n hnmem
        (by show n2.id = n.id; rw [heq, hid, hcond.1])
      rw [this] at hten
      exact hten hcond.2
  · intro hf hl
    unfold VectorRepository.SearchNotebooksByTenant
    rw [DB.QueryContextChecked_of_no_faults hf]
    simp only [searchNotebookEmbeddingsByTenant, not_lt.2 hl, if_false]
    exact ⟨_, rfl⟩

/-- Witness for C21: notebooks `n1` of tenant `t1` and `n2` of tenant `t2` both have an
embedding, and that of `n2` is the query itself; the search scoped to `t1`
returns `n1` only. -/
theorem tenant_scoped_search_witness :
    VectorRepository.SearchNotebooksByTenant sampleOps sampleScopedDB "t1" [⟨5⟩, ⟨6⟩] 10 =
      .ok [⟨"n1", -1⟩] ∧
    VectorRepository.SearchNotebooks sampleOps sampleScopedDB [⟨5⟩, ⟨6⟩] 10 =
      .ok [⟨"n2", 1⟩, ⟨"n1", -1⟩] ∧
    (∃ n ∈ sampleScopedDB.store.notebook, n.id = "n1" ∧ n.tenant_id = "t1") ∧
    (∃ ne ∈ sampleScopedDB.store.notebook_embedding, ne.notebook_id = "n1") ∧
    (∀ n ∈ sampleScopedDB.store.notebook, n.tenant_id ≠ "t1" → n.id ≠ "n1") :=
  ⟨by rfl, by rfl,
    (fun h => ⟨h.1, h.2.1, h.2.2 (by unfold Store.notebookKeyed; decide)⟩)
      ((tenant_scoped_search sampleOps sampleScopedDB "t1" [⟨5⟩, ⟨6⟩] 10).1 [⟨"n1", -1⟩]
        (by rfl) ⟨"n1", -1⟩ (List.mem_singleton.2 rfl))⟩

/-! ### Sibling orders on write -/

/-- A statement of a transaction whose connection has no pending failures is
applied, and none becomes pending. -/
theorem Tx.tx_ExecContext_of_no_faults {tx : Tx} (h : tx.conn.faults = [])
    (stmt : Store → Store × Nat) :
    tx.ExecContext stmt =
      (.ok (stmt tx.conn.store).2,
       { tx with conn := { tx.conn with store := (stmt tx.conn.store).1 } }) := by
  unfold Tx.ExecContext
  rw [DB.ExecContext_of_no_faults h]

/-- An `INSERT ... RETURNING` of a transaction whose connection has no pending
failures is applied. -/
theorem Tx.tx_QueryRowContext_of_no_faults {α : Type} {tx : Tx} (h : tx.conn.faults = [])
    (stmt : Store → Store × α) :
    tx.QueryRowContext stmt =
      (.ok (stmt tx.conn.store).2,
       { tx with conn := { tx.conn with store := (stmt tx.conn.store).1 } }) := by
  unfold Tx.QueryRowContext
  rw [DB.next_of_no_faults h]

/-- The loop over the block types does not fail when no failure is pending. -/
theorem createContentBlock_types_of_no_faults (blockID : Nat) :
    ∀ (types : List String) (tx : Tx), tx.conn.faults = [] →
      (NotebookRepository.createContentBlock_types tx blockID types).1 = none ∧
      (NotebookRepository.createContentBlock_types tx blockID types).2.conn.faults = []
  | [], tx, h => ⟨rfl, h⟩
  | typeName :: rest, tx, h => by
      unfold NotebookRepository.createContentBlock_types
      rw [Tx.tx_ExecContext_of_no_faults h]
      exact createContentBlock_types_of_no_faults blockID rest _ h

/-- Method `createContentBlock` does not fail when no failure is pending. -/
theorem createContentBlock_of_no_faults (tx : Tx) (notebookID : String) (block : ContentBlock)
    (h : tx.conn.faults = []) :
    (NotebookRepository.createContentBlock tx notebookID block).1 = none ∧
    (NotebookRepository.createContentBlock tx notebookID block).2.conn.faults = [] := by
  unfold NotebookRepository.createContentBlock
  rw [Tx.tx_QueryRowContext_of_no_faults h]
  exact createContentBlock_types_of_no_faults _ _ _ h

/-- The loop over the content blocks does not fail when no failure is pending. -/
theorem Create_blocks_of_no_faults (notebookID : String) :
    ∀ (blocks : List ContentBlock) (tx : Tx), tx.conn.faults = [] →
      (NotebookRepository.Create_blocks tx notebookID blocks).1 = none ∧
      (NotebookRepository.Create_blocks tx notebookID blocks).2.conn.faults = []
  | [], tx, h => ⟨rfl, h⟩
  | block :: rest, tx, h => by
      unfold NotebookRepository.Create_blocks
      have hb := createContentBlock_of_no_faults tx notebookID block h
      rcases hc : NotebookRepository.createContentBlock tx notebookID block with ⟨_ | err, tx1⟩
      · rw [hc] at hb
        exact Create_blocks_of_no_faults notebookID rest tx1 hb.2
      · rw [hc] at hb
        cases hb.1

/-- The loop over the notifications does not fail when no failure is pending. -/
theorem Create_notifications_of_no_faults (notebookID : String) :
    ∀ (notifs : List Notification) (tx : Tx), tx.conn.faults = [] →
      (NotebookRepository.Create_notifications tx notebookID notifs).1 = none ∧
      (NotebookRepository.Create_notifications tx notebookID notifs).2.conn.faults = []
  | [], tx, h => ⟨rfl, h⟩
  | notif :: rest, tx, h => by
      unfold NotebookRepository.Create_notifications
      rw [Tx.tx_ExecContext_of_no_faults h]
      exact Create_notifications_of_no_faults notebookID rest _ h

/-- The loop over the content blocks, started without a pending failure, ends
without an error and without a pending failure. -/
theorem Create_blocks_faults {tx tx' : Tx} {notebookID : String} {blocks : List ContentBlock}
    {r : Option String}
    (heq : NotebookRepository.Create_blocks tx notebookID blocks = (r, tx'))
    (hf : tx.conn.faults = []) : r = none ∧ tx'.conn.faults = [] := by
  have h := Create_blocks_of_no_faults notebookID blocks tx hf
  rw [heq] at h
  exact h

/-- The loop over the notifications, started without a pending failure, ends
without an error and without a pending failure. -/
theorem Create_notifications_faults {tx tx' : Tx} {notebookID : String}
    {notifs : List Notification} {r : Option String}
    (heq : NotebookRepository.Create_notifications tx notebookID notifs = (r, tx'))
    (hf : tx.conn.faults = []) : r = none ∧ tx'.conn.faults = [] := by
  have h := Create_notifications_of_no_faults notebookID notifs tx hf
  rw [heq] at h
  exact h

/-- Method `NotebookRepository.Create` returns no error when no failure is pending:
it rejects no notebook on its own account. -/
theorem Create_of_no_faults (db : DB) (n : Notebook) (hf : db.faults = []) :
    (NotebookRepository.Create db n).1 = none := by
  unfold NotebookRepository.Create
  rw [DB.BeginTx_of_no_faults hf]
  simp only
  rw [Tx.tx_ExecContext_of_no_faults hf]
  simp only
  rw [Tx.tx_ExecContext_of_no_faults hf]
  simp only
  split
  · rename_i heq
    cases (Create_blocks_faults heq hf).1
  · rename_i tx3 heq
    have hb := (Create_blocks_faults heq hf).2
    split
    · rename_i heq2
      cases (Create_notifications_faults heq2 hb).1
    · rename_i tx4 heq2
      have hn := (Create_notifications_faults heq2 hb).2
      unfold NotebookRepository.updateResourceIndex
      rw [Tx.tx_ExecContext_of_no_faults hn]
      simp only
      unfold Tx.Commit
      rw [DB.next_of_no_faults (show ({ tx4.conn with
        store := (upsertResourceIndex n.URI "notebook" n.ID n.TenantID tx4.conn.store).1 } :
          DB).faults = [] from hn)]

/-- The blocks scanned for a notebook depend on the two block tables only. -/
theorem Store.scanBlocks_congr {s t : Store} (id : String)
    (h1 : s.content_block = t.content_block)
    (h2 : s.content_block_type = t.content_block_type) :
    s.scanBlocks id = t.scanBlocks id := by
  have hf : ContentBlockRow.toBlock s = ContentBlockRow.toBlock t := by
    funext row
    simp [ContentBlockRow.toBlock, selectContentBlockTypes, h2]
  simp [Store.scanBlocks, h1, hf]

/-- The blocks of a new notebook lie in table `content_block` in the order
supplied, each with its type tags. -/
theorem Store.scanBlocks_created (now : Nat) (n : Notebook) (s : Store)
    (hfresh : ∀ row ∈ s.content_block, row.notebook_id ≠ n.ID) :
    (Store.created now n s).scanBlocks n.ID = n.Contents.ContentBlocks := by
  have hnil : (insertNotebookContent n.ID n.Contents.Data.Markdown
      (insertNotebook now n.ID n.TenantID n.LibraryID n.Status n.Owner n.DisplayName
        n.Description s).1).1.scanBlocks n.ID = [] := by
    unfold Store.scanBlocks
    rw [List.map_eq_nil_iff, List.filter_eq_nil_iff]
    intro row hrow
    simpa using hfresh row hrow
  have h := Store.scanBlocks_foldl n.ID n.Contents.ContentBlocks
    (insertNotebookContent n.ID n.Contents.Data.Markdown
      (insertNotebook now n.ID n.TenantID n.LibraryID n.Status n.Owner n.DisplayName
        n.Description s).1).1
  rw [hnil, List.nil_append] at h
  rw [← h]
  apply Store.scanBlocks_congr
  · unfold Store.created
    simp only
    rw [(upsertResourceIndex_frame _ _ _ _ _).2.2.2.1]
  · unfold Store.created
    simp only
    rw [(upsertResourceIndex_frame _ _ _ _ _).2.2.2.2.1]

/-- C26, as stated, fails: `Create` does not look at the `order` values. A
notebook with two root blocks of `order` 0 is created without an error on the
connection whose calls go through, and `Get` returns both blocks with `order`
0. -/
theorem create_accepts_equal_sibling_orders :
    sampleBlock0.ParentUID = sampleBlockSameOrder.ParentUID ∧
    sampleBlock0.Order = sampleBlockSameOrder.Order ∧
    (NotebookRepository.Create sampleDB
      (sampleNotebook [sampleBlock0, sampleBlockSameOrder])).1 = none ∧
    NotebookRepository.Get
      (NotebookRepository.Create sampleDB
        (sampleNotebook [sampleBlock0, sampleBlockSameOrder])).2 "n1" =
      .ok (sampleNotebook [sampleBlock0, sampleBlockSameOrder]) :=
  ⟨by decide, by decide, by decide, by rfl⟩

/-- C26, amended: `Create` stores the `order` values it is given. For every
notebook, on a connection whose calls go through and a store without content
blocks under the id, `Create` returns no error and the content blocks of the
notebook lie in the table in the order supplied, each with the uid, parent,
`order` and type tags supplied, whether or not sibling orders are distinct. -/
theorem create_stores_given_orders (db : DB) (n : Notebook) (hf : db.faults = [])
    (hfresh : ∀ row ∈ db.store.content_block, row.notebook_id ≠ n.ID) :
    (NotebookRepository.Create db n).1 = none ∧
    (NotebookRepository.Create db n).2.store.scanBlocks n.ID = n.Contents.ContentBlocks := by
  have hok := Create_of_no_faults db n hf
  refine ⟨hok, ?_⟩
  rw [NotebookRepository.Create_ok (Prod.ext hok rfl)]
  exact Store.scanBlocks_created db.now n db.store hfresh

/-- Witness for C26, amended: two root blocks of `order` 0, the second supplied first. -/
theorem create_stores_given_orders_witness :
    (NotebookRepository.Create sampleDB
      (sampleNotebook [sampleBlockSameOrder, sampleBlock0])).1 = none ∧
    (NotebookRepository.Create sampleDB
      (sampleNotebook [sampleBlockSameOrder, sampleBlock0])).2.store.scanBlocks
        (sampleNotebook [sampleBlockSameOrder, sampleBlock0]).ID =
      [sampleBlockSameOrder, sampleBlock0] :=
  create_stores_given_orders sampleDB (sampleNotebook [sampleBlockSameOrder, sampleBlock0])
    rfl (by intro row hrow; cases hrow)

/-! ### Appending a content block -/

/-- C25: the handler of `append_content_block` appends nothing. It answers every
request with the text `Append content block not yet implemented` and leaves
the connection as it was; after two requests to append a root paragraph to
notebook `n1`, created without blocks, `Get` still returns no content block. -/
theorem append_content_block_not_implemented :
    (∀ (db : DB) (request : CallToolRequest),
      Server.handleAppendContentBlock db request =
        (.text [("message", "Append content block not yet implemented")], db)) ∧
    (Server.handleCreateNotebook sampleDB (.ok ⟨"t1", "l1", "n1", "First", "", "# Hello"⟩)).1 =
      .text [("message", "Notebook created successfully"), ("notebookId", "n1"),
             ("notebookUri", "synthesis://tenant/t1/notebook/n1")] ∧
    (NotebookRepository.Get
      (Server.handleAppendContentBlock
        (Server.handleAppendContentBlock
          (Server.handleCreateNotebook sampleDB
            (.ok ⟨"t1", "l1", "n1", "First", "", "# Hello"⟩)).2
          sampleAppendRequest).2
        sampleAppendRequest).2 "n1").map (fun n => n.Contents.ContentBlocks) = .ok [] :=
  ⟨fun _ _ => rfl, by decide, by rfl⟩

/-! ### Reading the statements of the graph repository -/

/-- A fixed text at the head of the input is read, and the rest is left. -/
theorem expectText_append : ∀ (t rest : List Char), expectText t (t ++ rest) = some rest
  | [], rest => by cases rest <;> rfl
  | c :: t, rest => by
      show (if c = c then expectText t (t ++ rest) else none) = some rest
      rw [if_pos rfl, expectText_append t rest]

/-- A run of label characters is read up to the first other character. -/
theorem readLabel_append : ∀ (l : List Char) (c : Char) (rest : List Char),
    (∀ x ∈ l, isLabelChar x = true) → isLabelChar c = false →
    readLabel (l ++ c :: rest) = (l, c :: rest)
  | [], c, rest, _, hc => by
      show (if isLabelChar c = true then _ else _) = _
      rw [if_neg (by rw [hc]; decide)]
  | x :: l, c, rest, hl, hc => by
      have hx : isLabelChar x = true := hl x (List.mem_cons_self x l)
      have ih := readLabel_append l c rest (fun y hy => hl y (List.mem_cons_of_mem x hy)) hc
      rw [List.cons_append, readLabel, if_pos hx, ih]

/-- A literal without quote and backslash is read up to the closing quote. -/
theorem readLiteral_append : ∀ (l rest : List Char),
    (∀ x ∈ l, x ≠ quoteChar ∧ x ≠ escapeChar) →
    readLiteral false (l ++ quoteChar :: rest) = some (l, rest)
  | [], rest, _ => by
      show (if false = true then _ else if quoteChar = quoteChar then _ else _) = _
      simp
  | x :: l, rest, hl => by
      have hx := hl x (List.mem_cons_self x l)
      have ih := readLiteral_append l rest (fun y hy => hl y (List.mem_cons_of_mem x hy))
      rw [List.cons_append, readLiteral, if_neg (by decide), if_neg hx.1, if_neg hx.2, ih]
      rfl

/-- A run of label characters is read up to a text that starts with another
character. -/
theorem readLabel_before (l m rest : List Char) (hl : ∀ x ∈ l, isLabelChar x = true)
    (hm : (m.head?.map isLabelChar) = some false) :
    readLabel (l ++ (m ++ rest)) = (l, m ++ rest) := by
  cases m with
  | nil => cases hm
  | cons c m =>
    simp only [List.head?_cons, Option.map_some', Option.some.injEq] at hm
    exact readLabel_append l c (m ++ rest) hl hm

/-- The characters of the statement of `CreateRelationship`. -/
theorem createRelationshipQuery_data (fromType fromID toType toID relType : String) :
    (createRelationshipQuery fromType fromID toType toID relType).data =
      "\n\t\tSELECT * FROM cypher(\x27synthesis_graph\x27, $$\n\t\t\tMATCH (a:".data ++
        (fromType.data ++ (" \x7bid: \x27".data ++ (fromID.data ++ quoteChar ::
          ("\x7d)\n\t\t\tMATCH (b:".data ++ (toType.data ++ (" \x7bid: \x27".data ++
            (toID.data ++ quoteChar :: ("\x7d)\n\t\t\tMERGE (a)-[:".data ++ (relType.data ++
              "]->(b)\n\t\t$$) as (result agtype);\n\t".data))))))))) := by
  have h2 : "\x27\x7d)\n\t\t\tMATCH (b:".data = quoteChar :: "\x7d)\n\t\t\tMATCH (b:".data := by
    decide
  have h3 : "\x27\x7d)\n\t\t\tMERGE (a)-[:".data =
      quoteChar :: "\x7d)\n\t\t\tMERGE (a)-[:".data := by decide
  unfold createRelationshipQuery
  rw [String.data_append, String.data_append, String.data_append, String.data_append,
    String.data_append, String.data_append, String.data_append, String.data_append,
    String.data_append, String.data_append, h2, h3]
  simp only [List.append_assoc, List.cons_append]

/-- The statement of `CreateRelationship` for plain identifiers is read as the
`MERGE` of the edge between the two named nodes. -/
theorem parseMerge_createRelationshipQuery (fromType fromID toType toID relType : String)
    (h1 : plainLabel fromType) (h2 : plainLiteral fromID) (h3 : plainLabel toType)
    (h4 : plainLiteral toID) (h5 : plainLabel relType) :
    parseMerge (createRelationshipQuery fromType fromID toType toID relType).data =
      some (.merge fromType fromID toType toID relType) := by
  rw [createRelationshipQuery_data]
  unfold parseMerge
  rw [expectText_append]
  simp only [Option.bind_eq_bind, Option.some_bind]
  rw [readLabel_before _ _ _ h1.2 (by decide)]
  simp only
  rw [expectText_append]
  simp only [Option.some_bind]
  rw [readLiteral_append _ _ h2]
  simp only [Option.some_bind]
  rw [expectText_append]
  simp only [Option.some_bind]
  rw [readLabel_before _ _ _ h3.2 (by decide)]
  simp only
  rw [expectText_append]
  simp only [Option.some_bind]
  rw [readLiteral_append _ _ h4]
  simp only [Option.some_bind]
  rw [expectText_append]
  simp only [Option.some_bind]
  have hT : relType.data ++ "]->(b)\n\t\t$$) as (result agtype);\n\t".data =
      relType.data ++ ("]->(b)\n\t\t$$) as (result agtype);\n\t".data ++ []) := by
    rw [List.append_nil]
  rw [hT, readLabel_before _ _ _ h5.2 (by decide)]
  simp only
  rw [expectText_append]
  simp only [Option.some_bind]
  rw [if_pos ⟨h1.1, h3.1, h5.1, trivial⟩]

/-- The statement of `CreateRelationship` for plain identifiers, as the database
reads it. -/
theorem parseCypher_createRelationshipQuery (fromType fromID toType toID relType : String)
    (h1 : plainLabel fromType) (h2 : plainLiteral fromID) (h3 : plainLabel toType)
    (h4 : plainLiteral toID) (h5 : plainLabel relType) :
    parseCypher (createRelationshipQuery fromType fromID toType toID relType).data =
      some (.merge fromType fromID toType toID relType) := by
  unfold parseCypher
  rw [parseMerge_createRelationshipQuery _ _ _ _ _ h1 h2 h3 h4 h5]

/-! ### Merging a relationship -/

/-- The two statements that prepare the session change nothing. -/
theorem executeGraph_session (g : Graph) :
    executeGraph "LOAD \x27age\x27" g = .ok g ∧
    executeGraph "SET search_path = ag_catalog, \"$user\", public" g = .ok g := by
  have h1 : parseCypher "LOAD \x27age\x27".data = none := by decide
  have h2 : parseCypher "SET search_path = ag_catalog, \"$user\", public".data = none := by
    decide
  unfold executeGraph
  rw [h1, h2]
  simp

/-- A statement text on a connection without pending failures is executed. -/
theorem GraphDB.graph_ExecContext_of_no_faults {db : GraphDB} (h : db.conn.faults = [])
    (query : String) :
    db.ExecContext query =
      match executeGraph query db.graph with
      | .error err => (some err, db)
      | .ok g => (none, { db with graph := g }) := by
  unfold GraphDB.ExecContext
  rw [DB.next_of_no_faults h]

/-- Method `CreateRelationship` with plain identifiers on a connection without
pending failures runs the `MERGE` statement on the graph. -/
theorem CreateRelationship_of_no_faults (db : GraphDB)
    (fromType fromID relType toType toID : String) (hf : db.conn.faults = [])
    (h1 : plainLabel fromType) (h2 : plainLiteral fromID) (h3 : plainLabel toType)
    (h4 : plainLiteral toID) (h5 : plainLabel relType) :
    GraphRepository.CreateRelationship db fromType fromID relType toType toID =
      (none, { db with graph :=
        (CypherStatement.merge fromType fromID toType toID relType).run db.graph }) := by
  unfold GraphRepository.CreateRelationship
  rw [GraphDB.graph_ExecContext_of_no_faults hf, (executeGraph_session db.graph).1]
  simp only
  rw [GraphDB.graph_ExecContext_of_no_faults hf, (executeGraph_session db.graph).2]
  simp only
  rw [GraphDB.graph_ExecContext_of_no_faults hf]
  unfold executeGraph
  rw [parseCypher_createRelationshipQuery _ _ _ _ _ h1 h2 h3 h4 h5]

/-- What the `MERGE` statement does to the graph, by cases. -/
theorem merge_run_cases (fromType fromID toType toID relType : String) (g : Graph) :
    ((CypherStatement.merge fromType fromID toType toID relType).run g).nodes = g.nodes ∧
    (g.hasNode fromType fromID = true → g.hasNode toType toID = true →
      g.edgesBetween fromID toID relType = [] →
      ((CypherStatement.merge fromType fromID toType toID relType).run g).edges =
        g.edges ++ [⟨fromID, toID, relType, []⟩]) ∧
    (g.edgesBetween fromID toID relType ≠ [] →
      (CypherStatement.merge fromType fromID toType toID relType).run g = g) ∧
    ((g.hasNode fromType fromID = false ∨ g.hasNode toType toID = false) →
      (CypherStatement.merge fromType fromID toType toID relType).run g = g) := by
  have hany : g.edges.any (fun e => e.FromID = fromID ∧ e.ToID = toID ∧ e.Type_ = relType) =
      true ↔ g.edgesBetween fromID toID relType ≠ [] := by
    unfold Graph.edgesBetween
    rw [Ne, List.filter_eq_nil_iff, List.any_eq_true]
    push_neg
    rfl
  have hrun : (CypherStatement.merge fromType fromID toType toID relType).run g =
      if g.hasNode fromType fromID = true ∧ g.hasNode toType toID = true then
        if g.edges.any (fun e => e.FromID = fromID ∧ e.ToID = toID ∧ e.Type_ = relType) then g
        else { g with edges := g.edges ++ [⟨fromID, toID, relType, []⟩] }
      else g := rfl
  rw [hrun]
  refine ⟨?_, ?_, ?_, ?_⟩
  · split
    · split <;> rfl
    · rfl
  · intro ha hb he
    have hno : ¬ (g.edges.any
        (fun e => e.FromID = fromID ∧ e.ToID = toID ∧ e.Type_ = relType) = true) := by
      rw [hany]
      exact fun h => h he
    rw [if_pos ⟨ha, hb⟩, if_neg hno]
  · intro he
    split
    · rw [if_pos (hany.2 he)]
    · rfl
  · intro h
    rw [if_neg]
    rintro ⟨ha, hb⟩
    rcases h with h | h
    · rw [h] at ha
      cases ha
    · rw [h] at hb
      cases hb

/-- Running the `MERGE` statement a second time changes nothing. -/
theorem merge_run_idem (fromType fromID toType toID relType : String) (g : Graph) :
    (CypherStatement.merge fromType fromID toType toID relType).run
      ((CypherStatement.merge fromType fromID toType toID relType).run g) =
    (CypherStatement.merge fromType fromID toType toID relType).run g := by
  have hc := merge_run_cases fromType fromID toType toID relType g
  by_cases ha : g.hasNode fromType fromID = true
  · by_cases hb : g.hasNode toType toID = true
    · by_cases he : g.edgesBetween fromID toID relType = []
      · apply (merge_run_cases fromType fromID toType toID relType _).2.2.1
        unfold Graph.edgesBetween
        rw [hc.2.1 ha hb he, List.filter_append]
        simp
      · rw [hc.2.2.1 he, hc.2.2.1 he]
    · have hb2 : g.hasNode toType toID = false := by simpa using hb
      rw [hc.2.2.2 (Or.inr hb2), hc.2.2.2 (Or.inr hb2)]
  · have ha2 : g.hasNode fromType fromID = false := by simpa using ha
    rw [hc.2.2.2 (Or.inl ha2), hc.2.2.2 (Or.inl ha2)]

/-- C24, as stated, fails: `CreateRelationship` takes no property map, and its
statement matches the two nodes before it merges the edge. On a graph without
nodes the call for product `p1` and notebook `n1` returns no error and leaves
the graph without nodes and edges; on a graph that has the edge with a
property the call leaves that property in place. -/
theorem create_relationship_needs_nodes :
    GraphRepository.CreateRelationship sampleEmptyGraphDB "Product" "p1" "USES" "Notebook" "n1" =
      (none, sampleEmptyGraphDB) ∧
    sampleEmptyGraphDB.graph.nodes = [] ∧ sampleEmptyGraphDB.graph.edges = [] ∧
    GraphRepository.CreateRelationship sampleEdgeDB "Product" "p1" "USES" "Notebook" "n1" =
      (none, sampleEdgeDB) ∧
    sampleEdgeDB.graph.edges = [⟨"p1", "n1", "USES", [("since", "2024")]⟩] := by
  decide

/-- C24, amended: for plain identifiers and calls that go through,
`CreateRelationship` returns no error and a second call with the same
arguments changes nothing. It never creates a node. When both end nodes exist,
it appends one edge without properties if no edge has the key (from id, to id,
relationship type), leaves the graph as it is if one has, and so leaves exactly
one edge with the key when there was at most one. When an end node does not
exist it changes nothing. -/
theorem create_relationship_merges (db : GraphDB)
    (fromType fromID relType toType toID : String) (hf : db.conn.faults = [])
    (h1 : plainLabel fromType) (h2 : plainLiteral fromID) (h3 : plainLabel toType)
    (h4 : plainLiteral toID) (h5 : plainLabel relType) :
    (GraphRepository.CreateRelationship db fromType fromID relType toType toID).1 = none ∧
    GraphRepository.CreateRelationship
        (GraphRepository.CreateRelationship db fromType fromID relType toType toID).2
        fromType fromID relType toType toID =
      (none, (GraphRepository.CreateRelationship db fromType fromID relType toType toID).2) ∧
    (GraphRepository.CreateRelationship db fromType fromID relType toType toID).2.graph.nodes =
      db.graph.nodes ∧
    (db.graph.hasNode fromType fromID = true → db.graph.hasNode toType toID = true →
      (db.graph.edgesBetween fromID toID relType = [] →
        (GraphRepository.CreateRelationship db fromType fromID relType toType
          toID).2.graph.edges = db.graph.edges ++ [⟨fromID, toID, relType, []⟩]) ∧
      (db.graph.edgesBetween fromID toID relType ≠ [] →
        (GraphRepository.CreateRelationship db fromType fromID relType toType toID).2.graph =
          db.graph) ∧
      ((db.graph.edgesBetween fromID toID relType).length ≤ 1 →
        ((GraphRepository.CreateRelationship db fromType fromID relType toType
          toID).2.graph.edgesBetween fromID toID relType).length = 1)) ∧
    ((db.graph.hasNode fromType fromID = false ∨ db.graph.hasNode toType toID = false) →
      (GraphRepository.CreateRelationship db fromType fromID relType toType toID).2.graph =
        db.graph) := by
  have hrun := CreateRelationship_of_no_faults db fromType fromID relType toType toID hf
    h1 h2 h3 h4 h5
  have hc := merge_run_cases fromType fromID toType toID relType db.graph
  rw [hrun]
  refine ⟨rfl, ?_, hc.1, ?_, hc.2.2.2⟩
  · have h2nd := CreateRelationship_of_no_faults
      { conn := db.conn,
        graph := (CypherStatement.merge fromType fromID toType toID relType).run db.graph }
      fromType fromID relType toType toID hf h1 h2 h3 h4 h5
    simp only [merge_run_idem] at h2nd
    exact h2nd
  · intro ha hb
    refine ⟨hc.2.1 ha hb, hc.2.2.1, ?_⟩
    intro hle
    by_cases he : db.graph.edgesBetween fromID toID relType = []
    · show (Graph.edgesBetween _ fromID toID relType).length = 1
      unfold Graph.edgesBetween
      rw [hc.2.1 ha hb he, List.filter_append]
      unfold Graph.edgesBetween at he
      rw [he]
      simp
    · show (Graph.edgesBetween _ fromID toID relType).length = 1
      rw [hc.2.2.1 he]
      exact Nat.le_antisymm hle (List.length_pos.2 he)

/-- Witness for C24, amended: the edge `USES` from product `p1` to notebook `n1`, both
in the graph, is created by the first call and left alone by the second. -/
theorem create_relationship_merges_witness :
    (GraphRepository.CreateRelationship sampleTwoNodesDB "Product" "p1" "USES" "Notebook"
      "n1").2.graph.edges = [⟨"p1", "n1", "USES", []⟩] ∧
    GraphRepository.CreateRelationship
        (GraphRepository.CreateRelationship sampleTwoNodesDB "Product" "p1" "USES" "Notebook"
          "n1").2 "Product" "p1" "USES" "Notebook" "n1" =
      (none, (GraphRepository.CreateRelationship sampleTwoNodesDB "Product" "p1" "USES"
        "Notebook" "n1").2) :=
  (fun h => ⟨(h.2.2.2.1 (by decide) (by decide)).1 (by decide), h.2.1⟩)
    (create_relationship_merges sampleTwoNodesDB "Product" "p1" "USES" "Notebook" "n1" rfl
      (by unfold plainLabel; decide) (by unfold plainLiteral; decide)
      (by unfold plainLabel; decide) (by unfold plainLiteral; decide)
      (by unfold plainLabel; decide))

/-! ### Traversal -/

/-- C22: the traversal methods return no node. `GetNeighbors` and
`FindNotebooksForProduct` prepare the session and then return the empty list,
whatever the graph, the start node and the bound are. In the graph with the
paths `s -> a -> b -> x` and `s -> c -> d -> x` the traversal as specified
reaches `a, b, c, d` within 2 hops and also `x`, once, within 3 hops; both
methods return nothing for the bound 3. -/
theorem traversal_returns_no_node :
    (∀ (db : GraphDB) (nodeID : String) (distance : Int),
      (GraphRepository.GetNeighbors db nodeID distance).1 = .ok [] ∨
      ∃ err, (GraphRepository.GetNeighbors db nodeID distance).1 = .error err) ∧
    (∀ (db : GraphDB) (productID : String) (maxHops : Int),
      (GraphRepository.FindNotebooksForProduct db productID maxHops).1 = .ok [] ∨
      ∃ err, (GraphRepository.FindNotebooksForProduct db productID maxHops).1 = .error err) ∧
    traverseRelationshipsSpec sampleChain "s" 2 = ["s", "a", "c", "b", "d"] ∧
    traverseRelationshipsSpec sampleChain "s" 3 = ["s", "a", "c", "b", "d", "x"] ∧
    GraphRepository.GetNeighbors sampleChainDB "s" 3 = (.ok [], sampleChainDB) ∧
    GraphRepository.FindNotebooksForProduct sampleChainDB "s" 3 = (.ok [], sampleChainDB) := by
  refine ⟨?_, ?_, by decide, by decide, by rfl, by rfl⟩
  · intro db nodeID distance
    unfold GraphRepository.GetNeighbors
    split
    · exact Or.inr ⟨_, rfl⟩
    · split
      · exact Or.inr ⟨_, rfl⟩
      · exact Or.inl rfl
  · intro db productID maxHops
    unfold GraphRepository.FindNotebooksForProduct
    split
    · exact Or.inr ⟨_, rfl⟩
    · split
      · exact Or.inr ⟨_, rfl⟩
      · exact Or.inl rfl

/-- C23: a bound of 0 hops is not honoured. The handler of `graph_query_resources`
replaces `max_hops` 0 by 2 before anything else and answers with an empty
`results` array, whatever the graph is; `GetNeighbors` with distance 0 returns
the empty list. In the graph `sampleChain` the node `s` exists, and the
traversal as specified returns exactly `s` for 0 hops. -/
theorem zero_hops_not_honoured :
    (Server.handleGraphQueryResources_args ⟨"", "s", 0⟩).MaxHops = 2 ∧
    (∀ (db : GraphDB) (args : GraphQueryArgs),
      Server.handleGraphQueryResources db (.ok args) =
        (.text [("message", "Graph queries use Apache AGE integration"),
                ("resource_id", args.ResourceID), ("results", "[]")], db)) ∧
    traverseRelationshipsSpec sampleChain "s" 0 = ["s"] ∧
    GraphRepository.GetNeighbors sampleChainDB "s" 0 = (.ok [], sampleChainDB) := by
  refine ⟨by decide, ?_, by decide, by rfl⟩
  intro db args
  by_cases h : args.MaxHops = 0 <;>
    simp [Server.handleGraphQueryResources, Server.handleGraphQueryResources_args, h]

/-! ### Statement texts -/

/-- C30: the statement texts are the templates with the arguments inserted as
they are. An id with a single quote ends the string literal at that quote: of
`o'brien` the literal read is `o`, and the statement is not read as the `MERGE`
(or `DELETE`) of the edge between the named nodes. Two different tuples of
arguments give the same text. -/
theorem relationship_statements_verbatim :
    (∀ fromType fromID toType toID relType : String,
      createRelationshipQuery fromType fromID toType toID relType =
        "\n\t\tSELECT * FROM cypher(\x27synthesis_graph\x27, $$\n\t\t\tMATCH (a:" ++ fromType ++
          " \x7bid: \x27" ++ fromID ++ "\x27\x7d)\n\t\t\tMATCH (b:" ++ toType ++
          " \x7bid: \x27" ++ toID ++ "\x27\x7d)\n\t\t\tMERGE (a)-[:" ++ relType ++
          "]->(b)\n\t\t$$) as (result agtype);\n\t") ∧
    (∀ fromID relType toID : String,
      deleteRelationshipQuery fromID relType toID =
        "\n\t\tSELECT * FROM cypher(\x27synthesis_graph\x27, $$\n\t\t\tMATCH (a \x7bid: \x27" ++
          fromID ++ "\x27\x7d)-[r:" ++ relType ++ "]->(b \x7bid: \x27" ++ toID ++
          "\x27\x7d)\n\t\t\tDELETE r\n\t\t$$) as (result agtype);\n\t") ∧
    (∀ rest : List Char,
      readLiteral false ("o\x27brien".data ++ quoteChar :: rest) =
        some ("o".data, "brien".data ++ quoteChar :: rest)) ∧
    parseCypher (createRelationshipQuery "Product" "p1" "Notebook" "n1" "USES").data =
      some (.merge "Product" "p1" "Notebook" "n1" "USES") ∧
    parseCypher (createRelationshipQuery "Product" "o\x27brien" "Notebook" "n1" "USES").data ≠
      some (.merge "Product" "o\x27brien" "Notebook" "n1" "USES") ∧
    parseCypher (deleteRelationshipQuery "p1" "USES" "n1").data =
      some (.delete "p1" "USES" "n1") ∧
    parseCypher (deleteRelationshipQuery "o\x27brien" "USES" "n1").data ≠
      some (.delete "o\x27brien" "USES" "n1") ∧
    ("A \x7bid: \x27x", "y") ≠ ("A", "x \x7bid: \x27y") ∧
    createRelationshipQuery "A \x7bid: \x27x" "y" "B" "z" "R" =
      createRelationshipQuery "A" "x \x7bid: \x27y" "B" "z" "R" ∧
    ("x", "R]->(b \x7bid: \x27y\x27\x7d)-[r:S") ≠ ("x\x27\x7d)-[r:R]->(b \x7bid: \x27y", "S") ∧
    deleteRelationshipQuery "x" "R]->(b \x7bid: \x27y\x27\x7d)-[r:S" "z" =
      deleteRelationshipQuery "x\x27\x7d)-[r:R]->(b \x7bid: \x27y" "S" "z" := by
  refine ⟨fun _ _ _ _ _ => rfl, fun _ _ _ => rfl, fun _ => rfl, by decide, by decide, by decide,
    by decide, by decide, by decide, by decide, by decide⟩

end Synthesis
